import Mathlib

/-! Pylontech CAN bus emulation of the diyBMS controller.

A shallow embedding of `ESPController/src/pylon_canbus.cpp`: the six frames of the
low-voltage protocol (`pylon_message_351` .. `pylon_message_356`) and the fourteen
frames and two bursts of the high-voltage protocol (`pylonHV_message_0x....`).

The C++ functions read global state (`mysettings`, `rules`, `currentMonitor`, `cmi`,
`_controller_state`) and call `send_canbus_message` and `delay`.  Here the global state
is one explicit `Snapshot` value and the calls are recorded, in order, in a trace.

Conventions of the embedding
* machine integers are `Nat` / `Int`; every store into a fixed-width C variable is an
  explicit wrap (`u8`, `u16`, `i8`, `i16`);
* a struct handed to the transport through `(uint8_t *)&data` is laid out little-endian
  without padding (the ESP32 is little-endian and every struct here has only fields of
  one width);
* an integer division by zero stops execution (`Fault.divideByZero`); what was sent
  before stays in the trace;
* `float` readings of the current monitor are rationals holding the exact value of the
  `float`; every `float` operation rounds its exact result to the nearest `float`
  (`f32round`), a product with a `double` constant is exact, and the conversion to an
  integer truncates toward zero; NaN and the infinities have no counterpart;
* `ESP_LOGI` logging has no effect on the bus and is left out.
-/

namespace PylonCanbus

/-! ## Fixed-width arithmetic -/

/-- Store into a `uint8_t`: reduction modulo 2^8. -/
def u8 (x : Int) : Nat := (x % 256).toNat

/-- Store into a `uint16_t`: reduction modulo 2^16. -/
def u16 (x : Int) : Nat := (x % 65536).toNat

/-- Store into an `int8_t`: two's complement wrap to -128 .. 127. -/
def i8 (x : Int) : Int := (x + 128) % 256 - 128

/-- Store into an `int16_t`: two's complement wrap to -32768 .. 32767. -/
def i16 (x : Int) : Int := (x + 32768) % 65536 - 32768

/-- The byte `x & 0xFF` stored into a `uint8_t`. -/
def loByte (x : Int) : Nat := u8 (x % 256)

/-- The byte `x >> 8` stored into a `uint8_t` (arithmetic shift, then truncation). -/
def hiByte (x : Int) : Nat := u8 (x / 256)

/-- In-memory bytes of a 16-bit field (either signedness), least significant first. -/
def le16 (x : Int) : List Nat := [u16 x % 256, u16 x / 256]

/-- Value of a little-endian unsigned 16-bit field. -/
def decodeLE16 (b0 b1 : Nat) : Nat := b0 + 256 * b1

/-- Conversion of a floating-point value to an integer type: truncation toward zero. -/
def truncToInt (q : ℚ) : Int := Int.tdiv q.num (q.den : Int)

/-- The binary exponent of `n ≥ 1`, that is the largest `k` with `2^k ≤ n`, found by
halving; a fuel of `n` always suffices. -/
def log2Fuel : Nat → Nat → Nat
  | 0, _ => 0
  | fuel + 1, n => if n < 2 then 0 else log2Fuel fuel (n / 2) + 1

/-- The largest `e` with `2^e ≤ n / d`, for positive `n` and `d`: the binary exponent of
the quotient. -/
def floorLog2 (n d : Nat) : Int :=
  let e0 : Int := (log2Fuel n n : Int) - (log2Fuel d d : Int)
  let below : Bool :=
    if 0 ≤ e0 then decide (n < d * 2 ^ e0.toNat) else decide (n * 2 ^ (-e0).toNat < d)
  if below then e0 - 1 else e0

/-- The integer nearest to `n / d`, a tie going to the even one. -/
def roundHalfEven (n d : Nat) : Nat :=
  let k := n / d
  let r := n % d
  if 2 * r < d then k
  else if d < 2 * r then k + 1
  else if k % 2 = 0 then k else k + 1

/-- The `float` nearest to `n / d` (positive `n` and `d`) as a pair `(m, shift)` standing
for `m / 2^shift`: IEEE 754 binary32, 24 significant bits, ties to even, gradual underflow
below 2^-126. -/
def f32roundPos (n d : Nat) : Nat × Int :=
  let e : Int := max (floorLog2 n d) (-126)
  let shift : Int := 23 - e
  let m : Nat :=
    if 0 ≤ shift then roundHalfEven (n * 2 ^ shift.toNat) d
    else roundHalfEven n (d * 2 ^ (-shift).toNat)
  (m, shift)

/-- Rounding of an exact result to the nearest `float`.  This is what the
single-precision `*` and `+` of the ESP32 apply to their exact result. -/
def f32round (q : ℚ) : ℚ :=
  if q = 0 then 0
  else
    let r : Nat × Int := f32roundPos q.num.natAbs q.den
    let mag : ℚ :=
      if 0 ≤ r.2 then (r.1 : ℚ) / (2 ^ r.2.toNat : Nat)
      else (r.1 : ℚ) * (2 ^ (-r.2).toNat : Nat)
    if q < 0 then -mag else mag

/-- The value of `round(c / 74.0)` for an unsigned `c`: nearest integer, ties away from
zero.  The double quotient is correctly rounded and a tie `k + 0.5` is exact in binary,
so the result is the integer `(c + 37) / 74`. -/
def roundDiv74 (c : Nat) : Nat := (c + 37) / 74

/-! ## Types declared in `defines.h` and `Rules.h`

Each enumeration carries the members that `pylon_canbus.cpp` names and one more member
standing for every other value; `Rule` lists the rules the file consults.  Each structure
carries the members the file reads. -/

/-- Controller lifecycle state; the code only ever tests for `Running`. -/
inductive ControllerState where
  | Running
  | NotRunning
  deriving DecidableEq

/-- Inverter brand selector; the code only singles out `INVERTER_DEYE`. -/
inductive CanBusInverter where
  | INVERTER_DEYE
  | INVERTER_GENERIC
  deriving DecidableEq

/-- Kind of current monitor device. -/
inductive CurrentMonitorDevice where
  | DIYBMS_CURRENT_MON_MODBUS
  | DIYBMS_CURRENT_MON_INTERNAL
  | DIYBMS_CURRENT_MON_UNSUPPORTED
  deriving DecidableEq

/-- Charging mode reported by the rules engine; the code only tests for `floating`. -/
inductive ChargingMode where
  | floating
  | notFloating
  deriving DecidableEq

/-- The rule outcomes consulted by the frame encoders. -/
inductive Rule where
  | EmergencyStop
  | BMSError
  | CurrentMonitorOverCurrentAmps
  | CurrentMonitorOverVoltage
  | CurrentMonitorUnderVoltage
  | BankOverVoltage
  | BankUnderVoltage
  | ModuleOverVoltage
  | ModuleUnderVoltage
  | ModuleOverTemperatureInternal
  | ModuleUnderTemperatureInternal
  | ModuleOverTemperatureExternal
  | ModuleUnderTemperatureExternal
  deriving DecidableEq

/-- The members of `mysettings` read by the encoders. -/
structure diybms_eeprom_settings where
  canbusinverter : CanBusInverter
  chargevolt : Nat
  dischargevolt : Nat
  dischargecurrent : Nat
  chargetemphigh : Int
  chargetemplow : Int
  cellminmv : Nat
  cellmaxmv : Nat
  stopchargebalance : Bool
  nominalbatcap : Nat
  totalNumberOfBanks : Nat
  totalNumberOfSeriesModules : Nat
  currentMonitoringEnabled : Bool
  currentMonitoringDevice : CurrentMonitorDevice
  currentMonitoring_batterycapacity : Nat

/-- The members of `rules` read by the encoders.  `IsChargeAllowed`, `IsDischargeAllowed`,
`DynamicChargeVoltage`, `DynamicChargeCurrent`, `getChargingMode` and
`StateOfChargeWithRulesApplied` are methods of the rules engine; the snapshot holds the
value each of them returns in the current cycle. -/
structure Rules where
  ruleOutcome : Rule → Bool
  IsChargeAllowed : Bool
  IsDischargeAllowed : Bool
  DynamicChargeVoltage : Nat
  DynamicChargeCurrent : Int
  getChargingMode : ChargingMode
  StateOfChargeWithRulesApplied : Nat
  numberOfBalancingModules : Nat
  lowestBankVoltage : Nat
  highestBankVoltage : Nat
  lowestCellVoltage : Nat
  highestCellVoltage : Nat
  address_LowestCellVoltage : Nat
  address_HighestCellVoltage : Nat
  moduleHasExternalTempSensor : Bool
  lowestExternalTemp : Int
  highestExternalTemp : Int
  address_lowestExternalTemp : Nat
  address_highestExternalTemp : Nat

/-- The member `currentMonitor.modbus`.  `voltage` and `current` are `float` in C; here
each holds the exact value of that `float`. -/
structure currentmonitor_raw_modbus where
  voltage : ℚ
  current : ℚ
  milliamphour_out : Nat

/-- The members of `currentMonitor` read by the encoders. -/
structure currentmonitoring_struct where
  validReadings : Bool
  modbus : currentmonitor_raw_modbus

/-- Everything the encoders read during one cycle. -/
structure Snapshot where
  controller_state : ControllerState
  mysettings : diybms_eeprom_settings
  rules : Rules
  currentMonitor : currentmonitoring_struct
  TotalNumberOfCells : Nat
  cmi_internalTemp : Nat → Int

/-! ## Transport trace -/

/-- One call observed on the bus side: `send_canbus_message(identifier, buffer, length)`
or `delay(ms)`. -/
inductive Event where
  | send (identifier : Nat) (buffer : List Nat) (length : Nat)
  | delay (ms : Nat)
  deriving DecidableEq

/-- Reason for which execution stops before the end of a function. -/
inductive Fault where
  | divideByZero
  deriving DecidableEq

/-- What one function call did: the calls it made, oldest first, and the fault that
stopped it, if any. -/
structure Outcome where
  sent : List Event
  fault : Option Fault
  deriving DecidableEq

/-- A function that returned without calling the transport. -/
def Outcome.nothing : Outcome := ⟨[], none⟩

/-- The call `send_canbus_message(identifier, buffer, length)` followed by return. -/
def send_canbus_message (identifier : Nat) (buffer : List Nat) (length : Nat) : Outcome :=
  ⟨[Event.send identifier buffer length], none⟩

/-- A function stopped by an integer division by zero before any call. -/
def Outcome.crash : Outcome := ⟨[], some Fault.divideByZero⟩

/-- Sequencing of two statements: the second runs only if the first did not fault. -/
def Outcome.andThen (a : Outcome) (b : Outcome) : Outcome :=
  match a.fault with
  | some f => ⟨a.sent, some f⟩
  | none => ⟨a.sent ++ b.sent, b.fault⟩

/-- The call `delay(ms)`. -/
def delay (ms : Nat) : Outcome := ⟨[Event.delay ms], none⟩

/-- The bytes the transport is asked to put on the wire: the first `length` bytes of the
buffer. -/
def Event.payload : Event → List Nat
  | Event.send _ buffer length => buffer.take length
  | Event.delay _ => []

/-- Identifiers handed to the transport, in order. -/
def Outcome.identifiers (o : Outcome) : List Nat :=
  o.sent.filterMap fun ev =>
    match ev with
    | Event.send identifier _ _ => some identifier
    | Event.delay _ => none

/-- Payloads handed to the transport, in order. -/
def Outcome.payloads (o : Outcome) : List (List Nat) :=
  o.sent.filterMap fun ev =>
    match ev with
    | Event.send _ buffer length => some (buffer.take length)
    | Event.delay _ => none

/-- For each frame handed to the transport: its identifier, the `length` argument and the
number of bytes the buffer really provides for it. -/
def Outcome.frameSizes (o : Outcome) : List (Nat × Nat × Nat) :=
  o.sent.filterMap fun ev =>
    match ev with
    | Event.send identifier buffer length => some (identifier, length, (buffer.take length).length)
    | Event.delay _ => none

/-! ## Low-voltage protocol -/

/-- The local struct `data351` of `pylon_message_351`. -/
structure data351 where
  battery_charge_voltage : Nat
  battery_charge_current_limit : Int
  battery_discharge_current_limit : Int
  battery_discharge_voltage : Nat
  deriving DecidableEq

/-- In-memory bytes of `data351` (two unsigned and two signed 16-bit fields). -/
def data351.bytes (d : data351) : List Nat :=
  le16 d.battery_charge_voltage ++ le16 d.battery_charge_current_limit ++
    le16 d.battery_discharge_current_limit ++ le16 d.battery_discharge_voltage

/-- The struct `data` as `pylon_message_351` has filled it when it calls the transport. -/
def pylon_message_351_data (s : Snapshot) : data351 :=
  let battery_discharge_voltage : Nat := u16 s.mysettings.dischargevolt
  let default_charge_voltage : Nat := 1
  let default_charge_current_limit : Int := 1
  let default_discharge_current_limit : Int := 1
  let deye : Bool := s.mysettings.canbusinverter = CanBusInverter.INVERTER_DEYE
  let default_charge_voltage : Nat :=
    if deye then u16 (s.rules.lowestBankVoltage / 100 : Nat) else default_charge_voltage
  let default_charge_current_limit : Int := if deye then 0 else default_charge_current_limit
  let default_discharge_current_limit : Int :=
    if deye then 0 else default_discharge_current_limit
  let battery_charge_voltage := default_charge_voltage
  let battery_charge_current_limit := default_charge_current_limit
  let battery_discharge_current_limit := default_discharge_current_limit
  let battery_charge_voltage : Nat :=
    if s.rules.IsChargeAllowed then
      if s.rules.numberOfBalancingModules > 0 ∧ s.mysettings.stopchargebalance = true then
        battery_charge_voltage
      else u16 s.rules.DynamicChargeVoltage
    else battery_charge_voltage
  let battery_charge_current_limit : Int :=
    if s.rules.IsChargeAllowed then
      if s.rules.numberOfBalancingModules > 0 ∧ s.mysettings.stopchargebalance = true then
        battery_charge_current_limit
      else i16 s.rules.DynamicChargeCurrent
    else battery_charge_current_limit
  let battery_discharge_current_limit : Int :=
    if s.rules.IsDischargeAllowed then i16 s.mysettings.dischargecurrent
    else battery_discharge_current_limit
  { battery_charge_voltage := battery_charge_voltage
    battery_charge_current_limit := battery_charge_current_limit
    battery_discharge_current_limit := battery_discharge_current_limit
    battery_discharge_voltage := battery_discharge_voltage }

/-- Frame 0x351: battery voltage and current limits. -/
def pylon_message_351 (s : Snapshot) : Outcome :=
  send_canbus_message 0x351 (pylon_message_351_data s).bytes 8

/-- The guard of `pylon_message_355` and of the SOC/SOH part of `pylonHV_message_0x4210`:
current monitoring enabled, readings valid, device MODBUS or INTERNAL. -/
def currentMonitorSupported (s : Snapshot) : Bool :=
  s.mysettings.currentMonitoringEnabled && s.currentMonitor.validReadings &&
    (decide (s.mysettings.currentMonitoringDevice =
        CurrentMonitorDevice.DIYBMS_CURRENT_MON_MODBUS) ||
      decide (s.mysettings.currentMonitoringDevice =
        CurrentMonitorDevice.DIYBMS_CURRENT_MON_INTERNAL))

/-- Frame 0x355: state of charge and state of health (struct of two `uint16_t`). -/
def pylon_message_355 (s : Snapshot) : Outcome :=
  if s.controller_state ≠ ControllerState.Running then Outcome.nothing
  else if currentMonitorSupported s then
    let stateofchargevalue : Nat := u16 s.rules.StateOfChargeWithRulesApplied
    let stateofhealthvalue : Nat := 100
    send_canbus_message 0x355 (le16 stateofchargevalue ++ le16 stateofhealthvalue) 4
  else Outcome.nothing

/-- The local struct `data359` of `pylon_message_359`: eight `uint8_t`. -/
structure data359 where
  byte0 : Nat
  byte1 : Nat
  byte2 : Nat
  byte3 : Nat
  byte4 : Nat
  byte5 : Nat
  byte6 : Nat
  byte7 : Nat
  deriving DecidableEq

/-- In-memory bytes of `data359`. -/
def data359.bytes (d : data359) : List Nat :=
  [d.byte0, d.byte1, d.byte2, d.byte3, d.byte4, d.byte5, d.byte6, d.byte7]

/-- The struct `data` as `pylon_message_359` has filled it when it calls the transport. -/
def pylon_message_359_data (s : Snapshot) : data359 :=
  let running : Bool := s.controller_state = ControllerState.Running
  let sensor : Bool := s.rules.moduleHasExternalTempSensor
  let byte0 : Nat := 0
  let byte2 : Nat := 0
  let byte3 : Nat := 0
  let byte0 : Nat :=
    if running then
      let byte0 := byte0 |||
        (if s.rules.ruleOutcome Rule.BankOverVoltage ||
            s.rules.ruleOutcome Rule.CurrentMonitorOverVoltage then 0x02 else 0)
      let byte0 := byte0 |||
        (if s.rules.ruleOutcome Rule.BankUnderVoltage ||
            s.rules.ruleOutcome Rule.CurrentMonitorUnderVoltage then 0x04 else 0)
      let byte0 := if sensor then
        byte0 ||| (if s.rules.ruleOutcome Rule.ModuleOverTemperatureExternal then 0x08 else 0)
        else byte0
      let byte0 := if sensor then
        byte0 ||| (if s.rules.ruleOutcome Rule.ModuleUnderTemperatureExternal then 0x10 else 0)
        else byte0
      byte0
    else byte0
  let byte2 : Nat :=
    if running then
      let byte2 : Nat := 0
      let byte2 :=
        if s.rules.highestBankVoltage / 100 > s.mysettings.chargevolt then byte2 ||| 0x02
        else byte2
      let byte2 :=
        if s.rules.lowestBankVoltage / 100 < s.mysettings.dischargevolt then byte2 ||| 0x04
        else byte2
      let byte2 :=
        if sensor && decide (s.rules.highestExternalTemp > s.mysettings.chargetemphigh) then
          byte2 ||| 0x08
        else byte2
      let byte2 :=
        if sensor && decide (s.rules.lowestExternalTemp < s.mysettings.chargetemplow) then
          byte2 ||| 0x10
        else byte2
      byte2
    else byte2
  let byte3 := byte3 |||
    (if s.rules.ruleOutcome Rule.BMSError || s.rules.ruleOutcome Rule.EmergencyStop then 0x08
      else 0)
  let byte3 := byte3 ||| (if running then 0 else 0x08)
  let byte4 : Nat :=
    if s.mysettings.currentMonitoringEnabled && s.currentMonitor.validReadings then
      max (u8 1) (u8 (roundDiv74 s.mysettings.nominalbatcap))
    else 1
  { byte0 := byte0, byte1 := 0, byte2 := byte2, byte3 := byte3, byte4 := byte4,
    byte5 := 0x50, byte6 := 0x4e, byte7 := 0 }

/-- Frame 0x359: protection and alarm flags. -/
def pylon_message_359 (s : Snapshot) : Outcome :=
  send_canbus_message 0x359 (pylon_message_359_data s).bytes 8

/-- The single byte of `pylon_message_35c`. -/
def pylon_message_35c_data (s : Snapshot) : Nat :=
  let byte0 : Nat := 0
  let byte0 := if s.rules.IsChargeAllowed then byte0 ||| 0x80 else byte0
  let byte0 := if s.rules.IsDischargeAllowed then byte0 ||| 0x40 else byte0
  byte0

/-- Frame 0x35C: battery charge request flags. -/
def pylon_message_35c (s : Snapshot) : Outcome :=
  send_canbus_message 0x35c [pylon_message_35c_data s] 1

/-- Frame 0x35E: manufacturer name.  The array has eight bytes, the length handed to the
transport is `sizeof(pylon) - 1`. -/
def pylon_message_35e (_s : Snapshot) : Outcome :=
  let pylon : List Nat := [0x50, 0x59, 0x4c, 0x4f, 0x4e, 0x20, 0x20, 0x20]
  send_canbus_message 0x35e pylon (pylon.length - 1)

/-- The local struct `data356` of `pylon_message_356`: three `int16_t`. -/
structure data356 where
  voltage : Int
  current : Int
  temperature : Int
  deriving DecidableEq

/-- In-memory bytes of `data356`. -/
def data356.bytes (d : data356) : List Nat :=
  le16 d.voltage ++ le16 d.current ++ le16 d.temperature

/-- The struct `data` as `pylon_message_356` has filled it when it calls the transport.
`voltage * 100.0` is a `double` product, exact for a `float` operand; `current * 10` is a
`float` product and is rounded. -/
def pylon_message_356_data (s : Snapshot) : data356 :=
  let monitored : Bool :=
    s.mysettings.currentMonitoringEnabled && s.currentMonitor.validReadings
  let voltage : Int :=
    if monitored then i16 (truncToInt (s.currentMonitor.modbus.voltage * 100))
    else i16 (s.rules.highestBankVoltage / 10 : Nat)
  let current : Int :=
    if monitored then i16 (truncToInt (f32round (s.currentMonitor.modbus.current * 10)))
    else 0
  let temperature : Int :=
    if s.rules.moduleHasExternalTempSensor then i16 (i16 s.rules.highestExternalTemp * 10)
    else 0
  { voltage := voltage, current := current, temperature := temperature }

/-- Frame 0x356: voltage, current, temperature. -/
def pylon_message_356 (s : Snapshot) : Outcome :=
  send_canbus_message 0x356 (pylon_message_356_data s).bytes 6

/-! ## High-voltage protocol -/

/-- The constant of `pylon_canbus.h` added to every long identifier. -/
def DEFAULT_DEVICE_ID_ADDRESS : Nat := 1

/-- Frame 0x7310: hardware and software version. -/
def pylonHV_message_0x7310 (extend : Bool) (_s : Snapshot) : Outcome :=
  let data : List Nat := [0x01, 0x00, 0x10, 0x02, 0x04, 0x05, 0x34, 0x0C]
  let address : Nat := 0x731
  let address : Nat := if extend then 0x7310 + DEFAULT_DEVICE_ID_ADDRESS else address
  send_canbus_message address data 8

/-- Frame 0x7320: cell count, bank count, cells per bank, nominal voltage, capacity. -/
def pylonHV_message_0x7320 (extend : Bool) (s : Snapshot) : Outcome :=
  if s.mysettings.totalNumberOfBanks = 0 then Outcome.crash
  else
    let nominal_voltage : Nat :=
      u16 (s.mysettings.cellmaxmv * s.mysettings.totalNumberOfSeriesModules / 1000 : Nat)
    let capacity : Nat := u16 s.mysettings.nominalbatcap
    let data : List Nat :=
      [u8 s.mysettings.totalNumberOfSeriesModules,
       0x00,
       u8 s.mysettings.totalNumberOfBanks,
       u8 (s.mysettings.totalNumberOfSeriesModules / s.mysettings.totalNumberOfBanks : Nat),
       loByte nominal_voltage,
       hiByte nominal_voltage,
       loByte capacity,
       hiByte capacity]
    let address : Nat := 0x732
    let address : Nat := if extend then 0x7320 + DEFAULT_DEVICE_ID_ADDRESS else address
    send_canbus_message address data 8

/-- Frame 0x7330: manufacturer name, first part ("PYLONTEC"). -/
def pylonHV_message_0x7330 (extend : Bool) (_s : Snapshot) : Outcome :=
  let data : List Nat := [0x50, 0x59, 0x4C, 0x4F, 0x4E, 0x54, 0x45, 0x43]
  let address : Nat := 0x733
  let address : Nat := if extend then 0x7330 + DEFAULT_DEVICE_ID_ADDRESS else address
  send_canbus_message address data 8

/-- Frame 0x7340: manufacturer name, second part ("H"). -/
def pylonHV_message_0x7340 (extend : Bool) (_s : Snapshot) : Outcome :=
  let data : List Nat := [0x48, 0x00, 0x00, 0x00, 0x00, 0x00, 0x00, 0x00]
  let address : Nat := 0x734
  let address : Nat := if extend then 0x7340 + DEFAULT_DEVICE_ID_ADDRESS else address
  send_canbus_message address data 8

/-- The info burst. -/
def pylonHV_send_message_info (extend : Bool) (s : Snapshot) : Outcome :=
  if s.controller_state ≠ ControllerState.Running then Outcome.nothing
  else
    (pylonHV_message_0x7320 extend s).andThen <|
    (delay 10).andThen <|
    (pylonHV_message_0x7330 extend s).andThen <|
    (delay 10).andThen <|
    (pylonHV_message_0x7310 extend s).andThen <|
    (delay 10).andThen <|
    pylonHV_message_0x7340 extend s

/-- The local `temperature` of `pylonHV_message_0x4210` (an `int16_t`) when the frame is
assembled. -/
def pylonHV_message_0x4210_temperature (s : Snapshot) : Int :=
  let temperature : Int := 1000
  if s.rules.moduleHasExternalTempSensor then i16 (temperature + s.rules.highestExternalTemp)
  else i16 (temperature + 250)

/-- Frame 0x4210: voltage, current, temperature, SOC, SOH of the pack.  With a current
monitor, `voltage * 10` is a rounded `float` product and `current += ... * 10` adds the
rounded `float` product to 30000 in `float`, rounding again, before the truncation. -/
def pylonHV_message_0x4210 (extend : Bool) (s : Snapshot) : Outcome :=
  let current : Int := 30000
  let stateofchargevalue : Nat := 0
  let stateofhealthvalue : Nat := 0
  if s.controller_state ≠ ControllerState.Running then Outcome.nothing
  else
    let stateofchargevalue : Nat :=
      if currentMonitorSupported s then u16 s.rules.StateOfChargeWithRulesApplied
      else stateofchargevalue
    let stateofhealthvalue : Nat :=
      if currentMonitorSupported s then 100 else stateofhealthvalue
    let monitored : Bool :=
      s.mysettings.currentMonitoringEnabled && s.currentMonitor.validReadings
    let voltage : Nat :=
      if monitored then u16 (truncToInt (f32round (s.currentMonitor.modbus.voltage * 10)))
      else u16 (s.rules.highestBankVoltage / 100 : Nat)
    let current : Int :=
      if monitored then
        i16 (truncToInt (f32round (current + f32round (s.currentMonitor.modbus.current * 10))))
      else i16 (current + 0)
    let temperature : Int := pylonHV_message_0x4210_temperature s
    let data : List Nat :=
      [loByte voltage, hiByte voltage, loByte current, hiByte current,
       loByte temperature, hiByte temperature,
       loByte stateofchargevalue, loByte stateofhealthvalue]
    let address : Nat := 0x421
    let address : Nat := if extend then 0x4210 + DEFAULT_DEVICE_ID_ADDRESS else address
    send_canbus_message address data 8

/-- The locals `charge_voltage`, `discharge_voltage` (both `uint16_t`), `charge_current`
and `discharge_current` (both `int16_t`) of `pylonHV_message_0x4220`. -/
structure data4220 where
  charge_voltage : Nat
  discharge_voltage : Nat
  charge_current : Int
  discharge_current : Int
  deriving DecidableEq

/-- The locals of `pylonHV_message_0x4220` when the frame is assembled. -/
def pylonHV_message_0x4220_data (s : Snapshot) : data4220 :=
  let charge_current : Int := 30000
  let discharge_current : Int := 30000
  let charge_voltage : Nat := u16 s.mysettings.chargevolt
  let discharge_voltage : Nat := u16 s.mysettings.dischargevolt
  let charge_voltage : Nat :=
    if s.rules.IsChargeAllowed then
      if s.rules.numberOfBalancingModules > 0 ∧ s.mysettings.stopchargebalance = true then
        charge_voltage
      else u16 s.rules.DynamicChargeVoltage
    else charge_voltage
  let charge_current : Int :=
    if s.rules.IsChargeAllowed then
      if s.rules.numberOfBalancingModules > 0 ∧ s.mysettings.stopchargebalance = true then
        charge_current
      else i16 (charge_current + s.rules.DynamicChargeCurrent)
    else charge_current
  let discharge_current : Int :=
    if s.rules.IsDischargeAllowed then i16 (discharge_current - s.mysettings.dischargecurrent)
    else discharge_current
  { charge_voltage := charge_voltage, discharge_voltage := discharge_voltage,
    charge_current := charge_current, discharge_current := discharge_current }

/-- Frame 0x4220: charge voltage, discharge voltage, charge current, discharge current. -/
def pylonHV_message_0x4220 (extend : Bool) (s : Snapshot) : Outcome :=
  let d : data4220 := pylonHV_message_0x4220_data s
  let data : List Nat :=
    [loByte d.charge_voltage, hiByte d.charge_voltage,
     loByte d.discharge_voltage, hiByte d.discharge_voltage,
     loByte d.charge_current, hiByte d.charge_current,
     loByte d.discharge_current, hiByte d.discharge_current]
  let address : Nat := 0x422
  let address : Nat := if extend then 0x4220 + DEFAULT_DEVICE_ID_ADDRESS else address
  send_canbus_message address data 8

/-- Frame 0x4230: maximum and minimum cell voltage with their cell indices. -/
def pylonHV_message_0x4230 (extend : Bool) (s : Snapshot) : Outcome :=
  let id_cell_vmax : Nat := u8 s.rules.address_HighestCellVoltage
  let cell_vmax : Nat := u16 s.rules.highestCellVoltage
  let id_cell_vmin : Nat := u8 s.rules.address_LowestCellVoltage
  let cell_vmin : Nat := u16 s.rules.lowestCellVoltage
  let data : List Nat :=
    [loByte cell_vmax, hiByte cell_vmax, loByte cell_vmin, hiByte cell_vmin,
     id_cell_vmax, 0x00, id_cell_vmin, 0x00]
  let address : Nat := 0x423
  let address : Nat := if extend then 0x4230 + DEFAULT_DEVICE_ID_ADDRESS else address
  send_canbus_message address data 8

/-- The four locals updated by the loop over the cells in `pylonHV_message_0x4240` and
`pylonHV_message_0x4270`. -/
structure TempScan where
  id_cell_tmax : Nat
  cell_tmax : Int
  id_cell_tmin : Nat
  cell_tmin : Int
  deriving DecidableEq

/-- The locals before the loop: the aggregates of the rules engine. -/
def tempScanInit (s : Snapshot) : TempScan :=
  { id_cell_tmax := u8 s.rules.address_highestExternalTemp
    cell_tmax := i8 s.rules.highestExternalTemp
    id_cell_tmin := u8 s.rules.address_lowestExternalTemp
    cell_tmin := i8 s.rules.lowestExternalTemp }

/-- One iteration of the loop body, for the cell `idcell`. -/
def tempScanStep (s : Snapshot) (st : TempScan) (idcell : Nat) : TempScan :=
  let st : TempScan :=
    if s.cmi_internalTemp idcell > st.cell_tmax then
      { st with cell_tmax := i8 (s.cmi_internalTemp idcell), id_cell_tmax := u8 idcell }
    else st
  let st : TempScan :=
    if s.cmi_internalTemp idcell < st.cell_tmin then
      { st with cell_tmin := i8 (s.cmi_internalTemp idcell), id_cell_tmin := u8 idcell }
    else st
  st

/-- The loop `for (idcell = 0; idcell < series; idcell++)` with
`series = TotalNumberOfCells()` stored in a `uint8_t`; the same text stands in
`pylonHV_message_0x4240` and in `pylonHV_message_0x4270`. -/
def tempScan (s : Snapshot) : TempScan :=
  let series : Nat := u8 s.TotalNumberOfCells
  (List.range series).foldl (tempScanStep s) (tempScanInit s)

/-- Frame 0x4240: maximum and minimum cell temperature with their cell indices. -/
def pylonHV_message_0x4240 (extend : Bool) (s : Snapshot) : Outcome :=
  let st : TempScan := tempScan s
  let tmax : Nat := u16 (1000 + st.cell_tmax * 10)
  let tmin : Nat := u16 (1000 + st.cell_tmin * 10)
  let data : List Nat :=
    [loByte tmax, hiByte tmax, loByte tmin, hiByte tmin,
     st.id_cell_tmax, 0x00, st.id_cell_tmin, 0x00]
  let address : Nat := 0x424
  let address : Nat := if extend then 0x4240 + DEFAULT_DEVICE_ID_ADDRESS else address
  send_canbus_message address data 8

/-- The local `status` of `pylonHV_message_0x4250`. -/
def pylonHV_message_0x4250_status (s : Snapshot) : Nat :=
  let status : Nat := 0x00
  let status : Nat := if s.currentMonitor.modbus.current > 0 then 0x01 else status
  let status : Nat :=
    if s.rules.getChargingMode = ChargingMode.floating then 0x03 else status
  let status : Nat := if s.currentMonitor.modbus.current < 0 then 0x02 else status
  status

/-- The local `error` of `pylonHV_message_0x4250`. -/
def pylonHV_message_0x4250_error (s : Snapshot) : Nat :=
  let error : Nat := 0x00
  let error : Nat := if s.rules.ruleOutcome Rule.EmergencyStop then error ||| 0x80 else error
  let error : Nat := if s.rules.ruleOutcome Rule.BMSError then error ||| 0x04 else error
  error

/-- The local `alarm` of `pylonHV_message_0x4250`. -/
def pylonHV_message_0x4250_alarm (s : Snapshot) : Nat :=
  let alarm : Nat := 0x0000
  let alarm : Nat :=
    if s.rules.ruleOutcome Rule.ModuleOverTemperatureExternal ||
        s.rules.ruleOutcome Rule.ModuleOverTemperatureInternal then alarm ||| 0x00A0
    else alarm
  let alarm : Nat :=
    if s.rules.ruleOutcome Rule.ModuleUnderTemperatureExternal ||
        s.rules.ruleOutcome Rule.ModuleUnderTemperatureInternal then alarm ||| 0x0050
    else alarm
  let alarm : Nat :=
    if s.rules.ruleOutcome Rule.CurrentMonitorOverCurrentAmps then alarm ||| 0x0300
    else alarm
  let alarm : Nat :=
    if s.rules.ruleOutcome Rule.BankOverVoltage then alarm ||| 0x0808 else alarm
  let alarm : Nat :=
    if s.rules.ruleOutcome Rule.BankUnderVoltage then alarm ||| 0x0404 else alarm
  let alarm : Nat :=
    if s.rules.ruleOutcome Rule.ModuleOverVoltage ||
        decide (s.rules.highestCellVoltage > s.mysettings.cellmaxmv) then alarm ||| 0x0002
    else alarm
  let alarm : Nat :=
    if s.rules.ruleOutcome Rule.ModuleUnderVoltage ||
        decide (s.rules.lowestCellVoltage < s.mysettings.cellminmv) then alarm ||| 0x0001
    else alarm
  alarm

/-- The local `protection` of `pylonHV_message_0x4250`. -/
def pylonHV_message_0x4250_protection (s : Snapshot) : Nat :=
  let protection : Nat := 0x0000
  let protection : Nat :=
    if s.rules.ruleOutcome Rule.ModuleUnderVoltage then protection ||| 0x1000 else protection
  let protection : Nat :=
    if s.rules.ruleOutcome Rule.BankOverVoltage then protection ||| 0x0808 else protection
  let protection : Nat :=
    if s.rules.ruleOutcome Rule.BankUnderVoltage then protection ||| 0x0404 else protection
  let protection : Nat :=
    if s.rules.ruleOutcome Rule.CurrentMonitorOverCurrentAmps then protection ||| 0x0300
    else protection
  let protection : Nat :=
    if s.rules.ruleOutcome Rule.ModuleOverTemperatureExternal ||
        s.rules.ruleOutcome Rule.ModuleOverTemperatureInternal then protection ||| 0x00A0
    else protection
  let protection : Nat :=
    if s.rules.ruleOutcome Rule.ModuleUnderTemperatureExternal ||
        s.rules.ruleOutcome Rule.ModuleUnderTemperatureInternal then protection ||| 0x0050
    else protection
  let protection : Nat :=
    if s.rules.ruleOutcome Rule.ModuleOverVoltage ||
        decide (s.rules.highestCellVoltage > s.mysettings.cellmaxmv) then protection ||| 0x0002
    else protection
  let protection : Nat :=
    if s.rules.ruleOutcome Rule.ModuleUnderVoltage ||
        decide (s.rules.lowestCellVoltage < s.mysettings.cellminmv) then protection ||| 0x0001
    else protection
  protection

/-- Frame 0x4250: status, cycle count, error, alarm and protection vectors.  The cycle
count divides by the configured battery capacity. -/
def pylonHV_message_0x4250 (extend : Bool) (s : Snapshot) : Outcome :=
  let status : Nat := pylonHV_message_0x4250_status s
  if s.mysettings.currentMonitoring_batterycapacity = 0 then Outcome.crash
  else
    let cycles : Nat :=
      u16 ((s.currentMonitor.modbus.milliamphour_out / 1000) /
        s.mysettings.currentMonitoring_batterycapacity : Nat)
    let error : Nat := pylonHV_message_0x4250_error s
    let alarm : Nat := pylonHV_message_0x4250_alarm s
    let protection : Nat := pylonHV_message_0x4250_protection s
    let data : List Nat :=
      [status, loByte cycles, hiByte cycles, error,
       loByte alarm, hiByte alarm, loByte protection, hiByte protection]
    let address : Nat := 0x425
    let address : Nat := if extend then 0x4250 + DEFAULT_DEVICE_ID_ADDRESS else address
    send_canbus_message address data 8

/-- Frame 0x4260: module voltage extremes, a fixed simulated 50100 mV. -/
def pylonHV_message_0x4260 (extend : Bool) (_s : Snapshot) : Outcome :=
  let voltage : Nat := 0xC3B4
  let data : List Nat :=
    [loByte voltage, hiByte voltage, loByte voltage, hiByte voltage, 0x01, 0x00, 0x01, 0x00]
  let address : Nat := 0x426
  let address : Nat := if extend then 0x4260 + DEFAULT_DEVICE_ID_ADDRESS else address
  send_canbus_message address data 8

/-- Frame 0x4270: module temperature extremes; the cell indices are divided by the number
of cells per bank, itself the quotient `series / n_banks`. -/
def pylonHV_message_0x4270 (extend : Bool) (s : Snapshot) : Outcome :=
  let series : Nat := u8 s.TotalNumberOfCells
  let n_banks : Nat := u8 s.mysettings.totalNumberOfBanks
  let st : TempScan := tempScan s
  let tmax : Nat := u16 (1000 + st.cell_tmax * 10)
  let tmin : Nat := u16 (1000 + st.cell_tmin * 10)
  if n_banks = 0 then Outcome.crash
  else if series / n_banks = 0 then Outcome.crash
  else
    let data : List Nat :=
      [loByte tmax, hiByte tmax, loByte tmin, hiByte tmin,
       u8 (st.id_cell_tmax / (series / n_banks) : Nat), 0x00,
       u8 (st.id_cell_tmin / (series / n_banks) : Nat), 0x00]
    let address : Nat := 0x427
    let address : Nat := if extend then 0x4270 + DEFAULT_DEVICE_ID_ADDRESS else address
    send_canbus_message address data 8

/-- Frame 0x4280: charge / discharge forbidden marks. -/
def pylonHV_message_0x4280 (extend : Bool) (s : Snapshot) : Outcome :=
  let no_charge : Nat := 0xAA
  let no_discharge : Nat := 0xAA
  let data : List Nat :=
    [if s.rules.IsChargeAllowed then 0x00 else no_charge,
     if s.rules.IsDischargeAllowed then 0x00 else no_discharge,
     0, 0, 0, 0, 0, 0]
  let address : Nat := 0x428
  let address : Nat := if extend then 0x4280 + DEFAULT_DEVICE_ID_ADDRESS else address
  send_canbus_message address data 8

/-- Frame 0x4290: system error list. -/
def pylonHV_message_0x4290 (extend : Bool) (s : Snapshot) : Outcome :=
  let error : Nat := 0
  let error : Nat := if s.rules.ruleOutcome Rule.BMSError then error ||| 0x14 else error
  let data : List Nat := [error, 0, 0, 0, 0, 0, 0, 0]
  let address : Nat := 0x429
  let address : Nat := if extend then 0x4290 + DEFAULT_DEVICE_ID_ADDRESS else address
  send_canbus_message address data 8

/-- Frame 0x42A0: terminal temperatures, the fixed defaults of the struct `data42A0`
(four `uint16_t`: 1350, 1350, 0, 0). -/
def pylonHV_message_0x42A0 (extend : Bool) (_s : Snapshot) : Outcome :=
  let data42a : List Nat := le16 1350 ++ le16 1350 ++ le16 0 ++ le16 0
  let address : Nat := 0x42A
  let address : Nat := if extend then 0x42A0 + DEFAULT_DEVICE_ID_ADDRESS else address
  send_canbus_message address data42a 8

/-- The status burst. -/
def pylonHV_send_message_status (extend : Bool) (s : Snapshot) : Outcome :=
  if s.controller_state ≠ ControllerState.Running then Outcome.nothing
  else
    (pylonHV_message_0x4210 extend s).andThen <|
    (delay 10).andThen <|
    (pylonHV_message_0x4220 extend s).andThen <|
    (delay 10).andThen <|
    (pylonHV_message_0x4230 extend s).andThen <|
    (delay 10).andThen <|
    (pylonHV_message_0x4240 extend s).andThen <|
    (delay 10).andThen <|
    (pylonHV_message_0x4250 extend s).andThen <|
    (delay 10).andThen <|
    (pylonHV_message_0x4260 extend s).andThen <|
    (delay 10).andThen <|
    (pylonHV_message_0x4270 extend s).andThen <|
    (delay 10).andThen <|
    (pylonHV_message_0x4280 extend s).andThen <|
    (delay 10).andThen <|
    (pylonHV_message_0x4290 extend s).andThen <|
    (delay 10).andThen <|
    pylonHV_message_0x42A0 extend s

/-! ## Sample snapshots -/

/-- No rule has fired. -/
def noRuleActive : Rule → Bool := fun _ => false

/-- A 16-cell, one-bank pack at rest: controller not yet running, no current monitor,
charging and discharging both disallowed, 23 degrees everywhere. -/
def restingSnapshot : Snapshot :=
  { controller_state := ControllerState.NotRunning
    mysettings :=
      { canbusinverter := CanBusInverter.INVERTER_GENERIC
        chargevolt := 560, dischargevolt := 480, dischargecurrent := 200
        chargetemphigh := 45, chargetemplow := 0
        cellminmv := 3000, cellmaxmv := 3600
        stopchargebalance := false
        nominalbatcap := 222
        totalNumberOfBanks := 1, totalNumberOfSeriesModules := 16
        currentMonitoringEnabled := false
        currentMonitoringDevice := CurrentMonitorDevice.DIYBMS_CURRENT_MON_MODBUS
        currentMonitoring_batterycapacity := 100 }
    rules :=
      { ruleOutcome := noRuleActive
        IsChargeAllowed := false, IsDischargeAllowed := false
        DynamicChargeVoltage := 540, DynamicChargeCurrent := 200
        getChargingMode := ChargingMode.notFloating
        StateOfChargeWithRulesApplied := 80
        numberOfBalancingModules := 0
        lowestBankVoltage := 52000, highestBankVoltage := 52000
        lowestCellVoltage := 3250, highestCellVoltage := 3250
        address_LowestCellVoltage := 0, address_HighestCellVoltage := 0
        moduleHasExternalTempSensor := true
        lowestExternalTemp := 23, highestExternalTemp := 23
        address_lowestExternalTemp := 0, address_highestExternalTemp := 0 }
    currentMonitor :=
      { validReadings := false
        modbus := { voltage := 52, current := 0, milliamphour_out := 250000 } }
    TotalNumberOfCells := 16
    cmi_internalTemp := fun _ => 23 }

/-- The resting pack once the controller is running. -/
def runningSnapshot : Snapshot :=
  { restingSnapshot with controller_state := ControllerState.Running }

/-- The running pack with an enabled MODBUS current monitor delivering valid readings. -/
def monitoredSnapshot : Snapshot :=
  { runningSnapshot with
    mysettings := { runningSnapshot.mysettings with currentMonitoringEnabled := true }
    currentMonitor := { runningSnapshot.currentMonitor with validReadings := true } }

/-- The resting pack behind a DEYE inverter, with a bank voltage below 100 mV. -/
def deyeSnapshot : Snapshot :=
  { restingSnapshot with
    mysettings :=
      { restingSnapshot.mysettings with canbusinverter := CanBusInverter.INVERTER_DEYE }
    rules := { restingSnapshot.rules with lowestBankVoltage := 0 } }

/-- The snapshot `s` with the outcome of rule `r` replaced by `b`, everything else equal. -/
def Snapshot.setRuleOutcome (s : Snapshot) (r : Rule) (b : Bool) : Snapshot :=
  { s with
    rules :=
      { s.rules with ruleOutcome := fun q => if q = r then b else s.rules.ruleOutcome q } }

/-- The snapshot `s` with the answer of `rules.IsChargeAllowed` replaced by `b`. -/
def Snapshot.setChargeAllowed (s : Snapshot) (b : Bool) : Snapshot :=
  { s with rules := { s.rules with IsChargeAllowed := b } }

/-- The snapshot `s` with `rules.numberOfBalancingModules` replaced by `n`. -/
def Snapshot.setBalancingModules (s : Snapshot) (n : Nat) : Snapshot :=
  { s with rules := { s.rules with numberOfBalancingModules := n } }

/-- The running pack of the end-to-end scenario: current monitor enabled and valid
(52.0 V, 10.0 A, SOC 80 %), charging allowed at 54.0 V and 20.0 A (540 and 200 in units
of 0.1), discharging allowed at the configured 20.0 A (200), no module balancing. -/
def fixtureSnapshot : Snapshot :=
  { monitoredSnapshot with
    rules :=
      { monitoredSnapshot.rules with
        IsChargeAllowed := true, IsDischargeAllowed := true
        DynamicChargeVoltage := 540, DynamicChargeCurrent := 200
        StateOfChargeWithRulesApplied := 80, numberOfBalancingModules := 0 }
    mysettings := { monitoredSnapshot.mysettings with dischargecurrent := 200 }
    currentMonitor :=
      { validReadings := true
        modbus := { voltage := 52, current := 10, milliamphour_out := 250000 } } }

/-- The scenario pack while two modules balance and charging is to stop on balancing. -/
def balancingSnapshot : Snapshot :=
  { fixtureSnapshot with
    rules := { fixtureSnapshot.rules with numberOfBalancingModules := 2 }
    mysettings := { fixtureSnapshot.mysettings with stopchargebalance := true } }

/-- The running pack with a configured current-monitor battery capacity of 0 Ah. -/
def zeroCapacitySnapshot : Snapshot :=
  { runningSnapshot with
    mysettings :=
      { runningSnapshot.mysettings with currentMonitoring_batterycapacity := 0 } }

/-- A running controller with one bank and no cell module at all. -/
def emptyPackSnapshot : Snapshot :=
  { runningSnapshot with
    mysettings := { runningSnapshot.mysettings with totalNumberOfSeriesModules := 0 }
    TotalNumberOfCells := 0 }

/-- A running 16-cell pack in two banks with uneven internal temperatures: cells 3 and 9
at 41 degrees, cells 12 and 14 at 12 degrees, the others at 23; the aggregates of the
rules engine are 30 degrees (cell 7) and 15 degrees (cell 2). -/
def unevenSnapshot : Snapshot :=
  { runningSnapshot with
    mysettings := { runningSnapshot.mysettings with totalNumberOfBanks := 2 }
    rules :=
      { runningSnapshot.rules with
        highestExternalTemp := 30, address_highestExternalTemp := 7
        lowestExternalTemp := 15, address_lowestExternalTemp := 2 }
    cmi_internalTemp := fun i =>
      if i = 3 ∨ i = 9 then 41 else if i = 12 ∨ i = 14 then 12 else 23 }

/-- A transport call seen without its payload: a frame with its identifier, or a pause. -/
inductive Step where
  | frame (identifier : Nat)
  | pause (ms : Nat)
  deriving DecidableEq

/-- The step an event stands for. -/
def Event.step : Event → Step
  | Event.send identifier _ _ => Step.frame identifier
  | Event.delay ms => Step.pause ms

/-- The calls of an outcome without their payloads, in order. -/
def Outcome.steps (o : Outcome) : List Step := o.sent.map Event.step

/-- The (identifier, payload) pairs handed to the transport, in order. -/
def Outcome.frames (o : Outcome) : List (Nat × List Nat) :=
  o.sent.filterMap fun ev =>
    match ev with
    | Event.send identifier buffer length => some (identifier, buffer.take length)
    | Event.delay _ => none

/-- The four locals of the temperature loop after its first `k` iterations. -/
def tempScanUpTo (s : Snapshot) (k : Nat) : TempScan :=
  (List.range k).foldl (tempScanStep s) (tempScanInit s)

/-- The scenario pack while the charger floats: 10 A still flow into the battery. -/
def floatingSnapshot : Snapshot :=
  { fixtureSnapshot with
    rules := { fixtureSnapshot.rules with getChargingMode := ChargingMode.floating } }

/-- The floating pack while a load draws 5 A from the battery. -/
def floatingDischargeSnapshot : Snapshot :=
  { floatingSnapshot with
    currentMonitor :=
      { validReadings := true
        modbus := { voltage := 52, current := -5, milliamphour_out := 250000 } } }

/-- The running pack without current monitor, discharging allowed. -/
def dischargingSnapshot : Snapshot :=
  { runningSnapshot with
    rules := { runningSnapshot.rules with IsDischargeAllowed := true } }

/-- The four limits a receiver reads from frame 0x4220. -/
structure HvLimits where
  charge_voltage : Nat
  discharge_voltage : Nat
  charge_current : Int
  discharge_current : Int
  deriving DecidableEq

/-- Decoding of a payload of frame 0x4220 as the protocol documents it: charge voltage in
bytes 0-1, discharge voltage in bytes 2-3, charge current in bytes 4-5 minus 30000,
discharge current in bytes 6-7 minus 30000, all little-endian. -/
def decode_0x4220 : List Nat → Option HvLimits
  | [b0, b1, b2, b3, b4, b5, b6, b7] =>
    some
      { charge_voltage := decodeLE16 b0 b1
        discharge_voltage := decodeLE16 b2 b3
        charge_current := (decodeLE16 b4 b5 : Int) - 30000
        discharge_current := (decodeLE16 b6 b7 : Int) - 30000 }
  | _ => none

/-- One conditional OR, `if (condition) acc |= mask;`. -/
def orStep (acc : Nat) (entry : Bool × Nat) : Nat :=
  if entry.1 then acc ||| entry.2 else acc

/-- OR-reduction of a table of (condition, mask) entries: the masks of the conditions that
hold, OR-ed together. -/
def orReduce (table : List (Bool × Nat)) : Nat :=
  table.foldl orStep 0

/-- The conditions and masks of the `error` byte of `pylonHV_message_0x4250`, in the order
of the source. -/
def errorTable (s : Snapshot) : List (Bool × Nat) :=
  [(s.rules.ruleOutcome Rule.EmergencyStop, 0x80),
   (s.rules.ruleOutcome Rule.BMSError, 0x04)]

/-- The conditions and masks of the `alarm` vector of `pylonHV_message_0x4250`, in the
order of the source. -/
def alarmTable (s : Snapshot) : List (Bool × Nat) :=
  [(s.rules.ruleOutcome Rule.ModuleOverTemperatureExternal ||
      s.rules.ruleOutcome Rule.ModuleOverTemperatureInternal, 0x00A0),
   (s.rules.ruleOutcome Rule.ModuleUnderTemperatureExternal ||
      s.rules.ruleOutcome Rule.ModuleUnderTemperatureInternal, 0x0050),
   (s.rules.ruleOutcome Rule.CurrentMonitorOverCurrentAmps, 0x0300),
   (s.rules.ruleOutcome Rule.BankOverVoltage, 0x0808),
   (s.rules.ruleOutcome Rule.BankUnderVoltage, 0x0404),
   (s.rules.ruleOutcome Rule.ModuleOverVoltage ||
      decide (s.rules.highestCellVoltage > s.mysettings.cellmaxmv), 0x0002),
   (s.rules.ruleOutcome Rule.ModuleUnderVoltage ||
      decide (s.rules.lowestCellVoltage < s.mysettings.cellminmv), 0x0001)]

/-- The conditions and masks of the `protection` vector of `pylonHV_message_0x4250`, in
the order of the source. -/
def protectionTable (s : Snapshot) : List (Bool × Nat) :=
  [(s.rules.ruleOutcome Rule.ModuleUnderVoltage, 0x1000),
   (s.rules.ruleOutcome Rule.BankOverVoltage, 0x0808),
   (s.rules.ruleOutcome Rule.BankUnderVoltage, 0x0404),
   (s.rules.ruleOutcome Rule.CurrentMonitorOverCurrentAmps, 0x0300),
   (s.rules.ruleOutcome Rule.ModuleOverTemperatureExternal ||
      s.rules.ruleOutcome Rule.ModuleOverTemperatureInternal, 0x00A0),
   (s.rules.ruleOutcome Rule.ModuleUnderTemperatureExternal ||
      s.rules.ruleOutcome Rule.ModuleUnderTemperatureInternal, 0x0050),
   (s.rules.ruleOutcome Rule.ModuleOverVoltage ||
      decide (s.rules.highestCellVoltage > s.mysettings.cellmaxmv), 0x0002),
   (s.rules.ruleOutcome Rule.ModuleUnderVoltage ||
      decide (s.rules.lowestCellVoltage < s.mysettings.cellminmv), 0x0001)]

/-- The snapshot `s` with `rules.highestCellVoltage` replaced by `v`. -/
def Snapshot.setHighestCellVoltage (s : Snapshot) (v : Nat) : Snapshot :=
  { s with rules := { s.rules with highestCellVoltage := v } }

/-- The snapshot `s` with `rules.lowestCellVoltage` replaced by `v`. -/
def Snapshot.setLowestCellVoltage (s : Snapshot) (v : Nat) : Snapshot :=
  { s with rules := { s.rules with lowestCellVoltage := v } }

/-- Two tables compared entry by entry: same mask, and the condition of the second holds
whenever that of the first does. -/
def TableLe (t t' : List (Bool × Nat)) : Prop :=
  List.Forall₂ (fun e e' => e.2 = e'.2 ∧ (e.1 = true → e'.1 = true)) t t'

/-- The snapshot `s` with the measured current `currentMonitor.modbus.current` replaced
by `c`. -/
def Snapshot.setMeasuredCurrent (s : Snapshot) (c : ℚ) : Snapshot :=
  { s with
    currentMonitor :=
      { s.currentMonitor with modbus := { s.currentMonitor.modbus with current := c } } }

/-! ## Arithmetic lemmas -/

theorem u16_natCast (n : Nat) : u16 (n : Int) = n % 65536 := by
  unfold u16; omega

theorem u8_natCast (n : Nat) : u8 (n : Int) = n % 256 := by
  unfold u8; omega

/-- The integer form `roundDiv74` is rounding of the exact quotient to the nearest integer. -/
theorem round_div74 (c : Nat) : round ((c : ℚ) / 74) = ((roundDiv74 c : Nat) : Int) := by
  rw [round_eq, Int.floor_eq_iff]
  unfold roundDiv74
  have h := Nat.div_add_mod (c + 37) 74
  have hlt := Nat.mod_lt (c + 37) (by decide : 74 > 0)
  generalize (c + 37) / 74 = q at h ⊢
  generalize (c + 37) % 74 = r at h hlt
  have hc : (c : ℚ) = 74 * q + r - 37 := by
    have h2 : ((74 * q + r : Nat) : ℚ) = ((c + 37 : Nat) : ℚ) := by rw [h]
    push_cast at h2
    linarith
  have hr : (r : ℚ) < 74 := by exact_mod_cast hlt
  have hr0 : (0 : ℚ) ≤ (r : ℚ) := by positivity
  simp only [Int.cast_natCast]
  constructor <;> linarith

/-! ## Frame lengths -/

/-- C1. For every snapshot and either addressing mode, each frame function hands the
transport at most one frame, and that frame has the fixed length of its kind, both as the
`length` argument and as the number of bytes the buffer provides: 0x351 has 8 bytes,
0x355 has 4, 0x359 has 8, 0x35C has 1, 0x35E has 7, 0x356 has 6, and every high-voltage
frame (0x421..0x42A, 0x731..0x734 or the long forms) has 8.  The frames 0x355, 0x4210,
0x4250, 0x4270 and 0x7320 may also send nothing. -/
theorem frame_lengths_fixed (s : Snapshot) (extend : Bool) :
    (pylon_message_351 s).frameSizes = [(0x351, 8, 8)] ∧
    ((pylon_message_355 s).frameSizes = [] ∨
      (pylon_message_355 s).frameSizes = [(0x355, 4, 4)]) ∧
    (pylon_message_359 s).frameSizes = [(0x359, 8, 8)] ∧
    (pylon_message_35c s).frameSizes = [(0x35C, 1, 1)] ∧
    (pylon_message_35e s).frameSizes = [(0x35E, 7, 7)] ∧
    (pylon_message_356 s).frameSizes = [(0x356, 6, 6)] ∧
    ((pylonHV_message_0x4210 extend s).frameSizes = [] ∨
      (pylonHV_message_0x4210 extend s).frameSizes =
        [(if extend then 0x4211 else 0x421, 8, 8)]) ∧
    (pylonHV_message_0x4220 extend s).frameSizes =
      [(if extend then 0x4221 else 0x422, 8, 8)] ∧
    (pylonHV_message_0x4230 extend s).frameSizes =
      [(if extend then 0x4231 else 0x423, 8, 8)] ∧
    (pylonHV_message_0x4240 extend s).frameSizes =
      [(if extend then 0x4241 else 0x424, 8, 8)] ∧
    ((pylonHV_message_0x4250 extend s).frameSizes = [] ∨
      (pylonHV_message_0x4250 extend s).frameSizes =
        [(if extend then 0x4251 else 0x425, 8, 8)]) ∧
    (pylonHV_message_0x4260 extend s).frameSizes =
      [(if extend then 0x4261 else 0x426, 8, 8)] ∧
    ((pylonHV_message_0x4270 extend s).frameSizes = [] ∨
      (pylonHV_message_0x4270 extend s).frameSizes =
        [(if extend then 0x4271 else 0x427, 8, 8)]) ∧
    (pylonHV_message_0x4280 extend s).frameSizes =
      [(if extend then 0x4281 else 0x428, 8, 8)] ∧
    (pylonHV_message_0x4290 extend s).frameSizes =
      [(if extend then 0x4291 else 0x429, 8, 8)] ∧
    (pylonHV_message_0x42A0 extend s).frameSizes =
      [(if extend then 0x42A1 else 0x42A, 8, 8)] ∧
    (pylonHV_message_0x7310 extend s).frameSizes =
      [(if extend then 0x7311 else 0x731, 8, 8)] ∧
    ((pylonHV_message_0x7320 extend s).frameSizes = [] ∨
      (pylonHV_message_0x7320 extend s).frameSizes =
        [(if extend then 0x7321 else 0x732, 8, 8)]) ∧
    (pylonHV_message_0x7330 extend s).frameSizes =
      [(if extend then 0x7331 else 0x733, 8, 8)] ∧
    (pylonHV_message_0x7340 extend s).frameSizes =
      [(if extend then 0x7341 else 0x734, 8, 8)] := by
  refine ⟨?_, ?_, ?_, ?_, ?_, ?_, ?_, ?_, ?_, ?_, ?_, ?_, ?_, ?_, ?_, ?_, ?_, ?_, ?_, ?_⟩
  · simp [pylon_message_351, send_canbus_message, Outcome.frameSizes, data351.bytes, le16]
  · unfold pylon_message_355
    split
    · left; rfl
    · split
      · right
        simp [send_canbus_message, Outcome.frameSizes, le16]
      · left; rfl
  · simp [pylon_message_359, send_canbus_message, Outcome.frameSizes, data359.bytes]
  · simp [pylon_message_35c, send_canbus_message, Outcome.frameSizes]
  · simp [pylon_message_35e, send_canbus_message, Outcome.frameSizes]
  · simp [pylon_message_356, send_canbus_message, Outcome.frameSizes, data356.bytes, le16]
  · unfold pylonHV_message_0x4210
    split
    · left; rfl
    · right
      cases extend <;>
        simp [send_canbus_message, Outcome.frameSizes, DEFAULT_DEVICE_ID_ADDRESS]
  · cases extend <;>
      simp [pylonHV_message_0x4220, send_canbus_message, Outcome.frameSizes,
        DEFAULT_DEVICE_ID_ADDRESS]
  · cases extend <;>
      simp [pylonHV_message_0x4230, send_canbus_message, Outcome.frameSizes,
        DEFAULT_DEVICE_ID_ADDRESS]
  · cases extend <;>
      simp [pylonHV_message_0x4240, send_canbus_message, Outcome.frameSizes,
        DEFAULT_DEVICE_ID_ADDRESS]
  · unfold pylonHV_message_0x4250
    split
    · left; rfl
    · right
      cases extend <;>
        simp [send_canbus_message, Outcome.frameSizes, DEFAULT_DEVICE_ID_ADDRESS]
  · cases extend <;>
      simp [pylonHV_message_0x4260, send_canbus_message, Outcome.frameSizes,
        DEFAULT_DEVICE_ID_ADDRESS]
  · by_cases h1 : u8 s.mysettings.totalNumberOfBanks = 0
    · left
      simp [pylonHV_message_0x4270, h1, Outcome.crash, Outcome.frameSizes]
    · by_cases h2 : u8 s.TotalNumberOfCells / u8 s.mysettings.totalNumberOfBanks = 0
      · left
        simp [pylonHV_message_0x4270, h1, h2, Outcome.crash, Outcome.frameSizes]
      · right
        cases extend <;>
          simp [pylonHV_message_0x4270, h1, h2, send_canbus_message, Outcome.frameSizes,
            DEFAULT_DEVICE_ID_ADDRESS]
  · cases extend <;>
      simp [pylonHV_message_0x4280, send_canbus_message, Outcome.frameSizes,
        DEFAULT_DEVICE_ID_ADDRESS]
  · cases extend <;>
      simp [pylonHV_message_0x4290, send_canbus_message, Outcome.frameSizes,
        DEFAULT_DEVICE_ID_ADDRESS]
  · cases extend <;>
      simp [pylonHV_message_0x42A0, send_canbus_message, Outcome.frameSizes,
        DEFAULT_DEVICE_ID_ADDRESS, le16]
  · cases extend <;>
      simp [pylonHV_message_0x7310, send_canbus_message, Outcome.frameSizes,
        DEFAULT_DEVICE_ID_ADDRESS]
  · unfold pylonHV_message_0x7320
    split
    · left; rfl
    · right
      cases extend <;>
        simp [send_canbus_message, Outcome.frameSizes, DEFAULT_DEVICE_ID_ADDRESS]
  · cases extend <;>
      simp [pylonHV_message_0x7330, send_canbus_message, Outcome.frameSizes,
        DEFAULT_DEVICE_ID_ADDRESS]
  · cases extend <;>
      simp [pylonHV_message_0x7340, send_canbus_message, Outcome.frameSizes,
        DEFAULT_DEVICE_ID_ADDRESS]

/-! ## Identifiers of the high-voltage frames -/

/-- C2. Called with `extend = false`, every high-voltage frame function hands the
transport its short fixed identifier, for every snapshot: 0x421 .. 0x42A for the status
frames and 0x731 .. 0x734 for the info frames.  No device address enters.  The frames
0x4210, 0x4250, 0x4270 and 0x7320 may also send nothing. -/
theorem short_identifiers (s : Snapshot) :
    ((pylonHV_message_0x4210 false s).identifiers = [] ∨
      (pylonHV_message_0x4210 false s).identifiers = [0x421]) ∧
    (pylonHV_message_0x4220 false s).identifiers = [0x422] ∧
    (pylonHV_message_0x4230 false s).identifiers = [0x423] ∧
    (pylonHV_message_0x4240 false s).identifiers = [0x424] ∧
    ((pylonHV_message_0x4250 false s).identifiers = [] ∨
      (pylonHV_message_0x4250 false s).identifiers = [0x425]) ∧
    (pylonHV_message_0x4260 false s).identifiers = [0x426] ∧
    ((pylonHV_message_0x4270 false s).identifiers = [] ∨
      (pylonHV_message_0x4270 false s).identifiers = [0x427]) ∧
    (pylonHV_message_0x4280 false s).identifiers = [0x428] ∧
    (pylonHV_message_0x4290 false s).identifiers = [0x429] ∧
    (pylonHV_message_0x42A0 false s).identifiers = [0x42A] ∧
    (pylonHV_message_0x7310 false s).identifiers = [0x731] ∧
    ((pylonHV_message_0x7320 false s).identifiers = [] ∨
      (pylonHV_message_0x7320 false s).identifiers = [0x732]) ∧
    (pylonHV_message_0x7330 false s).identifiers = [0x733] ∧
    (pylonHV_message_0x7340 false s).identifiers = [0x734] := by
  refine ⟨?_, ?_, ?_, ?_, ?_, ?_, ?_, ?_, ?_, ?_, ?_, ?_, ?_, ?_⟩
  · by_cases h : s.controller_state = ControllerState.Running
    · right
      simp [pylonHV_message_0x4210, h, send_canbus_message, Outcome.identifiers]
    · left
      simp [pylonHV_message_0x4210, h, Outcome.nothing, Outcome.identifiers]
  · simp [pylonHV_message_0x4220, send_canbus_message, Outcome.identifiers]
  · simp [pylonHV_message_0x4230, send_canbus_message, Outcome.identifiers]
  · simp [pylonHV_message_0x4240, send_canbus_message, Outcome.identifiers]
  · by_cases h : s.mysettings.currentMonitoring_batterycapacity = 0
    · left
      simp [pylonHV_message_0x4250, h, Outcome.crash, Outcome.identifiers]
    · right
      simp [pylonHV_message_0x4250, h, send_canbus_message, Outcome.identifiers]
  · simp [pylonHV_message_0x4260, send_canbus_message, Outcome.identifiers]
  · by_cases h1 : u8 s.mysettings.totalNumberOfBanks = 0
    · left
      simp [pylonHV_message_0x4270, h1, Outcome.crash, Outcome.identifiers]
    · by_cases h2 : u8 s.TotalNumberOfCells / u8 s.mysettings.totalNumberOfBanks = 0
      · left
        simp [pylonHV_message_0x4270, h1, h2, Outcome.crash, Outcome.identifiers]
      · right
        simp [pylonHV_message_0x4270, h1, h2, send_canbus_message, Outcome.identifiers]
  · simp [pylonHV_message_0x4280, send_canbus_message, Outcome.identifiers]
  · simp [pylonHV_message_0x4290, send_canbus_message, Outcome.identifiers]
  · simp [pylonHV_message_0x42A0, send_canbus_message, Outcome.identifiers]
  · simp [pylonHV_message_0x7310, send_canbus_message, Outcome.identifiers]
  · by_cases h : s.mysettings.totalNumberOfBanks = 0
    · left
      simp [pylonHV_message_0x7320, h, Outcome.crash, Outcome.identifiers]
    · right
      simp [pylonHV_message_0x7320, h, send_canbus_message, Outcome.identifiers]
  · simp [pylonHV_message_0x7330, send_canbus_message, Outcome.identifiers]
  · simp [pylonHV_message_0x7340, send_canbus_message, Outcome.identifiers]

/-- C3, counterexample.  The frame functions take no device address: on the running sample
pack `pylonHV_message_0x4220` with `extend = true` sends identifier 0x4221, which is
`0x4220 + addr` for `addr = 1` only, so the identifier is not `0x4220 + addr` for every
device address (a configured address 2 would ask for 0x4222). -/
theorem long_identifier_ignores_device_address :
    (pylonHV_message_0x4220 true runningSnapshot).identifiers = [0x4221] ∧
    ¬ ∀ addr : Nat, 1 ≤ addr → addr ≤ 15 →
        (pylonHV_message_0x4220 true runningSnapshot).identifiers = [0x4220 + addr] := by
  refine ⟨by decide, ?_⟩
  intro h
  have h2 := h 2 (by decide) (by decide)
  revert h2
  decide

/-- C3, amended.  Called with `extend = true`, every high-voltage frame function hands the
transport its long base identifier plus the constant `DEFAULT_DEVICE_ID_ADDRESS = 1`, for
every snapshot: 0x4211 .. 0x42A1 for the status frames and 0x7311 .. 0x7341 for the info
frames.  The frames 0x4210, 0x4250, 0x4270 and 0x7320 may also send nothing. -/
theorem long_identifiers_offset_one (s : Snapshot) :
    DEFAULT_DEVICE_ID_ADDRESS = 1 ∧
    ((pylonHV_message_0x4210 true s).identifiers = [] ∨
      (pylonHV_message_0x4210 true s).identifiers = [0x4210 + DEFAULT_DEVICE_ID_ADDRESS]) ∧
    (pylonHV_message_0x4220 true s).identifiers = [0x4220 + DEFAULT_DEVICE_ID_ADDRESS] ∧
    (pylonHV_message_0x4230 true s).identifiers = [0x4230 + DEFAULT_DEVICE_ID_ADDRESS] ∧
    (pylonHV_message_0x4240 true s).identifiers = [0x4240 + DEFAULT_DEVICE_ID_ADDRESS] ∧
    ((pylonHV_message_0x4250 true s).identifiers = [] ∨
      (pylonHV_message_0x4250 true s).identifiers = [0x4250 + DEFAULT_DEVICE_ID_ADDRESS]) ∧
    (pylonHV_message_0x4260 true s).identifiers = [0x4260 + DEFAULT_DEVICE_ID_ADDRESS] ∧
    ((pylonHV_message_0x4270 true s).identifiers = [] ∨
      (pylonHV_message_0x4270 true s).identifiers = [0x4270 + DEFAULT_DEVICE_ID_ADDRESS]) ∧
    (pylonHV_message_0x4280 true s).identifiers = [0x4280 + DEFAULT_DEVICE_ID_ADDRESS] ∧
    (pylonHV_message_0x4290 true s).identifiers = [0x4290 + DEFAULT_DEVICE_ID_ADDRESS] ∧
    (pylonHV_message_0x42A0 true s).identifiers = [0x42A0 + DEFAULT_DEVICE_ID_ADDRESS] ∧
    (pylonHV_message_0x7310 true s).identifiers = [0x7310 + DEFAULT_DEVICE_ID_ADDRESS] ∧
    ((pylonHV_message_0x7320 true s).identifiers = [] ∨
      (pylonHV_message_0x7320 true s).identifiers = [0x7320 + DEFAULT_DEVICE_ID_ADDRESS]) ∧
    (pylonHV_message_0x7330 true s).identifiers = [0x7330 + DEFAULT_DEVICE_ID_ADDRESS] ∧
    (pylonHV_message_0x7340 true s).identifiers = [0x7340 + DEFAULT_DEVICE_ID_ADDRESS] := by
  refine ⟨rfl, ?_, ?_, ?_, ?_, ?_, ?_, ?_, ?_, ?_, ?_, ?_, ?_, ?_, ?_⟩
  · by_cases h : s.controller_state = ControllerState.Running
    · right
      simp [pylonHV_message_0x4210, h, send_canbus_message, Outcome.identifiers]
    · left
      simp [pylonHV_message_0x4210, h, Outcome.nothing, Outcome.identifiers]
  · simp [pylonHV_message_0x4220, send_canbus_message, Outcome.identifiers]
  · simp [pylonHV_message_0x4230, send_canbus_message, Outcome.identifiers]
  · simp [pylonHV_message_0x4240, send_canbus_message, Outcome.identifiers]
  · by_cases h : s.mysettings.currentMonitoring_batterycapacity = 0
    · left
      simp [pylonHV_message_0x4250, h, Outcome.crash, Outcome.identifiers]
    · right
      simp [pylonHV_message_0x4250, h, send_canbus_message, Outcome.identifiers]
  · simp [pylonHV_message_0x4260, send_canbus_message, Outcome.identifiers]
  · by_cases h1 : u8 s.mysettings.totalNumberOfBanks = 0
    · left
      simp [pylonHV_message_0x4270, h1, Outcome.crash, Outcome.identifiers]
    · by_cases h2 : u8 s.TotalNumberOfCells / u8 s.mysettings.totalNumberOfBanks = 0
      · left
        simp [pylonHV_message_0x4270, h1, h2, Outcome.crash, Outcome.identifiers]
      · right
        simp [pylonHV_message_0x4270, h1, h2, send_canbus_message, Outcome.identifiers]
  · simp [pylonHV_message_0x4280, send_canbus_message, Outcome.identifiers]
  · simp [pylonHV_message_0x4290, send_canbus_message, Outcome.identifiers]
  · simp [pylonHV_message_0x42A0, send_canbus_message, Outcome.identifiers]
  · simp [pylonHV_message_0x7310, send_canbus_message, Outcome.identifiers]
  · by_cases h : s.mysettings.totalNumberOfBanks = 0
    · left
      simp [pylonHV_message_0x7320, h, Outcome.crash, Outcome.identifiers]
    · right
      simp [pylonHV_message_0x7320, h, send_canbus_message, Outcome.identifiers]
  · simp [pylonHV_message_0x7330, send_canbus_message, Outcome.identifiers]
  · simp [pylonHV_message_0x7340, send_canbus_message, Outcome.identifiers]

/-! ## Frame 0x351: stop defaults -/

/-- C4, counterexample.  Behind a DEYE inverter, with charging and discharging both
disallowed and a lowest bank voltage below 100 mV, frame 0x351 carries literal zeros for
charge_v, charge_i_limit and discharge_i_limit. -/
theorem stop_defaults_zero_for_deye :
    deyeSnapshot.rules.IsChargeAllowed = false ∧
    deyeSnapshot.rules.IsDischargeAllowed = false ∧
    (pylon_message_351_data deyeSnapshot).battery_charge_voltage = 0 ∧
    (pylon_message_351_data deyeSnapshot).battery_charge_current_limit = 0 ∧
    (pylon_message_351_data deyeSnapshot).battery_discharge_current_limit = 0 ∧
    (pylon_message_351 deyeSnapshot).payloads = [[0, 0, 0, 0, 0, 0, 0xE0, 0x01]] := by
  decide

/-- C4, amended.  For every snapshot whose inverter brand is not DEYE (every bank voltage)
in which charging and discharging are both disallowed, frame 0x351 carries the stop
defaults charge_v = 1, charge_i_limit = 1 and discharge_i_limit = 1, none of them zero;
on the wire the three fields are `01 00` each, followed by the discharge voltage. -/
theorem stop_defaults_nonzero (s : Snapshot)
    (hbrand : s.mysettings.canbusinverter ≠ CanBusInverter.INVERTER_DEYE)
    (hcharge : s.rules.IsChargeAllowed = false)
    (hdischarge : s.rules.IsDischargeAllowed = false) :
    (pylon_message_351_data s).battery_charge_voltage = 1 ∧
    (pylon_message_351_data s).battery_charge_current_limit = 1 ∧
    (pylon_message_351_data s).battery_discharge_current_limit = 1 ∧
    (pylon_message_351 s).identifiers = [0x351] ∧
    (pylon_message_351 s).payloads =
      [[1, 0, 1, 0, 1, 0, s.mysettings.dischargevolt % 65536 % 256,
        s.mysettings.dischargevolt % 65536 / 256]] := by
  have h16 : u16 ((s.mysettings.dischargevolt : Int) % 65536)
      = s.mysettings.dischargevolt % 65536 := by
    unfold u16; omega
  have hone : u16 1 = 1 := by decide
  refine ⟨?_, ?_, ?_, ?_, ?_⟩
  · simp [pylon_message_351_data, hbrand, hcharge]
  · simp [pylon_message_351_data, hbrand, hcharge]
  · simp [pylon_message_351_data, hbrand, hdischarge]
  · simp [pylon_message_351, send_canbus_message, Outcome.identifiers]
  · simp [pylon_message_351, pylon_message_351_data, send_canbus_message, Outcome.payloads,
      data351.bytes, le16, hbrand, hcharge, hdischarge, u16_natCast, hone, h16]

/-- C4, witness: the resting sample pack (generic inverter, nothing allowed). -/
theorem stop_defaults_nonzero_witness :
    (pylon_message_351_data restingSnapshot).battery_charge_voltage = 1 ∧
    (pylon_message_351_data restingSnapshot).battery_charge_current_limit = 1 ∧
    (pylon_message_351_data restingSnapshot).battery_discharge_current_limit = 1 ∧
    (pylon_message_351 restingSnapshot).identifiers = [0x351] ∧
    (pylon_message_351 restingSnapshot).payloads =
      [[1, 0, 1, 0, 1, 0, restingSnapshot.mysettings.dischargevolt % 65536 % 256,
        restingSnapshot.mysettings.dischargevolt % 65536 / 256]] :=
  stop_defaults_nonzero restingSnapshot (by decide) (by decide) (by decide)

/-! ## State of charge frames -/

/-- C5. `pylon_message_355` either sends exactly one frame, and then the controller is
Running and current monitoring is enabled with valid readings from a MODBUS or INTERNAL
device, the identifier is 0x355, the length 4 and the payload is the rules-adjusted state
of charge (as a 16-bit value) followed by 100, both little-endian; or one of those
conditions fails and it makes no transport call at all. -/
theorem soc_frame_gate (s : Snapshot) :
    ((s.controller_state = ControllerState.Running ∧
        s.mysettings.currentMonitoringEnabled = true ∧
        s.currentMonitor.validReadings = true ∧
        (s.mysettings.currentMonitoringDevice =
            CurrentMonitorDevice.DIYBMS_CURRENT_MON_MODBUS ∨
          s.mysettings.currentMonitoringDevice =
            CurrentMonitorDevice.DIYBMS_CURRENT_MON_INTERNAL)) ∧
      pylon_message_355 s =
        ⟨[Event.send 0x355
            [s.rules.StateOfChargeWithRulesApplied % 65536 % 256,
             s.rules.StateOfChargeWithRulesApplied % 65536 / 256, 100, 0] 4], none⟩ ∧
      decodeLE16 (s.rules.StateOfChargeWithRulesApplied % 65536 % 256)
          (s.rules.StateOfChargeWithRulesApplied % 65536 / 256)
        = s.rules.StateOfChargeWithRulesApplied % 65536) ∨
    (¬ (s.controller_state = ControllerState.Running ∧
        s.mysettings.currentMonitoringEnabled = true ∧
        s.currentMonitor.validReadings = true ∧
        (s.mysettings.currentMonitoringDevice =
            CurrentMonitorDevice.DIYBMS_CURRENT_MON_MODBUS ∨
          s.mysettings.currentMonitoringDevice =
            CurrentMonitorDevice.DIYBMS_CURRENT_MON_INTERNAL)) ∧
      pylon_message_355 s = ⟨[], none⟩) := by
  have hsoc : u16 ((s.rules.StateOfChargeWithRulesApplied : Int) % 65536)
      = s.rules.StateOfChargeWithRulesApplied % 65536 := by
    unfold u16; omega
  have h100 : u16 100 = 100 := by decide
  by_cases hrun : s.controller_state = ControllerState.Running
  · by_cases hmon : currentMonitorSupported s = true
    · left
      have hmon2 := hmon
      simp only [currentMonitorSupported, Bool.and_eq_true, Bool.or_eq_true,
        decide_eq_true_eq] at hmon2
      refine ⟨⟨hrun, hmon2.1.1, hmon2.1.2, hmon2.2⟩, ?_, ?_⟩
      · simp [pylon_message_355, hrun, hmon, send_canbus_message, le16, u16_natCast, hsoc,
          h100]
      · unfold decodeLE16; omega
    · right
      refine ⟨?_, ?_⟩
      · intro h
        apply hmon
        simp [currentMonitorSupported, h.2.1, h.2.2.1, h.2.2.2]
      · simp [pylon_message_355, hrun, hmon, Outcome.nothing]
  · right
    exact ⟨fun h => hrun h.1, by simp [pylon_message_355, hrun, Outcome.nothing]⟩

/-- C6, evaluation at the failing input.  On the running sample pack, which has no enabled
current monitor, `pylonHV_message_0x4210` sends one frame all the same: identifier 0x421,
voltage from the bank aggregate, current at the offset 30000, SOC and SOH bytes zero.
The comment on its guard reads "Only send CANBUS message if we have a current monitor
enabled & valid", and `pylon_message_355` sends nothing under the same guard. -/
theorem hv_telemetry_sent_without_monitor :
    runningSnapshot.controller_state = ControllerState.Running ∧
    runningSnapshot.mysettings.currentMonitoringEnabled = false ∧
    runningSnapshot.currentMonitor.validReadings = false ∧
    pylonHV_message_0x4210 false runningSnapshot =
      ⟨[Event.send 0x421 [0x08, 0x02, 0x30, 0x75, 0xFF, 0x03, 0x00, 0x00] 8], none⟩ := by
  decide

/-- What `pylonHV_message_0x4210` does as written.  It makes no transport call for every
snapshot whose controller state is not Running.  For every Running snapshot in which no
current monitor is both enabled and validated it sends one frame of 8 bytes, whose voltage
field is the highest bank voltage divided by 100, whose current field is the bare offset
30000 (bytes 0x30 0x75) and whose SOC and SOH bytes (6 and 7) are zero: the guard on the
current monitor only skips the assignment of SOC and SOH, not the send. -/
theorem hv_telemetry_gate (s : Snapshot) (extend : Bool) :
    (s.controller_state ≠ ControllerState.Running →
      pylonHV_message_0x4210 extend s = ⟨[], none⟩) ∧
    (s.controller_state = ControllerState.Running →
      ¬ (s.mysettings.currentMonitoringEnabled = true ∧
          s.currentMonitor.validReadings = true) →
      pylonHV_message_0x4210 extend s =
        ⟨[Event.send (if extend then 0x4211 else 0x421)
            [loByte (u16 (s.rules.highestBankVoltage / 100 : Nat)),
             hiByte (u16 (s.rules.highestBankVoltage / 100 : Nat)),
             0x30, 0x75,
             loByte (pylonHV_message_0x4210_temperature s),
             hiByte (pylonHV_message_0x4210_temperature s),
             0, 0] 8], none⟩) := by
  refine ⟨?_, ?_⟩
  · intro h
    simp [pylonHV_message_0x4210, h, Outcome.nothing]
  · intro hrun hmon
    have hm : (s.mysettings.currentMonitoringEnabled && s.currentMonitor.validReadings)
        = false := by
      cases h1 : s.mysettings.currentMonitoringEnabled <;>
        cases h2 : s.currentMonitor.validReadings <;> simp_all
    have hs : currentMonitorSupported s = false := by
      simp [currentMonitorSupported, hm]
    have h1 : loByte (i16 30000) = 0x30 := by decide
    have h2 : hiByte (i16 30000) = 0x75 := by decide
    have h3 : loByte 0 = 0 := by decide
    cases extend <;>
      simp [pylonHV_message_0x4210, hrun, hm, hs, send_canbus_message, h1, h2, h3,
        DEFAULT_DEVICE_ID_ADDRESS]

/-- Instances of `hv_telemetry_gate`: the resting sample pack sends nothing, the running
one (no current monitor) sends the frame with zero SOC and SOH bytes. -/
theorem hv_telemetry_gate_witness :
    pylonHV_message_0x4210 false restingSnapshot = ⟨[], none⟩ ∧
    pylonHV_message_0x4210 true runningSnapshot =
      ⟨[Event.send 0x4211
          [loByte (u16 (runningSnapshot.rules.highestBankVoltage / 100 : Nat)),
           hiByte (u16 (runningSnapshot.rules.highestBankVoltage / 100 : Nat)),
           0x30, 0x75,
           loByte (pylonHV_message_0x4210_temperature runningSnapshot),
           hiByte (pylonHV_message_0x4210_temperature runningSnapshot),
           0, 0] 8], none⟩ :=
  ⟨(hv_telemetry_gate restingSnapshot false).1 (by decide),
   (hv_telemetry_gate runningSnapshot true).2 (by decide) (by decide)⟩

/-! ## Frame 0x359 -/

/-- C7, counterexample.  On the resting sample pack (controller not Running, no rule
fired) byte 3 of frame 0x359 is 0x08, not 0x00. -/
theorem flags_byte3_set_when_not_running :
    restingSnapshot.controller_state ≠ ControllerState.Running ∧
    (pylon_message_359_data restingSnapshot).byte3 = 0x08 ∧
    (pylon_message_359 restingSnapshot).payloads =
      [[0x00, 0x00, 0x00, 0x08, 0x01, 0x50, 0x4E, 0x00]] := by
  decide

/-- C7, amended.  For every snapshot whose controller state is not Running (whatever the
rule outcomes, voltages and temperatures), bytes 0, 1 and 2 of frame 0x359 are 0x00 and
byte 3 is 0x08: only bit 3 of byte 3 (internal communication failure) is set. -/
theorem flags_when_not_running (s : Snapshot)
    (hstate : s.controller_state ≠ ControllerState.Running) :
    (pylon_message_359_data s).byte0 = 0x00 ∧
    (pylon_message_359_data s).byte1 = 0x00 ∧
    (pylon_message_359_data s).byte2 = 0x00 ∧
    (pylon_message_359_data s).byte3 = 0x08 ∧
    (pylon_message_359 s).payloads =
      [[0x00, 0x00, 0x00, 0x08, (pylon_message_359_data s).byte4, 0x50, 0x4E, 0x00]] := by
  have h0 : (pylon_message_359_data s).byte0 = 0x00 := by
    simp [pylon_message_359_data, hstate]
  have h1 : (pylon_message_359_data s).byte1 = 0x00 := rfl
  have h2 : (pylon_message_359_data s).byte2 = 0x00 := by
    simp [pylon_message_359_data, hstate]
  have h3 : (pylon_message_359_data s).byte3 = 0x08 := by
    simp only [pylon_message_359_data, hstate, decide_False]
    cases s.rules.ruleOutcome Rule.BMSError <;>
      cases s.rules.ruleOutcome Rule.EmergencyStop <;> decide
  have h5 : (pylon_message_359_data s).byte5 = 0x50 := rfl
  have h6 : (pylon_message_359_data s).byte6 = 0x4E := rfl
  have h7 : (pylon_message_359_data s).byte7 = 0x00 := rfl
  refine ⟨h0, h1, h2, h3, ?_⟩
  simp [pylon_message_359, send_canbus_message, Outcome.payloads, data359.bytes, h0, h1, h2,
    h3, h5, h6, h7]

/-- C7, witness: the resting sample pack. -/
theorem flags_when_not_running_witness :
    (pylon_message_359_data restingSnapshot).byte0 = 0x00 ∧
    (pylon_message_359_data restingSnapshot).byte1 = 0x00 ∧
    (pylon_message_359_data restingSnapshot).byte2 = 0x00 ∧
    (pylon_message_359_data restingSnapshot).byte3 = 0x08 ∧
    (pylon_message_359 restingSnapshot).payloads =
      [[0x00, 0x00, 0x00, 0x08, (pylon_message_359_data restingSnapshot).byte4, 0x50, 0x4E,
        0x00]] :=
  flags_when_not_running restingSnapshot (by decide)

/-- C8, counterexample.  The resting sample pack has nominal capacity 222 Ah and no
enabled current monitor: byte 4 of frame 0x359 is 1, while 222 / 74 rounded to the nearest
integer, floored at 1, is 3. -/
theorem bank_count_one_without_monitor :
    restingSnapshot.mysettings.nominalbatcap = 222 ∧
    (pylon_message_359_data restingSnapshot).byte4 = 1 ∧
    (pylon_message_359 restingSnapshot).payloads =
      [[0x00, 0x00, 0x00, 0x08, 0x01, 0x50, 0x4E, 0x00]] ∧
    max 1 (round ((222 : ℚ) / 74)) = 3 := by
  refine ⟨by decide, by decide, by decide, ?_⟩
  rw [show (222 : ℚ) = ((222 : Nat) : ℚ) by norm_num, round_div74]
  decide

/-- C8, amended.  For every snapshot whose current monitor is enabled and delivers valid
readings and whose nominal capacity c is at most 18906 Ah (so that the rounded quotient
fits the byte), byte 4 of frame 0x359 equals max(1, c / 74 rounded to the nearest
integer); for every snapshot without an enabled and valid current monitor byte 4 is 1. -/
theorem bank_count_byte (s : Snapshot) :
    (s.mysettings.currentMonitoringEnabled = true → s.currentMonitor.validReadings = true →
      s.mysettings.nominalbatcap ≤ 18906 →
      (((pylon_message_359_data s).byte4 : Nat) : Int)
        = max 1 (round ((s.mysettings.nominalbatcap : ℚ) / 74))) ∧
    (¬ (s.mysettings.currentMonitoringEnabled = true ∧
        s.currentMonitor.validReadings = true) →
      (pylon_message_359_data s).byte4 = 1) := by
  refine ⟨?_, ?_⟩
  · intro hen hval hcap
    have hfit : roundDiv74 s.mysettings.nominalbatcap < 256 := by
      unfold roundDiv74; omega
    have h8 : u8 ((roundDiv74 s.mysettings.nominalbatcap : Nat) : Int)
        = roundDiv74 s.mysettings.nominalbatcap := by
      rw [u8_natCast]; omega
    have h1 : u8 1 = 1 := by decide
    have hb : (pylon_message_359_data s).byte4
        = max 1 (roundDiv74 s.mysettings.nominalbatcap) := by
      simp [pylon_message_359_data, hen, hval, h8, h1]
    rw [hb, round_div74]
    push_cast
    rfl
  · intro hmon
    have hm : (s.mysettings.currentMonitoringEnabled && s.currentMonitor.validReadings)
        = false := by
      cases h1 : s.mysettings.currentMonitoringEnabled <;>
        cases h2 : s.currentMonitor.validReadings <;> simp_all
    simp [pylon_message_359_data, hm]

/-- C8, witness: with the current monitor enabled and valid the 222 Ah sample pack reports
3 banks; the resting pack without monitor reports 1. -/
theorem bank_count_byte_witness :
    (((pylon_message_359_data monitoredSnapshot).byte4 : Nat) : Int)
        = max 1 (round ((monitoredSnapshot.mysettings.nominalbatcap : ℚ) / 74)) ∧
    (pylon_message_359_data monitoredSnapshot).byte4 = 3 ∧
    (pylon_message_359_data restingSnapshot).byte4 = 1 :=
  ⟨(bank_count_byte monitoredSnapshot).1 (by decide) (by decide) (by decide),
   by decide,
   (bank_count_byte restingSnapshot).2 (by decide)⟩

/-- The two capacities named with the bank count: with an enabled and valid current
monitor, 222 Ah gives byte 4 = 3 and 10 Ah gives byte 4 = 1. -/
theorem bank_count_examples :
    (pylon_message_359_data monitoredSnapshot).byte4 = 3 ∧
    (pylon_message_359_data
      { monitoredSnapshot with
        mysettings := { monitoredSnapshot.mysettings with nominalbatcap := 10 } }).byte4
      = 1 := by
  decide

/-! ## Frame 0x4250: over-temperature aliasing -/

/-- C9. In frame 0x4250 the internal and the external over-temperature rule outcomes are
interchangeable: for every snapshot, setting only `ModuleOverTemperatureInternal` and
setting only `ModuleOverTemperatureExternal` (everything else equal) give the same alarm
vector, the same protection vector and the same frame, and in both cases bits 7 and 5
(mask 0x00A0) are set in the alarm vector and in the protection vector. -/
theorem over_temperature_aliasing (s : Snapshot) (extend : Bool) :
    pylonHV_message_0x4250_alarm
        ((s.setRuleOutcome Rule.ModuleOverTemperatureExternal false).setRuleOutcome
          Rule.ModuleOverTemperatureInternal true)
      = pylonHV_message_0x4250_alarm
        ((s.setRuleOutcome Rule.ModuleOverTemperatureInternal false).setRuleOutcome
          Rule.ModuleOverTemperatureExternal true) ∧
    pylonHV_message_0x4250_protection
        ((s.setRuleOutcome Rule.ModuleOverTemperatureExternal false).setRuleOutcome
          Rule.ModuleOverTemperatureInternal true)
      = pylonHV_message_0x4250_protection
        ((s.setRuleOutcome Rule.ModuleOverTemperatureInternal false).setRuleOutcome
          Rule.ModuleOverTemperatureExternal true) ∧
    pylonHV_message_0x4250 extend
        ((s.setRuleOutcome Rule.ModuleOverTemperatureExternal false).setRuleOutcome
          Rule.ModuleOverTemperatureInternal true)
      = pylonHV_message_0x4250 extend
        ((s.setRuleOutcome Rule.ModuleOverTemperatureInternal false).setRuleOutcome
          Rule.ModuleOverTemperatureExternal true) ∧
    pylonHV_message_0x4250_alarm
        ((s.setRuleOutcome Rule.ModuleOverTemperatureExternal false).setRuleOutcome
          Rule.ModuleOverTemperatureInternal true) &&& 0x00A0 = 0x00A0 ∧
    pylonHV_message_0x4250_protection
        ((s.setRuleOutcome Rule.ModuleOverTemperatureExternal false).setRuleOutcome
          Rule.ModuleOverTemperatureInternal true) &&& 0x00A0 = 0x00A0 ∧
    pylonHV_message_0x4250_alarm
        ((s.setRuleOutcome Rule.ModuleOverTemperatureInternal false).setRuleOutcome
          Rule.ModuleOverTemperatureExternal true) &&& 0x00A0 = 0x00A0 ∧
    pylonHV_message_0x4250_protection
        ((s.setRuleOutcome Rule.ModuleOverTemperatureInternal false).setRuleOutcome
          Rule.ModuleOverTemperatureExternal true) &&& 0x00A0 = 0x00A0 := by
  have ha : pylonHV_message_0x4250_alarm
        ((s.setRuleOutcome Rule.ModuleOverTemperatureExternal false).setRuleOutcome
          Rule.ModuleOverTemperatureInternal true)
      = pylonHV_message_0x4250_alarm
        ((s.setRuleOutcome Rule.ModuleOverTemperatureInternal false).setRuleOutcome
          Rule.ModuleOverTemperatureExternal true) := by
    simp [pylonHV_message_0x4250_alarm, Snapshot.setRuleOutcome]
  have hp : pylonHV_message_0x4250_protection
        ((s.setRuleOutcome Rule.ModuleOverTemperatureExternal false).setRuleOutcome
          Rule.ModuleOverTemperatureInternal true)
      = pylonHV_message_0x4250_protection
        ((s.setRuleOutcome Rule.ModuleOverTemperatureInternal false).setRuleOutcome
          Rule.ModuleOverTemperatureExternal true) := by
    simp [pylonHV_message_0x4250_protection, Snapshot.setRuleOutcome]
  have hbitsA : pylonHV_message_0x4250_alarm
        ((s.setRuleOutcome Rule.ModuleOverTemperatureExternal false).setRuleOutcome
          Rule.ModuleOverTemperatureInternal true) &&& 0x00A0 = 0x00A0 := by
    simp only [pylonHV_message_0x4250_alarm, Snapshot.setRuleOutcome]
    simp only [reduceCtorEq, if_true, if_false, Bool.or_true, Bool.true_or, Bool.false_or,
      Bool.or_false]
    cases s.rules.ruleOutcome Rule.ModuleUnderTemperatureExternal <;>
    cases s.rules.ruleOutcome Rule.ModuleUnderTemperatureInternal <;>
    cases s.rules.ruleOutcome Rule.CurrentMonitorOverCurrentAmps <;>
    cases s.rules.ruleOutcome Rule.BankOverVoltage <;>
    cases s.rules.ruleOutcome Rule.BankUnderVoltage <;>
    cases s.rules.ruleOutcome Rule.ModuleOverVoltage <;>
    cases s.rules.ruleOutcome Rule.ModuleUnderVoltage <;>
    cases decide (s.rules.highestCellVoltage > s.mysettings.cellmaxmv) <;>
    cases decide (s.rules.lowestCellVoltage < s.mysettings.cellminmv) <;>
    decide
  have hbitsP : pylonHV_message_0x4250_protection
        ((s.setRuleOutcome Rule.ModuleOverTemperatureExternal false).setRuleOutcome
          Rule.ModuleOverTemperatureInternal true) &&& 0x00A0 = 0x00A0 := by
    simp only [pylonHV_message_0x4250_protection, Snapshot.setRuleOutcome]
    simp only [reduceCtorEq, if_true, if_false, Bool.or_true, Bool.true_or, Bool.false_or,
      Bool.or_false]
    cases s.rules.ruleOutcome Rule.ModuleUnderTemperatureExternal <;>
    cases s.rules.ruleOutcome Rule.ModuleUnderTemperatureInternal <;>
    cases s.rules.ruleOutcome Rule.CurrentMonitorOverCurrentAmps <;>
    cases s.rules.ruleOutcome Rule.BankOverVoltage <;>
    cases s.rules.ruleOutcome Rule.BankUnderVoltage <;>
    cases s.rules.ruleOutcome Rule.ModuleOverVoltage <;>
    cases s.rules.ruleOutcome Rule.ModuleUnderVoltage <;>
    cases decide (s.rules.highestCellVoltage > s.mysettings.cellmaxmv) <;>
    cases decide (s.rules.lowestCellVoltage < s.mysettings.cellminmv) <;>
    decide
  refine ⟨ha, hp, ?_, hbitsA, hbitsP, ha ▸ hbitsA, hp ▸ hbitsP⟩
  have hst : ∀ (r : Rule) (b : Bool) (x : Snapshot),
      pylonHV_message_0x4250_status (x.setRuleOutcome r b) = pylonHV_message_0x4250_status x :=
    fun _ _ _ => rfl
  have her : pylonHV_message_0x4250_error
        ((s.setRuleOutcome Rule.ModuleOverTemperatureExternal false).setRuleOutcome
          Rule.ModuleOverTemperatureInternal true)
      = pylonHV_message_0x4250_error
        ((s.setRuleOutcome Rule.ModuleOverTemperatureInternal false).setRuleOutcome
          Rule.ModuleOverTemperatureExternal true) := by
    simp [pylonHV_message_0x4250_error, Snapshot.setRuleOutcome]
  unfold pylonHV_message_0x4250
  rw [ha, hp, her, hst, hst, hst, hst]
  rfl

/-! ## Frame 0x4210: temperature field -/

/-- With an external sensor the temperature field of frame 0x4210 is the offset 1000 plus
the reading itself: the reading in whole degrees is added without the factor 10 that the
0.1 degree resolution asks for (and that frames 0x356 and 0x4240 apply). -/
theorem hv_temperature_field (s : Snapshot)
    (hsensor : s.rules.moduleHasExternalTempSensor = true)
    (hlo : -100 ≤ s.rules.highestExternalTemp) (hhi : s.rules.highestExternalTemp ≤ 127) :
    pylonHV_message_0x4210_temperature s = 1000 + s.rules.highestExternalTemp ∧
    decodeLE16 (loByte (pylonHV_message_0x4210_temperature s))
        (hiByte (pylonHV_message_0x4210_temperature s))
      = (1000 + s.rules.highestExternalTemp).toNat := by
  have ht : pylonHV_message_0x4210_temperature s = 1000 + s.rules.highestExternalTemp := by
    simp only [pylonHV_message_0x4210_temperature, hsensor, if_true]
    unfold i16
    omega
  refine ⟨ht, ?_⟩
  rw [ht]
  unfold decodeLE16 loByte hiByte u8
  omega

/-- C10, evaluation at the failing input.  On the running sample pack, whose external
sensor reads 23 degrees, frame 0x4210 carries FF 03 in bytes 4-5, that is the raw value
1023; decoded as (raw - 1000) / 10 this is 2.3 degrees, more than 0.1 away from 23. -/
theorem hv_temperature_roundtrip_fails :
    runningSnapshot.controller_state = ControllerState.Running ∧
    runningSnapshot.rules.moduleHasExternalTempSensor = true ∧
    runningSnapshot.rules.highestExternalTemp = 23 ∧
    pylonHV_message_0x4210 false runningSnapshot =
      ⟨[Event.send 0x421 [0x08, 0x02, 0x30, 0x75, 0xFF, 0x03, 0x00, 0x00] 8], none⟩ ∧
    decodeLE16 0xFF 0x03 = 1023 ∧
    (((decodeLE16 0xFF 0x03 : Nat) : ℚ) - 1000) / 10 = 23 / 10 ∧
    ¬ (|(((decodeLE16 0xFF 0x03 : Nat) : ℚ) - 1000) / 10 - 23| ≤ 1 / 10) := by
  refine ⟨by decide, by decide, by decide, by decide, by decide, ?_, ?_⟩
  · norm_num [decodeLE16]
  · norm_num [decodeLE16, abs_le]

/-! ## Frame 0x351: limits in normal operation -/

/-- C11, counterexample.  In the end-to-end scenario (Running, charging allowed at 54.0 V
and 20.0 A, discharging allowed at 20.0 A) the charge voltage field of frame 0x351 is
540 = 0x021C, bytes 1C 02, not 0x0210 (which is 528, that is 52.8 V). -/
theorem fixture_charge_voltage_is_021C :
    fixtureSnapshot.controller_state = ControllerState.Running ∧
    fixtureSnapshot.rules.IsChargeAllowed = true ∧
    fixtureSnapshot.rules.DynamicChargeVoltage = 540 ∧
    fixtureSnapshot.rules.DynamicChargeCurrent = 200 ∧
    fixtureSnapshot.rules.IsDischargeAllowed = true ∧
    fixtureSnapshot.mysettings.dischargecurrent = 200 ∧
    (pylon_message_351_data fixtureSnapshot).battery_charge_voltage = 0x021C ∧
    (pylon_message_351_data fixtureSnapshot).battery_charge_voltage ≠ 0x0210 ∧
    (pylon_message_351 fixtureSnapshot).payloads =
      [[0x1C, 0x02, 0xC8, 0x00, 0xC8, 0x00, 0xE0, 0x01]] := by
  decide

/-- C11, amended.  For every snapshot in which charging is allowed and not stopped by
balancing, with dynamic charge voltage 540 (54.0 V) and dynamic charge current 200
(20.0 A), and discharging is allowed with configured discharge current 200 (20.0 A), the
payload of frame 0x351 is charge_v = 0x021C (bytes 1C 02), charge_i_limit = 0x00C8,
discharge_i_limit = 0x00C8, then discharge_v, each field little-endian. -/
theorem fixture_limits_frame (s : Snapshot)
    (hcharge : s.rules.IsChargeAllowed = true)
    (hbal : ¬ (s.rules.numberOfBalancingModules > 0 ∧ s.mysettings.stopchargebalance = true))
    (hvolt : s.rules.DynamicChargeVoltage = 540)
    (hcur : s.rules.DynamicChargeCurrent = 200)
    (hdischarge : s.rules.IsDischargeAllowed = true)
    (hdcur : s.mysettings.dischargecurrent = 200) :
    (pylon_message_351_data s).battery_charge_voltage = 0x021C ∧
    (pylon_message_351_data s).battery_charge_current_limit = 0x00C8 ∧
    (pylon_message_351_data s).battery_discharge_current_limit = 0x00C8 ∧
    pylon_message_351 s =
      ⟨[Event.send 0x351
          [0x1C, 0x02, 0xC8, 0x00, 0xC8, 0x00,
           s.mysettings.dischargevolt % 65536 % 256,
           s.mysettings.dischargevolt % 65536 / 256] 8], none⟩ := by
  have h16 : u16 ((s.mysettings.dischargevolt : Int) % 65536)
      = s.mysettings.dischargevolt % 65536 := by
    unfold u16; omega
  have hv : u16 ((540 : Nat) : Int) = 540 := by decide
  have hi : i16 200 = 200 := by decide
  have hi2 : i16 ((200 : Nat) : Int) = 200 := by decide
  have hcv : (pylon_message_351_data s).battery_charge_voltage = 0x021C := by
    simp only [pylon_message_351_data, hcharge, hbal, hvolt, if_true, if_false, hv]
  have hcc : (pylon_message_351_data s).battery_charge_current_limit = 0x00C8 := by
    simp only [pylon_message_351_data, hcharge, hbal, hcur, if_true, if_false, hi]
  have hdc : (pylon_message_351_data s).battery_discharge_current_limit = 0x00C8 := by
    simp only [pylon_message_351_data, hdischarge, hdcur, if_true, hi2]
  have hdv : (pylon_message_351_data s).battery_discharge_voltage
      = u16 s.mysettings.dischargevolt := rfl
  refine ⟨hcv, hcc, hdc, ?_⟩
  have hb0 : u16 ((540 : Nat) : Int) % 256 = 0x1C := by decide
  have hb1 : u16 ((540 : Nat) : Int) / 256 = 0x02 := by decide
  have hb2 : u16 200 % 256 = 0xC8 := by decide
  have hb3 : u16 200 / 256 = 0x00 := by decide
  simp only [pylon_message_351, send_canbus_message, data351.bytes, le16, hcv, hcc, hdc, hdv,
    List.cons_append, List.nil_append, hb0, hb1, hb2, hb3, u16_natCast]
  congr 4
  simp [u16_natCast]

/-- C11, witness: the end-to-end scenario itself. -/
theorem fixture_limits_frame_witness :
    (pylon_message_351_data fixtureSnapshot).battery_charge_voltage = 0x021C ∧
    (pylon_message_351_data fixtureSnapshot).battery_charge_current_limit = 0x00C8 ∧
    (pylon_message_351_data fixtureSnapshot).battery_discharge_current_limit = 0x00C8 ∧
    pylon_message_351 fixtureSnapshot =
      ⟨[Event.send 0x351
          [0x1C, 0x02, 0xC8, 0x00, 0xC8, 0x00,
           fixtureSnapshot.mysettings.dischargevolt % 65536 % 256,
           fixtureSnapshot.mysettings.dischargevolt % 65536 / 256] 8], none⟩ :=
  fixture_limits_frame fixtureSnapshot (by decide) (by decide) (by decide) (by decide)
    (by decide) (by decide)

/-! ## Bursts -/

theorem andThen_mk_none (l : List Event) (b : Outcome) :
    Outcome.andThen ⟨l, none⟩ b = ⟨l ++ b.sent, b.fault⟩ := rfl

/-- A run that did not fault, followed by a second run, leaves both traces one after the
other. -/
theorem andThen_sent_of_no_fault (a b : Outcome) (h : a.fault = none) :
    (a.andThen b).sent = a.sent ++ b.sent := by
  unfold Outcome.andThen
  rw [h]

/-- When Running, frame 0x4210 is one call of the transport. -/
theorem hv4210_is_send (extend : Bool) (s : Snapshot)
    (hrun : s.controller_state = ControllerState.Running) :
    ∃ data, pylonHV_message_0x4210 extend s
      = send_canbus_message (if extend then 0x4211 else 0x421) data 8 := by
  cases extend <;>
    simp [pylonHV_message_0x4210, hrun, DEFAULT_DEVICE_ID_ADDRESS] <;>
    exact ⟨_, rfl⟩

/-- With a nonzero battery capacity, frame 0x4250 is one call of the transport. -/
theorem hv4250_is_send (extend : Bool) (s : Snapshot)
    (hcap : s.mysettings.currentMonitoring_batterycapacity ≠ 0) :
    ∃ data, pylonHV_message_0x4250 extend s
      = send_canbus_message (if extend then 0x4251 else 0x425) data 8 := by
  cases extend <;>
    simp [pylonHV_message_0x4250, hcap, DEFAULT_DEVICE_ID_ADDRESS] <;>
    exact ⟨_, rfl⟩

/-- With at least one cell per bank, frame 0x4270 is one call of the transport. -/
theorem hv4270_is_send (extend : Bool) (s : Snapshot)
    (hper : u8 s.TotalNumberOfCells / u8 s.mysettings.totalNumberOfBanks ≠ 0) :
    ∃ data, pylonHV_message_0x4270 extend s
      = send_canbus_message (if extend then 0x4271 else 0x427) data 8 := by
  have hb : u8 s.mysettings.totalNumberOfBanks ≠ 0 := by
    intro h0
    apply hper
    rw [h0]
    exact Nat.div_zero _
  cases extend <;>
    simp only [pylonHV_message_0x4270, hb, hper, if_false, DEFAULT_DEVICE_ID_ADDRESS] <;>
    exact ⟨_, rfl⟩

/-- With a nonzero bank count, frame 0x7320 is one call of the transport. -/
theorem hv7320_is_send (extend : Bool) (s : Snapshot)
    (hbanks : s.mysettings.totalNumberOfBanks ≠ 0) :
    ∃ data, pylonHV_message_0x7320 extend s
      = send_canbus_message (if extend then 0x7321 else 0x732) data 8 := by
  cases extend <;>
    simp only [pylonHV_message_0x7320, hbanks, if_false, DEFAULT_DEVICE_ID_ADDRESS] <;>
    exact ⟨_, rfl⟩

set_option maxRecDepth 8000 in
/-- C12, counterexample.  On a Running snapshot whose configured battery capacity is 0 the
status burst stops in `pylonHV_message_0x4250` on the division by the capacity: the
transport sees 0x421 .. 0x424 only, and a delay follows the last frame. -/
theorem status_burst_cut_short :
    zeroCapacitySnapshot.controller_state = ControllerState.Running ∧
    (pylonHV_send_message_status false zeroCapacitySnapshot).steps =
      [Step.frame 0x421, Step.pause 10, Step.frame 0x422, Step.pause 10,
       Step.frame 0x423, Step.pause 10, Step.frame 0x424, Step.pause 10] ∧
    (pylonHV_send_message_status false zeroCapacitySnapshot).fault
      = some Fault.divideByZero := by
  decide

/-- C12, amended.  For every Running snapshot in which no divisor is zero (battery
capacity nonzero, bank count nonzero, at least one cell per bank) and either value of
`extend`, the status burst hands the transport 0x421, 0x422, .. , 0x42A in that order
(long form 0x4211 .. 0x42A1), each once, with a delay of 10 between consecutive frames
and none after the last; the info burst likewise sends 0x732, 0x733, 0x731, 0x734; and
running a burst twice in a row on the same snapshot sends the same (identifier, payload)
sequence twice. -/
theorem burst_sequences_fixed (s : Snapshot) (extend : Bool)
    (hrun : s.controller_state = ControllerState.Running)
    (hcap : s.mysettings.currentMonitoring_batterycapacity ≠ 0)
    (hbanks : s.mysettings.totalNumberOfBanks ≠ 0)
    (hper : u8 s.TotalNumberOfCells / u8 s.mysettings.totalNumberOfBanks ≠ 0) :
    (pylonHV_send_message_status extend s).steps =
      [Step.frame (if extend then 0x4211 else 0x421), Step.pause 10,
       Step.frame (if extend then 0x4221 else 0x422), Step.pause 10,
       Step.frame (if extend then 0x4231 else 0x423), Step.pause 10,
       Step.frame (if extend then 0x4241 else 0x424), Step.pause 10,
       Step.frame (if extend then 0x4251 else 0x425), Step.pause 10,
       Step.frame (if extend then 0x4261 else 0x426), Step.pause 10,
       Step.frame (if extend then 0x4271 else 0x427), Step.pause 10,
       Step.frame (if extend then 0x4281 else 0x428), Step.pause 10,
       Step.frame (if extend then 0x4291 else 0x429), Step.pause 10,
       Step.frame (if extend then 0x42A1 else 0x42A)] ∧
    (pylonHV_send_message_status extend s).fault = none ∧
    (pylonHV_send_message_info extend s).steps =
      [Step.frame (if extend then 0x7321 else 0x732), Step.pause 10,
       Step.frame (if extend then 0x7331 else 0x733), Step.pause 10,
       Step.frame (if extend then 0x7311 else 0x731), Step.pause 10,
       Step.frame (if extend then 0x7341 else 0x734)] ∧
    (pylonHV_send_message_info extend s).fault = none ∧
    ((pylonHV_send_message_status extend s).andThen
        (pylonHV_send_message_status extend s)).frames
      = (pylonHV_send_message_status extend s).frames ++
        (pylonHV_send_message_status extend s).frames ∧
    ((pylonHV_send_message_info extend s).andThen
        (pylonHV_send_message_info extend s)).frames
      = (pylonHV_send_message_info extend s).frames ++
        (pylonHV_send_message_info extend s).frames := by
  obtain ⟨d1, h1⟩ := hv4210_is_send extend s hrun
  obtain ⟨d5, h5⟩ := hv4250_is_send extend s hcap
  obtain ⟨d7, h7⟩ := hv4270_is_send extend s hper
  obtain ⟨c2, g2⟩ := hv7320_is_send extend s hbanks
  have hstatus : pylonHV_send_message_status extend s =
      (pylonHV_message_0x4210 extend s).andThen
        ((delay 10).andThen ((pylonHV_message_0x4220 extend s).andThen
        ((delay 10).andThen ((pylonHV_message_0x4230 extend s).andThen
        ((delay 10).andThen ((pylonHV_message_0x4240 extend s).andThen
        ((delay 10).andThen ((pylonHV_message_0x4250 extend s).andThen
        ((delay 10).andThen ((pylonHV_message_0x4260 extend s).andThen
        ((delay 10).andThen ((pylonHV_message_0x4270 extend s).andThen
        ((delay 10).andThen ((pylonHV_message_0x4280 extend s).andThen
        ((delay 10).andThen ((pylonHV_message_0x4290 extend s).andThen
        ((delay 10).andThen (pylonHV_message_0x42A0 extend s)))))))))))))))))) := by
    simp [pylonHV_send_message_status, hrun]
  have hinfo : pylonHV_send_message_info extend s =
      (pylonHV_message_0x7320 extend s).andThen
        ((delay 10).andThen ((pylonHV_message_0x7330 extend s).andThen
        ((delay 10).andThen ((pylonHV_message_0x7310 extend s).andThen
        ((delay 10).andThen (pylonHV_message_0x7340 extend s)))))) := by
    simp [pylonHV_send_message_info, hrun]
  have hsteps : (pylonHV_send_message_status extend s).steps =
      [Step.frame (if extend then 0x4211 else 0x421), Step.pause 10,
       Step.frame (if extend then 0x4221 else 0x422), Step.pause 10,
       Step.frame (if extend then 0x4231 else 0x423), Step.pause 10,
       Step.frame (if extend then 0x4241 else 0x424), Step.pause 10,
       Step.frame (if extend then 0x4251 else 0x425), Step.pause 10,
       Step.frame (if extend then 0x4261 else 0x426), Step.pause 10,
       Step.frame (if extend then 0x4271 else 0x427), Step.pause 10,
       Step.frame (if extend then 0x4281 else 0x428), Step.pause 10,
       Step.frame (if extend then 0x4291 else 0x429), Step.pause 10,
       Step.frame (if extend then 0x42A1 else 0x42A)] := by
    rw [hstatus, h1, h5, h7]
    cases extend <;>
      simp [andThen_mk_none, delay, Outcome.steps, Event.step, pylonHV_message_0x4220,
        pylonHV_message_0x4230, pylonHV_message_0x4240, pylonHV_message_0x4260,
        pylonHV_message_0x4280, pylonHV_message_0x4290, pylonHV_message_0x42A0,
        send_canbus_message, DEFAULT_DEVICE_ID_ADDRESS]
  have hfault : (pylonHV_send_message_status extend s).fault = none := by
    rw [hstatus, h1, h5, h7]
    simp [andThen_mk_none, delay, pylonHV_message_0x4220,
      pylonHV_message_0x4230, pylonHV_message_0x4240, pylonHV_message_0x4260,
      pylonHV_message_0x4280, pylonHV_message_0x4290, pylonHV_message_0x42A0,
      send_canbus_message]
  have histeps : (pylonHV_send_message_info extend s).steps =
      [Step.frame (if extend then 0x7321 else 0x732), Step.pause 10,
       Step.frame (if extend then 0x7331 else 0x733), Step.pause 10,
       Step.frame (if extend then 0x7311 else 0x731), Step.pause 10,
       Step.frame (if extend then 0x7341 else 0x734)] := by
    rw [hinfo, g2]
    cases extend <;>
      simp [andThen_mk_none, delay, Outcome.steps, Event.step, pylonHV_message_0x7310,
        pylonHV_message_0x7330, pylonHV_message_0x7340, send_canbus_message,
        DEFAULT_DEVICE_ID_ADDRESS]
  have hifault : (pylonHV_send_message_info extend s).fault = none := by
    rw [hinfo, g2]
    simp [andThen_mk_none, delay, pylonHV_message_0x7310, pylonHV_message_0x7330,
      pylonHV_message_0x7340, send_canbus_message]
  refine ⟨hsteps, hfault, histeps, hifault, ?_, ?_⟩
  · unfold Outcome.frames
    rw [andThen_sent_of_no_fault _ _ hfault, List.filterMap_append]
  · unfold Outcome.frames
    rw [andThen_sent_of_no_fault _ _ hifault, List.filterMap_append]

/-- C12, witness: the running sample pack, short identifiers. -/
theorem burst_sequences_fixed_witness :
    (pylonHV_send_message_status false runningSnapshot).steps =
      [Step.frame 0x421, Step.pause 10, Step.frame 0x422, Step.pause 10,
       Step.frame 0x423, Step.pause 10, Step.frame 0x424, Step.pause 10,
       Step.frame 0x425, Step.pause 10, Step.frame 0x426, Step.pause 10,
       Step.frame 0x427, Step.pause 10, Step.frame 0x428, Step.pause 10,
       Step.frame 0x429, Step.pause 10, Step.frame 0x42A] ∧
    (pylonHV_send_message_info false runningSnapshot).steps =
      [Step.frame 0x732, Step.pause 10, Step.frame 0x733, Step.pause 10,
       Step.frame 0x731, Step.pause 10, Step.frame 0x734] :=
  have h := burst_sequences_fixed runningSnapshot false (by decide) (by decide) (by decide)
    (by decide)
  ⟨h.1, h.2.2.1⟩

/-- C13. For every snapshot whose controller state is not Running and either value of
`extend`, the info burst and the status burst make no transport call and no delay: their
trace is empty and they return normally. -/
theorem bursts_idle_when_not_running (s : Snapshot) (extend : Bool)
    (hstate : s.controller_state ≠ ControllerState.Running) :
    pylonHV_send_message_info extend s = ⟨[], none⟩ ∧
    pylonHV_send_message_status extend s = ⟨[], none⟩ := by
  constructor
  · simp [pylonHV_send_message_info, hstate, Outcome.nothing]
  · simp [pylonHV_send_message_status, hstate, Outcome.nothing]

/-- C13, witness: the resting sample pack. -/
theorem bursts_idle_when_not_running_witness :
    pylonHV_send_message_info true restingSnapshot = ⟨[], none⟩ ∧
    pylonHV_send_message_status true restingSnapshot = ⟨[], none⟩ :=
  bursts_idle_when_not_running restingSnapshot true (by decide)

/-! ## Permission frames -/

/-- C14. For every snapshot frame 0x35C is one byte, equal to (0x80 if charging is
allowed, else 0) OR (0x40 if discharging is allowed, else 0): bit 7 is set exactly when
charging is allowed, bit 6 exactly when discharging is allowed, bits 0-5 are zero, and
the whole call is a function of the two permission booleans alone. -/
theorem charge_request_byte (s : Snapshot) :
    pylon_message_35c s =
      ⟨[Event.send 0x35C
          [(if s.rules.IsChargeAllowed then 0x80 else 0) |||
            (if s.rules.IsDischargeAllowed then 0x40 else 0)] 1], none⟩ ∧
    (pylon_message_35c_data s).testBit 7 = s.rules.IsChargeAllowed ∧
    (pylon_message_35c_data s).testBit 6 = s.rules.IsDischargeAllowed ∧
    pylon_message_35c_data s &&& 0x3F = 0 := by
  unfold pylon_message_35c pylon_message_35c_data send_canbus_message
  cases s.rules.IsChargeAllowed <;> cases s.rules.IsDischargeAllowed <;> decide

/-- C16. For every snapshot frame 0x4280 has byte 0 = 0x00 if charging is allowed and
0xAA otherwise, byte 1 = 0x00 if discharging is allowed and 0xAA otherwise, and bytes
2-7 all 0x00. -/
theorem forbidden_marks (s : Snapshot) (extend : Bool) :
    pylonHV_message_0x4280 extend s =
      ⟨[Event.send (if extend then 0x4281 else 0x428)
          [if s.rules.IsChargeAllowed then 0x00 else 0xAA,
           if s.rules.IsDischargeAllowed then 0x00 else 0xAA,
           0x00, 0x00, 0x00, 0x00, 0x00, 0x00] 8], none⟩ := by
  cases extend <;> rfl

/-! ## Frame 0x351: balancing -/

/-- C15. For every snapshot in which charging is allowed while modules are balancing and
charging is configured to stop on balancing, frame 0x351 carries the same charge_v and
charge_i_limit as the same snapshot with charging disallowed, namely the stop defaults
(1 and 1; for a DEYE inverter the lowest bank voltage / 100 and 0); its discharge_i_limit
and discharge_v are those of the same snapshot without balancing modules. -/
theorem charge_stopped_by_balancing (s : Snapshot)
    (hcharge : s.rules.IsChargeAllowed = true)
    (hbal : s.rules.numberOfBalancingModules > 0)
    (hstop : s.mysettings.stopchargebalance = true) :
    (pylon_message_351_data s).battery_charge_voltage
      = (pylon_message_351_data (s.setChargeAllowed false)).battery_charge_voltage ∧
    (pylon_message_351_data s).battery_charge_current_limit
      = (pylon_message_351_data (s.setChargeAllowed false)).battery_charge_current_limit ∧
    (pylon_message_351_data s).battery_charge_voltage
      = (if s.mysettings.canbusinverter = CanBusInverter.INVERTER_DEYE
          then u16 (s.rules.lowestBankVoltage / 100 : Nat) else 1) ∧
    (pylon_message_351_data s).battery_charge_current_limit
      = (if s.mysettings.canbusinverter = CanBusInverter.INVERTER_DEYE then 0 else 1) ∧
    (pylon_message_351_data s).battery_discharge_current_limit
      = (pylon_message_351_data (s.setBalancingModules 0)).battery_discharge_current_limit ∧
    (pylon_message_351_data s).battery_discharge_voltage
      = (pylon_message_351_data (s.setBalancingModules 0)).battery_discharge_voltage := by
  refine ⟨?_, ?_, ?_, ?_, rfl, rfl⟩
  · simp [pylon_message_351_data, Snapshot.setChargeAllowed, hcharge, hbal, hstop]
  · simp [pylon_message_351_data, Snapshot.setChargeAllowed, hcharge, hbal, hstop]
  · by_cases hd : s.mysettings.canbusinverter = CanBusInverter.INVERTER_DEYE <;>
      simp [pylon_message_351_data, hcharge, hbal, hstop, hd]
  · by_cases hd : s.mysettings.canbusinverter = CanBusInverter.INVERTER_DEYE <;>
      simp [pylon_message_351_data, hcharge, hbal, hstop, hd]

/-- C15, witness: the scenario pack with two balancing modules and stop-on-balance. -/
theorem charge_stopped_by_balancing_witness :
    (pylon_message_351_data balancingSnapshot).battery_charge_voltage
      = (pylon_message_351_data
          (balancingSnapshot.setChargeAllowed false)).battery_charge_voltage ∧
    (pylon_message_351_data balancingSnapshot).battery_charge_current_limit
      = (pylon_message_351_data
          (balancingSnapshot.setChargeAllowed false)).battery_charge_current_limit ∧
    (pylon_message_351_data balancingSnapshot).battery_charge_voltage
      = (if balancingSnapshot.mysettings.canbusinverter = CanBusInverter.INVERTER_DEYE
          then u16 (balancingSnapshot.rules.lowestBankVoltage / 100 : Nat) else 1) ∧
    (pylon_message_351_data balancingSnapshot).battery_charge_current_limit
      = (if balancingSnapshot.mysettings.canbusinverter = CanBusInverter.INVERTER_DEYE
          then 0 else 1) ∧
    (pylon_message_351_data balancingSnapshot).battery_discharge_current_limit
      = (pylon_message_351_data
          (balancingSnapshot.setBalancingModules 0)).battery_discharge_current_limit ∧
    (pylon_message_351_data balancingSnapshot).battery_discharge_voltage
      = (pylon_message_351_data
          (balancingSnapshot.setBalancingModules 0)).battery_discharge_voltage :=
  charge_stopped_by_balancing balancingSnapshot (by decide) (by decide) (by decide)

/-- The limits frame of the balancing scenario on the wire: stop defaults for charging,
200 (20.0 A) for discharging. -/
theorem balancing_frame_example :
    (pylon_message_351 balancingSnapshot).payloads =
      [[0x01, 0x00, 0x01, 0x00, 0xC8, 0x00, 0xE0, 0x01]] := by
  decide

/-! ## Frame 0x356 -/

/-- The bytes of a signed 16-bit field are those of the value taken modulo 2^16. -/
theorem le16_i16 (x : Int) : le16 (i16 x) = le16 x := by
  have h : u16 (i16 x) = u16 x := by
    unfold u16 i16; omega
  simp [le16, h]

/-- C17. For every snapshot with no enabled-and-valid current monitor, frame 0x356 reports
current 0 and, as a 16-bit little-endian field, the voltage highestBankVoltage / 10
(truncating; the field itself when the quotient is below 2^15).  For every snapshot whose
highest external temperature is a signed 8-bit value, the temperature field is ten times
that temperature when an external sensor is present; without sensor it is 0. -/
theorem telemetry_356_fields (s : Snapshot) :
    (¬ (s.mysettings.currentMonitoringEnabled = true ∧
        s.currentMonitor.validReadings = true) →
      (pylon_message_356_data s).current = 0 ∧
      le16 (pylon_message_356_data s).voltage =
        [s.rules.highestBankVoltage / 10 % 65536 % 256,
         s.rules.highestBankVoltage / 10 % 65536 / 256] ∧
      (s.rules.highestBankVoltage / 10 < 32768 →
        (pylon_message_356_data s).voltage = (s.rules.highestBankVoltage / 10 : Nat)) ∧
      (pylon_message_356 s).payloads.map (List.take 4) =
        [[s.rules.highestBankVoltage / 10 % 65536 % 256,
          s.rules.highestBankVoltage / 10 % 65536 / 256, 0, 0]]) ∧
    (s.rules.moduleHasExternalTempSensor = true →
      -128 ≤ s.rules.highestExternalTemp → s.rules.highestExternalTemp ≤ 127 →
      (pylon_message_356_data s).temperature = 10 * s.rules.highestExternalTemp) ∧
    (s.rules.moduleHasExternalTempSensor = false →
      (pylon_message_356_data s).temperature = 0) ∧
    pylon_message_356 s =
      ⟨[Event.send 0x356
          (le16 (pylon_message_356_data s).voltage ++ le16 (pylon_message_356_data s).current
            ++ le16 (pylon_message_356_data s).temperature) 6], none⟩ := by
  refine ⟨?_, ?_, ?_, rfl⟩
  · intro hmon
    have hm : (s.mysettings.currentMonitoringEnabled && s.currentMonitor.validReadings)
        = false := by
      cases h1 : s.mysettings.currentMonitoringEnabled <;>
        cases h2 : s.currentMonitor.validReadings <;> simp_all
    have hv : (pylon_message_356_data s).voltage
        = i16 ((s.rules.highestBankVoltage / 10 : Nat) : Int) := by
      simp [pylon_message_356_data, hm]
    have hc : (pylon_message_356_data s).current = 0 := by
      simp [pylon_message_356_data, hm]
    have hbytes : le16 (pylon_message_356_data s).voltage =
        [s.rules.highestBankVoltage / 10 % 65536 % 256,
         s.rules.highestBankVoltage / 10 % 65536 / 256] := by
      rw [hv, le16_i16]
      simp only [le16, u16_natCast]
    have hz : le16 0 = [0, 0] := by decide
    refine ⟨hc, hbytes, ?_, ?_⟩
    · intro hsmall
      rw [hv]
      unfold i16
      omega
    · simp [pylon_message_356, send_canbus_message, Outcome.payloads, data356.bytes, hbytes,
        hc, hz]
  · intro hsensor hlo hhi
    simp only [pylon_message_356_data, hsensor, if_true]
    unfold i16
    omega
  · intro hsensor
    simp [pylon_message_356_data, hsensor]

/-- C17, witness: the running sample pack (no current monitor, sensor at 23 degrees) and
the same pack without external sensor. -/
theorem telemetry_356_fields_witness :
    (pylon_message_356_data runningSnapshot).current = 0 ∧
    (pylon_message_356 runningSnapshot).payloads.map (List.take 4) =
      [[runningSnapshot.rules.highestBankVoltage / 10 % 65536 % 256,
        runningSnapshot.rules.highestBankVoltage / 10 % 65536 / 256, 0, 0]] ∧
    (pylon_message_356_data runningSnapshot).temperature
      = 10 * runningSnapshot.rules.highestExternalTemp ∧
    (pylon_message_356_data
      { runningSnapshot with
        rules := { runningSnapshot.rules with moduleHasExternalTempSensor := false } }
      ).temperature = 0 :=
  ⟨((telemetry_356_fields runningSnapshot).1 (by decide)).1,
   ((telemetry_356_fields runningSnapshot).1 (by decide)).2.2.2,
   (telemetry_356_fields runningSnapshot).2.1 (by decide) (by decide) (by decide),
   (telemetry_356_fields _).2.2.1 (by decide)⟩

/-- The frame 0x356 of the running sample pack on the wire: 5200 (0x1450), 0, 230. -/
theorem telemetry_356_example :
    (pylon_message_356 runningSnapshot).payloads = [[0x50, 0x14, 0x00, 0x00, 0xE6, 0x00]] := by
  decide

/-! ## Frame 0x7320 -/

/-- C18. For every snapshot with nonzero bank count (cell count and bank count 8-bit
values, maximum cell millivolts and nominal capacity 16-bit values), frame 0x7320 has the
payload [cells, 0x00, banks, cells / banks, V mod 256, V / 256, C mod 256, C / 256], where
V = (max cell millivolts x cells) / 1000 with truncating division, which is below 2^16,
and C is the nominal capacity. -/
theorem pack_configuration_frame (s : Snapshot) (extend : Bool)
    (hbanks : s.mysettings.totalNumberOfBanks ≠ 0)
    (hbanks8 : s.mysettings.totalNumberOfBanks < 256)
    (hcells8 : s.mysettings.totalNumberOfSeriesModules < 256)
    (hmv16 : s.mysettings.cellmaxmv < 65536)
    (hcap16 : s.mysettings.nominalbatcap < 65536) :
    pylonHV_message_0x7320 extend s =
      ⟨[Event.send (if extend then 0x7321 else 0x732)
          [s.mysettings.totalNumberOfSeriesModules,
           0x00,
           s.mysettings.totalNumberOfBanks,
           s.mysettings.totalNumberOfSeriesModules / s.mysettings.totalNumberOfBanks,
           s.mysettings.cellmaxmv * s.mysettings.totalNumberOfSeriesModules / 1000 % 256,
           s.mysettings.cellmaxmv * s.mysettings.totalNumberOfSeriesModules / 1000 / 256,
           s.mysettings.nominalbatcap % 256,
           s.mysettings.nominalbatcap / 256] 8], none⟩ ∧
    s.mysettings.cellmaxmv * s.mysettings.totalNumberOfSeriesModules / 1000 < 65536 := by
  have hprod : s.mysettings.cellmaxmv * s.mysettings.totalNumberOfSeriesModules
      ≤ 65535 * 255 :=
    Nat.mul_le_mul (by omega) (by omega)
  have hq : s.mysettings.totalNumberOfSeriesModules / s.mysettings.totalNumberOfBanks
      ≤ s.mysettings.totalNumberOfSeriesModules := Nat.div_le_self _ _
  have hV : s.mysettings.cellmaxmv * s.mysettings.totalNumberOfSeriesModules / 1000
      < 65536 := by
    generalize s.mysettings.cellmaxmv * s.mysettings.totalNumberOfSeriesModules = m at hprod ⊢
    omega
  refine ⟨?_, hV⟩
  have e0 : u8 (s.mysettings.totalNumberOfSeriesModules : Int)
      = s.mysettings.totalNumberOfSeriesModules := by
    unfold u8; omega
  have e2 : u8 (s.mysettings.totalNumberOfBanks : Int) = s.mysettings.totalNumberOfBanks := by
    unfold u8; omega
  have e3 : u8 ((s.mysettings.totalNumberOfSeriesModules / s.mysettings.totalNumberOfBanks
      : Nat) : Int)
      = s.mysettings.totalNumberOfSeriesModules / s.mysettings.totalNumberOfBanks := by
    generalize s.mysettings.totalNumberOfSeriesModules / s.mysettings.totalNumberOfBanks
      = q at hq ⊢
    unfold u8; omega
  have e4 : loByte ((u16 ((s.mysettings.cellmaxmv *
        s.mysettings.totalNumberOfSeriesModules / 1000 : Nat) : Int) : Nat) : Int)
      = s.mysettings.cellmaxmv * s.mysettings.totalNumberOfSeriesModules / 1000 % 256 := by
    generalize s.mysettings.cellmaxmv * s.mysettings.totalNumberOfSeriesModules / 1000
      = v at hV ⊢
    unfold loByte u8 u16; omega
  have e5 : hiByte ((u16 ((s.mysettings.cellmaxmv *
        s.mysettings.totalNumberOfSeriesModules / 1000 : Nat) : Int) : Nat) : Int)
      = s.mysettings.cellmaxmv * s.mysettings.totalNumberOfSeriesModules / 1000 / 256 := by
    generalize s.mysettings.cellmaxmv * s.mysettings.totalNumberOfSeriesModules / 1000
      = v at hV ⊢
    unfold hiByte u8 u16; omega
  have e6 : loByte ((u16 (s.mysettings.nominalbatcap : Int) : Nat) : Int)
      = s.mysettings.nominalbatcap % 256 := by
    unfold loByte u8 u16; omega
  have e7 : hiByte ((u16 (s.mysettings.nominalbatcap : Int) : Nat) : Int)
      = s.mysettings.nominalbatcap / 256 := by
    unfold hiByte u8 u16; omega
  cases extend <;>
    simp only [pylonHV_message_0x7320, hbanks, if_false, send_canbus_message, e0, e2, e3, e4,
      e5, e6, e7, DEFAULT_DEVICE_ID_ADDRESS]

/-- C18, witness: the running sample pack, 16 cells of at most 3600 mV in one bank, 222 Ah:
the nominal voltage is 57 V. -/
theorem pack_configuration_frame_witness :
    pylonHV_message_0x7320 false runningSnapshot =
      ⟨[Event.send 0x732
          [runningSnapshot.mysettings.totalNumberOfSeriesModules,
           0x00,
           runningSnapshot.mysettings.totalNumberOfBanks,
           runningSnapshot.mysettings.totalNumberOfSeriesModules /
             runningSnapshot.mysettings.totalNumberOfBanks,
           runningSnapshot.mysettings.cellmaxmv *
             runningSnapshot.mysettings.totalNumberOfSeriesModules / 1000 % 256,
           runningSnapshot.mysettings.cellmaxmv *
             runningSnapshot.mysettings.totalNumberOfSeriesModules / 1000 / 256,
           runningSnapshot.mysettings.nominalbatcap % 256,
           runningSnapshot.mysettings.nominalbatcap / 256] 8], none⟩ ∧
    pylonHV_message_0x7320 false runningSnapshot =
      ⟨[Event.send 0x732 [16, 0x00, 1, 16, 57, 0, 222, 0] 8], none⟩ :=
  ⟨(pack_configuration_frame runningSnapshot false (by decide) (by decide) (by decide)
      (by decide) (by decide)).1,
   by decide⟩

/-! ## Temperature scan of frames 0x4240 and 0x4270 -/

theorem tempScan_eq_upTo (s : Snapshot) :
    tempScan s = tempScanUpTo s (u8 s.TotalNumberOfCells) := rfl

theorem tempScanUpTo_zero (s : Snapshot) : tempScanUpTo s 0 = tempScanInit s := rfl

theorem tempScanUpTo_succ (s : Snapshot) (k : Nat) :
    tempScanUpTo s (k + 1) = tempScanStep s (tempScanUpTo s k) k := by
  simp [tempScanUpTo, List.range_succ]

theorem tempScanStep_cell_tmax (s : Snapshot) (st : TempScan) (i : Nat) :
    (tempScanStep s st i).cell_tmax
      = if s.cmi_internalTemp i > st.cell_tmax then i8 (s.cmi_internalTemp i)
        else st.cell_tmax := by
  by_cases h1 : s.cmi_internalTemp i > st.cell_tmax <;>
    by_cases h2 : s.cmi_internalTemp i < st.cell_tmin <;>
    simp [tempScanStep, h1, h2]

theorem tempScanStep_id_cell_tmax (s : Snapshot) (st : TempScan) (i : Nat) :
    (tempScanStep s st i).id_cell_tmax
      = if s.cmi_internalTemp i > st.cell_tmax then u8 i else st.id_cell_tmax := by
  by_cases h1 : s.cmi_internalTemp i > st.cell_tmax <;>
    by_cases h2 : s.cmi_internalTemp i < st.cell_tmin <;>
    simp [tempScanStep, h1, h2]

theorem tempScanStep_cell_tmin (s : Snapshot) (st : TempScan) (i : Nat) :
    (tempScanStep s st i).cell_tmin
      = if s.cmi_internalTemp i < st.cell_tmin then i8 (s.cmi_internalTemp i)
        else st.cell_tmin := by
  by_cases h1 : s.cmi_internalTemp i > st.cell_tmax <;>
    by_cases h2 : s.cmi_internalTemp i < st.cell_tmin <;>
    simp [tempScanStep, h1, h2]

theorem tempScanStep_id_cell_tmin (s : Snapshot) (st : TempScan) (i : Nat) :
    (tempScanStep s st i).id_cell_tmin
      = if s.cmi_internalTemp i < st.cell_tmin then u8 i else st.id_cell_tmin := by
  by_cases h1 : s.cmi_internalTemp i > st.cell_tmax <;>
    by_cases h2 : s.cmi_internalTemp i < st.cell_tmin <;>
    simp [tempScanStep, h1, h2]

/-- Both indices held by the loop are bytes. -/
theorem tempScanUpTo_ids_lt (s : Snapshot) (k : Nat) :
    (tempScanUpTo s k).id_cell_tmax < 256 ∧ (tempScanUpTo s k).id_cell_tmin < 256 := by
  induction k with
  | zero =>
    rw [tempScanUpTo_zero]
    constructor
    · show u8 (s.rules.address_highestExternalTemp : Int) < 256
      unfold u8; omega
    · show u8 (s.rules.address_lowestExternalTemp : Int) < 256
      unfold u8; omega
  | succ k ih =>
    rw [tempScanUpTo_succ, tempScanStep_id_cell_tmax, tempScanStep_id_cell_tmin]
    constructor
    · split_ifs
      · unfold u8; omega
      · exact ih.1
    · split_ifs
      · unfold u8; omega
      · exact ih.2

/-- Loop invariant for the maximum: after `k` iterations `cell_tmax` is the greatest of
the aggregate and the first `k` readings, and `id_cell_tmax` is the aggregate index as
long as no reading exceeded the aggregate, else the first cell holding the maximum. -/
theorem tempScanUpTo_max (s : Snapshot) (k : Nat) (hk : k ≤ 256)
    (hagg : -128 ≤ s.rules.highestExternalTemp ∧ s.rules.highestExternalTemp ≤ 127)
    (hcells : ∀ i, i < k → -128 ≤ s.cmi_internalTemp i ∧ s.cmi_internalTemp i ≤ 127) :
    s.rules.highestExternalTemp ≤ (tempScanUpTo s k).cell_tmax ∧
    (∀ i, i < k → s.cmi_internalTemp i ≤ (tempScanUpTo s k).cell_tmax) ∧
    (((tempScanUpTo s k).cell_tmax = s.rules.highestExternalTemp ∧
        (tempScanUpTo s k).id_cell_tmax = u8 s.rules.address_highestExternalTemp) ∨
      ((tempScanUpTo s k).id_cell_tmax < k ∧
        s.cmi_internalTemp (tempScanUpTo s k).id_cell_tmax = (tempScanUpTo s k).cell_tmax ∧
        s.rules.highestExternalTemp < (tempScanUpTo s k).cell_tmax ∧
        ∀ j, j < (tempScanUpTo s k).id_cell_tmax →
          s.cmi_internalTemp j < (tempScanUpTo s k).cell_tmax)) := by
  induction k with
  | zero =>
    rw [tempScanUpTo_zero]
    have h8 : i8 s.rules.highestExternalTemp = s.rules.highestExternalTemp := by
      unfold i8; omega
    refine ⟨?_, ?_, ?_⟩
    · show _ ≤ i8 _
      rw [h8]
    · intro i hi
      omega
    · left
      exact ⟨h8, rfl⟩
  | succ k ih =>
    obtain ⟨ih1, ih2, ih3⟩ := ih (by omega) (fun i hi => hcells i (by omega))
    have hk8 : u8 (k : Int) = k := by unfold u8; omega
    have hck := hcells k (by omega)
    have hi8 : i8 (s.cmi_internalTemp k) = s.cmi_internalTemp k := by
      unfold i8; omega
    rw [tempScanUpTo_succ, tempScanStep_cell_tmax, tempScanStep_id_cell_tmax]
    by_cases hgt : s.cmi_internalTemp k > (tempScanUpTo s k).cell_tmax
    · rw [if_pos hgt, if_pos hgt, hi8, hk8]
      refine ⟨by omega, ?_, ?_⟩
      · intro i hi
        by_cases hik : i = k
        · rw [hik]
        · have := ih2 i (by omega)
          omega
      · right
        refine ⟨by omega, rfl, by omega, ?_⟩
        intro j hj
        have := ih2 j hj
        omega
    · rw [if_neg hgt, if_neg hgt]
      refine ⟨ih1, ?_, ?_⟩
      · intro i hi
        by_cases hik : i = k
        · rw [hik]; omega
        · exact ih2 i (by omega)
      · rcases ih3 with h | ⟨h1, h2, h3, h4⟩
        · left; exact h
        · right; exact ⟨by omega, h2, h3, h4⟩

/-- Loop invariant for the minimum, the mirror image of `tempScanUpTo_max`. -/
theorem tempScanUpTo_min (s : Snapshot) (k : Nat) (hk : k ≤ 256)
    (hagg : -128 ≤ s.rules.lowestExternalTemp ∧ s.rules.lowestExternalTemp ≤ 127)
    (hcells : ∀ i, i < k → -128 ≤ s.cmi_internalTemp i ∧ s.cmi_internalTemp i ≤ 127) :
    (tempScanUpTo s k).cell_tmin ≤ s.rules.lowestExternalTemp ∧
    (∀ i, i < k → (tempScanUpTo s k).cell_tmin ≤ s.cmi_internalTemp i) ∧
    (((tempScanUpTo s k).cell_tmin = s.rules.lowestExternalTemp ∧
        (tempScanUpTo s k).id_cell_tmin = u8 s.rules.address_lowestExternalTemp) ∨
      ((tempScanUpTo s k).id_cell_tmin < k ∧
        s.cmi_internalTemp (tempScanUpTo s k).id_cell_tmin = (tempScanUpTo s k).cell_tmin ∧
        (tempScanUpTo s k).cell_tmin < s.rules.lowestExternalTemp ∧
        ∀ j, j < (tempScanUpTo s k).id_cell_tmin →
          (tempScanUpTo s k).cell_tmin < s.cmi_internalTemp j)) := by
  induction k with
  | zero =>
    rw [tempScanUpTo_zero]
    have h8 : i8 s.rules.lowestExternalTemp = s.rules.lowestExternalTemp := by
      unfold i8; omega
    refine ⟨?_, ?_, ?_⟩
    · show i8 _ ≤ _
      rw [h8]
    · intro i hi
      omega
    · left
      exact ⟨h8, rfl⟩
  | succ k ih =>
    obtain ⟨ih1, ih2, ih3⟩ := ih (by omega) (fun i hi => hcells i (by omega))
    have hk8 : u8 (k : Int) = k := by unfold u8; omega
    have hck := hcells k (by omega)
    have hi8 : i8 (s.cmi_internalTemp k) = s.cmi_internalTemp k := by
      unfold i8; omega
    rw [tempScanUpTo_succ, tempScanStep_cell_tmin, tempScanStep_id_cell_tmin]
    by_cases hlt : s.cmi_internalTemp k < (tempScanUpTo s k).cell_tmin
    · rw [if_pos hlt, if_pos hlt, hi8, hk8]
      refine ⟨by omega, ?_, ?_⟩
      · intro i hi
        by_cases hik : i = k
        · rw [hik]
        · have := ih2 i (by omega)
          omega
      · right
        refine ⟨by omega, rfl, by omega, ?_⟩
        intro j hj
        have := ih2 j hj
        omega
    · rw [if_neg hlt, if_neg hlt]
      refine ⟨ih1, ?_, ?_⟩
      · intro i hi
        by_cases hik : i = k
        · rw [hik]; omega
        · exact ih2 i (by omega)
      · rcases ih3 with h | ⟨h1, h2, h3, h4⟩
        · left; exact h
        · right; exact ⟨by omega, h2, h3, h4⟩

theorem loByte_u16 (x : Int) : loByte ((u16 x : Nat) : Int) = u16 x % 256 := by
  unfold loByte u8 u16; omega

theorem hiByte_u16 (x : Int) : hiByte ((u16 x : Nat) : Int) = u16 x / 256 := by
  unfold hiByte u8 u16; omega

/-- C19. Temperature scan of frame 0x4240, for every snapshot whose cell count is a byte
and whose temperatures (both aggregates and the internal reading of every cell below the
cell count n) are signed 8-bit values.  The reported maximum is the greatest of
highestExternalTemp and the internal readings of the cells below n; the reported minimum
is the least of lowestExternalTemp and those readings.  The index reported for the
maximum is the rule engine's index (as a byte) when no internal reading is strictly
greater than the aggregate, and otherwise the lowest cell index attaining the maximum;
symmetrically for the minimum.  Bytes 0-1 and 2-3 are the little-endian 16-bit values
1000 + 10 x max and 1000 + 10 x min (two's complement below -100 degrees), bytes 4 and 6
the two indices, bytes 5 and 7 zero. -/
theorem temperature_extremes_frame (s : Snapshot) (extend : Bool)
    (hn : s.TotalNumberOfCells < 256)
    (hhi : -128 ≤ s.rules.highestExternalTemp ∧ s.rules.highestExternalTemp ≤ 127)
    (hlo : -128 ≤ s.rules.lowestExternalTemp ∧ s.rules.lowestExternalTemp ≤ 127)
    (hcells : ∀ i, i < s.TotalNumberOfCells →
      -128 ≤ s.cmi_internalTemp i ∧ s.cmi_internalTemp i ≤ 127) :
    (s.rules.highestExternalTemp ≤ (tempScan s).cell_tmax ∧
      (∀ i, i < s.TotalNumberOfCells → s.cmi_internalTemp i ≤ (tempScan s).cell_tmax) ∧
      ((tempScan s).cell_tmax = s.rules.highestExternalTemp ∨
        ∃ i, i < s.TotalNumberOfCells ∧ s.cmi_internalTemp i = (tempScan s).cell_tmax)) ∧
    ((tempScan s).cell_tmin ≤ s.rules.lowestExternalTemp ∧
      (∀ i, i < s.TotalNumberOfCells → (tempScan s).cell_tmin ≤ s.cmi_internalTemp i) ∧
      ((tempScan s).cell_tmin = s.rules.lowestExternalTemp ∨
        ∃ i, i < s.TotalNumberOfCells ∧ s.cmi_internalTemp i = (tempScan s).cell_tmin)) ∧
    ((∀ i, i < s.TotalNumberOfCells → s.cmi_internalTemp i ≤ s.rules.highestExternalTemp) →
      (tempScan s).id_cell_tmax = s.rules.address_highestExternalTemp % 256) ∧
    ((∃ i, i < s.TotalNumberOfCells ∧ s.rules.highestExternalTemp < s.cmi_internalTemp i) →
      (tempScan s).id_cell_tmax < s.TotalNumberOfCells ∧
      s.cmi_internalTemp (tempScan s).id_cell_tmax = (tempScan s).cell_tmax ∧
      ∀ j, j < (tempScan s).id_cell_tmax → s.cmi_internalTemp j < (tempScan s).cell_tmax) ∧
    ((∀ i, i < s.TotalNumberOfCells → s.rules.lowestExternalTemp ≤ s.cmi_internalTemp i) →
      (tempScan s).id_cell_tmin = s.rules.address_lowestExternalTemp % 256) ∧
    ((∃ i, i < s.TotalNumberOfCells ∧ s.cmi_internalTemp i < s.rules.lowestExternalTemp) →
      (tempScan s).id_cell_tmin < s.TotalNumberOfCells ∧
      s.cmi_internalTemp (tempScan s).id_cell_tmin = (tempScan s).cell_tmin ∧
      ∀ j, j < (tempScan s).id_cell_tmin → (tempScan s).cell_tmin < s.cmi_internalTemp j) ∧
    pylonHV_message_0x4240 extend s =
      ⟨[Event.send (if extend then 0x4241 else 0x424)
          (le16 (1000 + 10 * (tempScan s).cell_tmax) ++
            le16 (1000 + 10 * (tempScan s).cell_tmin) ++
            [(tempScan s).id_cell_tmax, 0x00, (tempScan s).id_cell_tmin, 0x00]) 8], none⟩ ∧
    (-100 ≤ (tempScan s).cell_tmax →
      ((u16 (1000 + 10 * (tempScan s).cell_tmax) : Nat) : Int)
        = 1000 + 10 * (tempScan s).cell_tmax) ∧
    (-100 ≤ (tempScan s).cell_tmin →
      ((u16 (1000 + 10 * (tempScan s).cell_tmin) : Nat) : Int)
        = 1000 + 10 * (tempScan s).cell_tmin) := by
  have hu : u8 (s.TotalNumberOfCells : Int) = s.TotalNumberOfCells := by
    unfold u8; omega
  have hscan : tempScan s = tempScanUpTo s s.TotalNumberOfCells := by
    rw [tempScan_eq_upTo, hu]
  obtain ⟨hM1, hM2, hM3⟩ := tempScanUpTo_max s s.TotalNumberOfCells (by omega) hhi hcells
  obtain ⟨hm1, hm2, hm3⟩ := tempScanUpTo_min s s.TotalNumberOfCells (by omega) hlo hcells
  rw [← hscan] at hM1 hM2 hM3 hm1 hm2 hm3
  have hMle : (tempScan s).cell_tmax ≤ 127 := by
    rcases hM3 with h | ⟨h1, h2, _, _⟩
    · omega
    · have := hcells _ h1
      omega
  have hmge : -128 ≤ (tempScan s).cell_tmin := by
    rcases hm3 with h | ⟨h1, h2, _, _⟩
    · omega
    · have := hcells _ h1
      omega
  refine ⟨⟨hM1, hM2, ?_⟩, ⟨hm1, hm2, ?_⟩, ?_, ?_, ?_, ?_, ?_, ?_, ?_⟩
  · rcases hM3 with h | ⟨h1, h2, _, _⟩
    · left; exact h.1
    · right; exact ⟨_, h1, h2⟩
  · rcases hm3 with h | ⟨h1, h2, _, _⟩
    · left; exact h.1
    · right; exact ⟨_, h1, h2⟩
  · intro hall
    rcases hM3 with h | ⟨h1, h2, h3, _⟩
    · rw [h.2, u8_natCast]
    · have := hall _ h1
      omega
  · rintro ⟨i, hi, hgt⟩
    rcases hM3 with h | ⟨h1, h2, _, h4⟩
    · have := hM2 i hi
      omega
    · exact ⟨h1, h2, h4⟩
  · intro hall
    rcases hm3 with h | ⟨h1, h2, h3, _⟩
    · rw [h.2, u8_natCast]
    · have := hall _ h1
      omega
  · rintro ⟨i, hi, hlt⟩
    rcases hm3 with h | ⟨h1, h2, _, h4⟩
    · have := hm2 i hi
      omega
    · exact ⟨h1, h2, h4⟩
  · have e1 : 1000 + (tempScan s).cell_tmax * 10 = 1000 + 10 * (tempScan s).cell_tmax := by
      ring
    have e2 : 1000 + (tempScan s).cell_tmin * 10 = 1000 + 10 * (tempScan s).cell_tmin := by
      ring
    cases extend <;>
      simp [pylonHV_message_0x4240, send_canbus_message, le16, loByte_u16, hiByte_u16, e1, e2,
        DEFAULT_DEVICE_ID_ADDRESS]
  · intro h
    unfold u16; omega
  · intro h
    unfold u16; omega

set_option maxRecDepth 8000 in
/-- C19, witness: the uneven sample pack.  Cells 3 and 9 read 41 degrees, above the
aggregate 30: the frame reports 41 and cell 3.  Cells 12 and 14 read 12 degrees, below
the aggregate 15: the frame reports 12 and cell 12. -/
theorem temperature_extremes_frame_witness :
    ((tempScan unevenSnapshot).id_cell_tmax < unevenSnapshot.TotalNumberOfCells ∧
      unevenSnapshot.cmi_internalTemp (tempScan unevenSnapshot).id_cell_tmax
        = (tempScan unevenSnapshot).cell_tmax ∧
      ∀ j, j < (tempScan unevenSnapshot).id_cell_tmax →
        unevenSnapshot.cmi_internalTemp j < (tempScan unevenSnapshot).cell_tmax) ∧
    pylonHV_message_0x4240 false unevenSnapshot =
      ⟨[Event.send 0x424
          (le16 (1000 + 10 * (tempScan unevenSnapshot).cell_tmax) ++
            le16 (1000 + 10 * (tempScan unevenSnapshot).cell_tmin) ++
            [(tempScan unevenSnapshot).id_cell_tmax, 0x00,
             (tempScan unevenSnapshot).id_cell_tmin, 0x00]) 8], none⟩ ∧
    pylonHV_message_0x4240 false unevenSnapshot =
      ⟨[Event.send 0x424 [0x82, 0x05, 0x60, 0x04, 3, 0x00, 12, 0x00] 8], none⟩ :=
  have h := temperature_extremes_frame unevenSnapshot false (by decide) (by decide)
    (by decide) (by decide)
  ⟨h.2.2.2.1 ⟨3, by decide, by decide⟩, h.2.2.2.2.2.2.1, by decide⟩

/-! ## Frame 0x4270: bank indices -/

/-- C20, counterexample.  With one bank (a nonzero bank count) and no cell, the quotient
cells / banks is 0 and `pylonHV_message_0x4270` divides the cell index by it: execution
stops on the division and no frame is sent. -/
theorem bank_index_division_by_zero :
    emptyPackSnapshot.mysettings.totalNumberOfBanks = 1 ∧
    emptyPackSnapshot.TotalNumberOfCells = 0 ∧
    pylonHV_message_0x4270 false emptyPackSnapshot = ⟨[], some Fault.divideByZero⟩ := by
  decide

/-- C20, amended.  For every snapshot with nonzero bank count and at least as many cells
as banks (cell count and bank count bytes), the quotient cells / banks is nonzero, frame
0x4270 is sent, and its byte 4 is idxMax / (cells / banks) and its byte 6 is
idxMin / (cells / banks) with truncating division, where cells = TotalNumberOfCells() and
idxMax, idxMin are the cell indices that frame 0x4240 reports in its bytes 4 and 6. -/
theorem bank_indices_frame (s : Snapshot) (extend : Bool)
    (hcells8 : s.TotalNumberOfCells < 256)
    (hbanks8 : s.mysettings.totalNumberOfBanks < 256)
    (hbanks : s.mysettings.totalNumberOfBanks ≠ 0)
    (hper : s.mysettings.totalNumberOfBanks ≤ s.TotalNumberOfCells) :
    s.TotalNumberOfCells / s.mysettings.totalNumberOfBanks ≠ 0 ∧
    pylonHV_message_0x4270 extend s =
      ⟨[Event.send (if extend then 0x4271 else 0x427)
          (le16 (1000 + 10 * (tempScan s).cell_tmax) ++
            le16 (1000 + 10 * (tempScan s).cell_tmin) ++
            [(tempScan s).id_cell_tmax /
               (s.TotalNumberOfCells / s.mysettings.totalNumberOfBanks), 0x00,
             (tempScan s).id_cell_tmin /
               (s.TotalNumberOfCells / s.mysettings.totalNumberOfBanks), 0x00]) 8], none⟩ ∧
    pylonHV_message_0x4240 extend s =
      ⟨[Event.send (if extend then 0x4241 else 0x424)
          (le16 (1000 + 10 * (tempScan s).cell_tmax) ++
            le16 (1000 + 10 * (tempScan s).cell_tmin) ++
            [(tempScan s).id_cell_tmax, 0x00, (tempScan s).id_cell_tmin, 0x00]) 8], none⟩ := by
  have hc : u8 (s.TotalNumberOfCells : Int) = s.TotalNumberOfCells := by
    unfold u8; omega
  have hb : u8 (s.mysettings.totalNumberOfBanks : Int) = s.mysettings.totalNumberOfBanks := by
    unfold u8; omega
  have hq : s.TotalNumberOfCells / s.mysettings.totalNumberOfBanks ≠ 0 := by
    have hpos : 0 < s.TotalNumberOfCells / s.mysettings.totalNumberOfBanks :=
      Nat.div_pos hper (Nat.pos_of_ne_zero hbanks)
    omega
  have hids := tempScanUpTo_ids_lt s (u8 s.TotalNumberOfCells)
  rw [← tempScan_eq_upTo] at hids
  have hd1 : u8 (((tempScan s).id_cell_tmax /
      (s.TotalNumberOfCells / s.mysettings.totalNumberOfBanks) : Nat) : Int)
      = (tempScan s).id_cell_tmax /
        (s.TotalNumberOfCells / s.mysettings.totalNumberOfBanks) := by
    have hle := Nat.div_le_self (tempScan s).id_cell_tmax
      (s.TotalNumberOfCells / s.mysettings.totalNumberOfBanks)
    rw [u8_natCast]
    exact Nat.mod_eq_of_lt (by omega)
  have hd2 : u8 (((tempScan s).id_cell_tmin /
      (s.TotalNumberOfCells / s.mysettings.totalNumberOfBanks) : Nat) : Int)
      = (tempScan s).id_cell_tmin /
        (s.TotalNumberOfCells / s.mysettings.totalNumberOfBanks) := by
    have hle := Nat.div_le_self (tempScan s).id_cell_tmin
      (s.TotalNumberOfCells / s.mysettings.totalNumberOfBanks)
    rw [u8_natCast]
    exact Nat.mod_eq_of_lt (by omega)
  have e1 : 1000 + (tempScan s).cell_tmax * 10 = 1000 + 10 * (tempScan s).cell_tmax := by
    ring
  have e2 : 1000 + (tempScan s).cell_tmin * 10 = 1000 + 10 * (tempScan s).cell_tmin := by
    ring
  refine ⟨hq, ?_, ?_⟩
  · cases extend <;>
      simp only [pylonHV_message_0x4270, hc, hb, hbanks, hq, if_false, send_canbus_message,
        le16, loByte_u16, hiByte_u16, e1, e2, hd1, hd2, DEFAULT_DEVICE_ID_ADDRESS] <;>
      simp
  · cases extend <;>
      simp [pylonHV_message_0x4240, send_canbus_message, le16, loByte_u16, hiByte_u16, e1, e2,
        DEFAULT_DEVICE_ID_ADDRESS]

set_option maxRecDepth 8000 in
/-- C20, witness: the uneven sample pack, 16 cells in 2 banks, 8 cells per bank.  The
hottest cell 3 lies in bank 0, the coldest cell 12 in bank 1. -/
theorem bank_indices_frame_witness :
    unevenSnapshot.TotalNumberOfCells / unevenSnapshot.mysettings.totalNumberOfBanks ≠ 0 ∧
    pylonHV_message_0x4270 false unevenSnapshot =
      ⟨[Event.send 0x427
          (le16 (1000 + 10 * (tempScan unevenSnapshot).cell_tmax) ++
            le16 (1000 + 10 * (tempScan unevenSnapshot).cell_tmin) ++
            [(tempScan unevenSnapshot).id_cell_tmax /
               (unevenSnapshot.TotalNumberOfCells /
                 unevenSnapshot.mysettings.totalNumberOfBanks), 0x00,
             (tempScan unevenSnapshot).id_cell_tmin /
               (unevenSnapshot.TotalNumberOfCells /
                 unevenSnapshot.mysettings.totalNumberOfBanks), 0x00]) 8], none⟩ ∧
    pylonHV_message_0x4270 false unevenSnapshot =
      ⟨[Event.send 0x427 [0x82, 0x05, 0x60, 0x04, 0, 0x00, 1, 0x00] 8], none⟩ :=
  have h := bank_indices_frame unevenSnapshot false (by decide) (by decide) (by decide)
    (by decide)
  ⟨h.1, h.2.1, by decide⟩

/-! ## Frame 0x4250: status and cycle count -/

/-- With a nonzero battery capacity frame 0x4250 is one call of the transport with the
bytes laid out as status, cycles (16 bits), error, alarm (16 bits), protection (16 bits). -/
theorem hv4250_frame (extend : Bool) (s : Snapshot)
    (hcap : s.mysettings.currentMonitoring_batterycapacity ≠ 0) :
    pylonHV_message_0x4250 extend s =
      ⟨[Event.send (if extend then 0x4251 else 0x425)
          [pylonHV_message_0x4250_status s,
           s.currentMonitor.modbus.milliamphour_out / 1000 /
             s.mysettings.currentMonitoring_batterycapacity % 65536 % 256,
           s.currentMonitor.modbus.milliamphour_out / 1000 /
             s.mysettings.currentMonitoring_batterycapacity % 65536 / 256,
           pylonHV_message_0x4250_error s,
           loByte (pylonHV_message_0x4250_alarm s),
           hiByte (pylonHV_message_0x4250_alarm s),
           loByte (pylonHV_message_0x4250_protection s),
           hiByte (pylonHV_message_0x4250_protection s)] 8], none⟩ := by
  have e1 : ∀ n : Nat, loByte ((u16 (n : Int) : Nat) : Int) = n % 65536 % 256 := by
    intro n; unfold loByte u8 u16; omega
  have e2 : ∀ n : Nat, hiByte ((u16 (n : Int) : Nat) : Int) = n % 65536 / 256 := by
    intro n; unfold hiByte u8 u16; omega
  cases extend <;>
    simp only [pylonHV_message_0x4250, hcap, if_false, send_canbus_message, e1, e2,
      DEFAULT_DEVICE_ID_ADDRESS]

/-- C21, counterexample.  While the charging mode is floating and 5 A flow out of the
battery, the status byte of frame 0x4250 is 2 (discharge), not 3 (idle). -/
theorem floating_status_yields_to_discharge :
    floatingDischargeSnapshot.rules.getChargingMode = ChargingMode.floating ∧
    floatingDischargeSnapshot.currentMonitor.modbus.current = -5 ∧
    pylonHV_message_0x4250_status floatingDischargeSnapshot = 2 ∧
    (pylonHV_message_0x4250 false floatingDischargeSnapshot).payloads.map (List.take 1)
      = [[2]] := by
  decide

/-- C21, amended.  Status byte of frame 0x4250 (byte 0): for every snapshot whose measured
current is negative the status is 2 (discharge), floating or not; for every snapshot in
which the charging mode is floating and the measured current is not negative the status is
3 (idle); when the mode is not floating the status is 1 (charge) if the measured current is
positive and 0 if it is zero.  With a nonzero battery capacity that status is byte 0 of
the frame. -/
theorem status_byte (s : Snapshot) (extend : Bool) :
    (s.currentMonitor.modbus.current < 0 → pylonHV_message_0x4250_status s = 2) ∧
    (s.rules.getChargingMode = ChargingMode.floating →
      ¬ s.currentMonitor.modbus.current < 0 → pylonHV_message_0x4250_status s = 3) ∧
    (s.rules.getChargingMode ≠ ChargingMode.floating →
      s.currentMonitor.modbus.current > 0 → pylonHV_message_0x4250_status s = 1) ∧
    (s.rules.getChargingMode ≠ ChargingMode.floating →
      s.currentMonitor.modbus.current = 0 → pylonHV_message_0x4250_status s = 0) ∧
    (s.mysettings.currentMonitoring_batterycapacity ≠ 0 →
      (pylonHV_message_0x4250 extend s).payloads.map (List.take 1)
        = [[pylonHV_message_0x4250_status s]]) := by
  refine ⟨?_, ?_, ?_, ?_, ?_⟩
  · intro hneg
    simp [pylonHV_message_0x4250_status, hneg]
  · intro hfloat hnn
    simp [pylonHV_message_0x4250_status, hfloat, hnn]
  · intro hmode hpos
    have hnn : ¬ s.currentMonitor.modbus.current < 0 := not_lt.mpr (le_of_lt hpos)
    simp [pylonHV_message_0x4250_status, hmode, hpos, hnn]
  · intro hmode hzero
    simp [pylonHV_message_0x4250_status, hmode, hzero]
  · intro hcap
    rw [hv4250_frame extend s hcap]
    rfl

/-- C21, witness: discharge while floating gives 2, charge current while floating gives 3,
charge current while not floating gives 1. -/
theorem status_byte_witness :
    pylonHV_message_0x4250_status floatingDischargeSnapshot = 2 ∧
    pylonHV_message_0x4250_status floatingSnapshot = 3 ∧
    pylonHV_message_0x4250_status fixtureSnapshot = 1 ∧
    pylonHV_message_0x4250_status runningSnapshot = 0 ∧
    (pylonHV_message_0x4250 false floatingSnapshot).payloads.map (List.take 1)
      = [[pylonHV_message_0x4250_status floatingSnapshot]] :=
  ⟨(status_byte floatingDischargeSnapshot false).1 (by decide),
   (status_byte floatingSnapshot false).2.1 (by decide) (by decide),
   (status_byte fixtureSnapshot false).2.2.1 (by decide) (by decide),
   (status_byte runningSnapshot false).2.2.2.1 (by decide) (by decide),
   (status_byte floatingSnapshot false).2.2.2.2 (by decide)⟩

/-- C22. Cycle count of frame 0x4250: for every snapshot with nonzero configured battery
capacity the frame is sent without fault and its bytes 1-2 are the little-endian encoding
of ((milliamphour_out / 1000) / capacity) mod 2^16, both divisions truncating. -/
theorem cycle_count_bytes (s : Snapshot) (extend : Bool)
    (hcap : s.mysettings.currentMonitoring_batterycapacity ≠ 0) :
    (pylonHV_message_0x4250 extend s).fault = none ∧
    (pylonHV_message_0x4250 extend s).payloads.map (fun p => (p.drop 1).take 2) =
      [[s.currentMonitor.modbus.milliamphour_out / 1000 /
          s.mysettings.currentMonitoring_batterycapacity % 65536 % 256,
        s.currentMonitor.modbus.milliamphour_out / 1000 /
          s.mysettings.currentMonitoring_batterycapacity % 65536 / 256]] ∧
    decodeLE16
        (s.currentMonitor.modbus.milliamphour_out / 1000 /
          s.mysettings.currentMonitoring_batterycapacity % 65536 % 256)
        (s.currentMonitor.modbus.milliamphour_out / 1000 /
          s.mysettings.currentMonitoring_batterycapacity % 65536 / 256)
      = s.currentMonitor.modbus.milliamphour_out / 1000 /
          s.mysettings.currentMonitoring_batterycapacity % 65536 := by
  rw [hv4250_frame extend s hcap]
  refine ⟨rfl, rfl, ?_⟩
  unfold decodeLE16
  omega

/-- C22, witness: 250000 mAh discharged with a capacity of 100 Ah give 2 cycles, bytes
02 00. -/
theorem cycle_count_bytes_witness :
    (pylonHV_message_0x4250 false runningSnapshot).fault = none ∧
    (pylonHV_message_0x4250 false runningSnapshot).payloads.map (fun p => (p.drop 1).take 2) =
      [[runningSnapshot.currentMonitor.modbus.milliamphour_out / 1000 /
          runningSnapshot.mysettings.currentMonitoring_batterycapacity % 65536 % 256,
        runningSnapshot.currentMonitor.modbus.milliamphour_out / 1000 /
          runningSnapshot.mysettings.currentMonitoring_batterycapacity % 65536 / 256]] ∧
    runningSnapshot.currentMonitor.modbus.milliamphour_out = 250000 ∧
    runningSnapshot.mysettings.currentMonitoring_batterycapacity = 100 ∧
    (pylonHV_message_0x4250 false runningSnapshot).payloads.map (fun p => (p.drop 1).take 2)
      = [[2, 0]] :=
  have h := cycle_count_bytes runningSnapshot false (by decide)
  ⟨h.1, h.2.1, by decide, by decide, by decide⟩

/-! ## Frame 0x4220 against frame 0x351 -/

/-- The two bytes `x & 0xFF`, `x >> 8` decode to the value modulo 2^16. -/
theorem decodeLE16_bytes (x : Int) : decodeLE16 (loByte x) (hiByte x) = u16 x := by
  unfold decodeLE16 loByte hiByte u8 u16
  omega

/-- What a receiver decodes from frame 0x4220, in terms of the locals of the encoder. -/
theorem decode_hv_limits (s : Snapshot) (extend : Bool) :
    (pylonHV_message_0x4220 extend s).payloads.map decode_0x4220 =
      [some
        { charge_voltage := u16 (pylonHV_message_0x4220_data s).charge_voltage
          discharge_voltage := u16 (pylonHV_message_0x4220_data s).discharge_voltage
          charge_current := (u16 (pylonHV_message_0x4220_data s).charge_current : Int) - 30000
          discharge_current :=
            (u16 (pylonHV_message_0x4220_data s).discharge_current : Int) - 30000 }] := by
  simp [pylonHV_message_0x4220, send_canbus_message, Outcome.payloads, decode_0x4220,
    decodeLE16_bytes]

/-- C23, counterexample.  On the resting sample pack (charging and discharging both
disallowed) frame 0x4220 decodes to charge voltage 560 and currents 0, 0, where frame
0x351 carries 1, 1, 1; in the end-to-end scenario (both allowed, 20.0 A) the discharge
current decoded from frame 0x4220 is -200 where frame 0x351 carries +200. -/
theorem hv_limits_differ_from_lv :
    (pylonHV_message_0x4220 false restingSnapshot).payloads.map decode_0x4220 =
      [some { charge_voltage := 560, discharge_voltage := 480,
              charge_current := 0, discharge_current := 0 }] ∧
    pylon_message_351_data restingSnapshot =
      { battery_charge_voltage := 1, battery_charge_current_limit := 1,
        battery_discharge_current_limit := 1, battery_discharge_voltage := 480 } ∧
    (pylonHV_message_0x4220 false fixtureSnapshot).payloads.map decode_0x4220 =
      [some { charge_voltage := 540, discharge_voltage := 480,
              charge_current := 200, discharge_current := -200 }] ∧
    pylon_message_351_data fixtureSnapshot =
      { battery_charge_voltage := 540, battery_charge_current_limit := 200,
        battery_discharge_current_limit := 200, battery_discharge_voltage := 480 } := by
  decide

/-- C23, amended.  For every snapshot the discharge voltage decoded from frame 0x4220
equals the discharge_v field of frame 0x351.  When charging is allowed and not stopped by
balancing (dynamic charge current between -30000 and 32767), the charge voltage and the
charge current (bytes 4-5 minus 30000) decoded from frame 0x4220 equal charge_v and
charge_i_limit of frame 0x351.  When discharging is allowed (configured discharge current
at most 30000), the discharge current decoded from frame 0x4220 (bytes 6-7 minus 30000)
is the negative of discharge_i_limit of frame 0x351. -/
theorem hv_limits_mirror (s : Snapshot) (extend : Bool) :
    ∃ hv : HvLimits,
      (pylonHV_message_0x4220 extend s).payloads.map decode_0x4220 = [some hv] ∧
      hv.discharge_voltage = (pylon_message_351_data s).battery_discharge_voltage ∧
      (s.rules.IsChargeAllowed = true →
        ¬ (s.rules.numberOfBalancingModules > 0 ∧ s.mysettings.stopchargebalance = true) →
        -30000 ≤ s.rules.DynamicChargeCurrent → s.rules.DynamicChargeCurrent ≤ 32767 →
        hv.charge_voltage = (pylon_message_351_data s).battery_charge_voltage ∧
        hv.charge_current = (pylon_message_351_data s).battery_charge_current_limit) ∧
      (s.rules.IsDischargeAllowed = true → s.mysettings.dischargecurrent ≤ 30000 →
        hv.discharge_current = -(pylon_message_351_data s).battery_discharge_current_limit) := by
  refine ⟨_, decode_hv_limits s extend, ?_, ?_, ?_⟩
  · show u16 ((u16 (s.mysettings.dischargevolt : Int) : Nat) : Int)
      = u16 (s.mysettings.dischargevolt : Int)
    unfold u16; omega
  · intro hcharge hbal hlo hhi
    constructor
    · show u16 (((pylonHV_message_0x4220_data s).charge_voltage : Nat) : Int)
        = (pylon_message_351_data s).battery_charge_voltage
      simp only [pylonHV_message_0x4220_data, pylon_message_351_data, hcharge, hbal, if_true,
        if_false]
      unfold u16; omega
    · show (u16 (pylonHV_message_0x4220_data s).charge_current : Int) - 30000
        = (pylon_message_351_data s).battery_charge_current_limit
      simp only [pylonHV_message_0x4220_data, pylon_message_351_data, hcharge, hbal, if_true,
        if_false]
      unfold u16 i16; omega
  · intro hdis hmax
    show (u16 (pylonHV_message_0x4220_data s).discharge_current : Int) - 30000
      = -(pylon_message_351_data s).battery_discharge_current_limit
    simp only [pylonHV_message_0x4220_data, pylon_message_351_data, hdis, if_true]
    unfold u16 i16; omega

/-- C23, witness: the end-to-end scenario, both directions allowed at 20.0 A. -/
theorem hv_limits_mirror_witness :
    ∃ hv : HvLimits,
      (pylonHV_message_0x4220 false fixtureSnapshot).payloads.map decode_0x4220 = [some hv] ∧
      hv.discharge_voltage = (pylon_message_351_data fixtureSnapshot).battery_discharge_voltage ∧
      (hv.charge_voltage = (pylon_message_351_data fixtureSnapshot).battery_charge_voltage ∧
        hv.charge_current
          = (pylon_message_351_data fixtureSnapshot).battery_charge_current_limit) ∧
      hv.discharge_current
        = -(pylon_message_351_data fixtureSnapshot).battery_discharge_current_limit :=
  match hv_limits_mirror fixtureSnapshot false with
  | ⟨hv, h1, h2, h3, h4⟩ =>
    ⟨hv, h1, h2, h3 (by decide) (by decide) (by decide) (by decide),
      h4 (by decide) (by decide)⟩

/-! ## Frame 0x351: discharge current limit -/

/-- C24, counterexample.  On the running sample pack without any current monitor
(monitoring disabled, no valid readings) and with discharging allowed, the
discharge_i_limit field of frame 0x351 is the configured discharge current 200, not the
stop default 1. -/
theorem discharge_limit_without_monitor :
    dischargingSnapshot.mysettings.currentMonitoringEnabled = false ∧
    dischargingSnapshot.currentMonitor.validReadings = false ∧
    currentMonitorSupported dischargingSnapshot = false ∧
    dischargingSnapshot.rules.IsDischargeAllowed = true ∧
    dischargingSnapshot.mysettings.dischargecurrent = 200 ∧
    (pylon_message_351_data dischargingSnapshot).battery_discharge_current_limit = 200 ∧
    (pylon_message_351 dischargingSnapshot).payloads =
      [[0x01, 0x00, 0x01, 0x00, 0xC8, 0x00, 0xE0, 0x01]] := by
  decide

/-- C24, amended.  For every snapshot, the discharge_i_limit field of frame 0x351 holds the
configured discharge current (as a signed 16-bit value) when discharging is allowed,
whether or not a current monitor is present; when discharging is not allowed it holds the
stop default (1, or 0 for a DEYE inverter).  The field is the same for any two snapshots
that differ only in the current monitor. -/
theorem discharge_limit_field (s : Snapshot) :
    (s.rules.IsDischargeAllowed = true →
      (pylon_message_351_data s).battery_discharge_current_limit
        = i16 s.mysettings.dischargecurrent ∧
      (s.mysettings.dischargecurrent ≤ 32767 →
        (pylon_message_351_data s).battery_discharge_current_limit
          = s.mysettings.dischargecurrent)) ∧
    (s.rules.IsDischargeAllowed = false →
      (pylon_message_351_data s).battery_discharge_current_limit
        = (if s.mysettings.canbusinverter = CanBusInverter.INVERTER_DEYE then 0 else 1)) ∧
    (∀ (enabled valid : Bool) (device : CurrentMonitorDevice)
        (readings : currentmonitor_raw_modbus),
      (pylon_message_351_data
          { s with
            mysettings :=
              { s.mysettings with
                currentMonitoringEnabled := enabled, currentMonitoringDevice := device }
            currentMonitor := { validReadings := valid, modbus := readings } }
        ).battery_discharge_current_limit
        = (pylon_message_351_data s).battery_discharge_current_limit) := by
  refine ⟨?_, ?_, ?_⟩
  · intro hdis
    have h : (pylon_message_351_data s).battery_discharge_current_limit
        = i16 s.mysettings.dischargecurrent := by
      simp [pylon_message_351_data, hdis]
    refine ⟨h, ?_⟩
    intro hmax
    rw [h]
    unfold i16; omega
  · intro hdis
    by_cases hd : s.mysettings.canbusinverter = CanBusInverter.INVERTER_DEYE <;>
      simp [pylon_message_351_data, hdis, hd]
  · intro enabled valid device readings
    rfl

/-- C24, witness: without current monitor the sample pack carries 200 when discharging is
allowed and the stop default 1 when it is not. -/
theorem discharge_limit_field_witness :
    (pylon_message_351_data dischargingSnapshot).battery_discharge_current_limit
      = dischargingSnapshot.mysettings.dischargecurrent ∧
    (pylon_message_351_data runningSnapshot).battery_discharge_current_limit
      = (if runningSnapshot.mysettings.canbusinverter = CanBusInverter.INVERTER_DEYE
          then 0 else 1) :=
  ⟨((discharge_limit_field dischargingSnapshot).1 (by decide)).2 (by decide),
   (discharge_limit_field runningSnapshot).2.1 (by decide)⟩

/-! ## Frame 0x4250: error, alarm and protection vectors -/

/-- OR-ing the same mask on both sides keeps a bit inclusion. -/
theorem land_lor_keep (a b m : Nat) (h : a &&& b = a) : (a ||| m) &&& (b ||| m) = a ||| m := by
  apply Nat.eq_of_testBit_eq
  intro i
  have hi : (a &&& b).testBit i = a.testBit i := by rw [h]
  simp only [Nat.testBit_and, Nat.testBit_or] at hi ⊢
  revert hi
  cases a.testBit i <;> cases b.testBit i <;> cases m.testBit i <;> simp

/-- OR-ing a mask on the larger side keeps a bit inclusion. -/
theorem land_lor_widen (a b m : Nat) (h : a &&& b = a) : a &&& (b ||| m) = a := by
  apply Nat.eq_of_testBit_eq
  intro i
  have hi : (a &&& b).testBit i = a.testBit i := by rw [h]
  simp only [Nat.testBit_and, Nat.testBit_or] at hi ⊢
  revert hi
  cases a.testBit i <;> cases b.testBit i <;> cases m.testBit i <;> simp

/-- Two conditional ORs commute. -/
theorem orStep_comm (z : Nat) (x y : Bool × Nat) :
    orStep (orStep z x) y = orStep (orStep z y) x := by
  obtain ⟨cx, mx⟩ := x
  obtain ⟨cy, my⟩ := y
  cases cx <;> cases cy <;> simp [orStep, Nat.or_assoc, Nat.or_comm mx my]

/-- The OR-reduction does not depend on the order of the table. -/
theorem orReduce_perm (l t : List (Bool × Nat)) (h : l.Perm t) : orReduce l = orReduce t :=
  List.Perm.foldl_eq' h (fun x _ y _ z => orStep_comm z x y) 0

/-- Turning conditions of a table from false to true never clears a bit of the running
value. -/
theorem foldl_orStep_mono (t t' : List (Bool × Nat)) (h : TableLe t t') :
    ∀ a a' : Nat, a &&& a' = a →
      t.foldl orStep a &&& t'.foldl orStep a' = t.foldl orStep a := by
  unfold TableLe at h
  induction h with
  | nil =>
    intro a a' haa
    simpa using haa
  | @cons e e' l l' hd _ ih =>
    intro a a' haa
    simp only [List.foldl_cons]
    apply ih
    obtain ⟨c, m⟩ := e
    obtain ⟨c', m'⟩ := e'
    obtain ⟨hm, hc⟩ := hd
    simp only at hm hc
    subst hm
    cases c <;> cases c'
    · simpa [orStep] using haa
    · simpa [orStep] using land_lor_widen a a' m haa
    · exact absurd (hc rfl) (by decide)
    · simpa [orStep] using land_lor_keep a a' m haa

/-- Turning conditions of a table from false to true never clears a bit of its
OR-reduction. -/
theorem orReduce_mono (t t' : List (Bool × Nat)) (h : TableLe t t') :
    orReduce t &&& orReduce t' = orReduce t :=
  foldl_orStep_mono t t' h 0 0 (by decide)

theorem error_eq_table (s : Snapshot) :
    pylonHV_message_0x4250_error s = orReduce (errorTable s) := rfl

theorem alarm_eq_table (s : Snapshot) :
    pylonHV_message_0x4250_alarm s = orReduce (alarmTable s) := rfl

theorem protection_eq_table (s : Snapshot) :
    pylonHV_message_0x4250_protection s = orReduce (protectionTable s) := rfl

theorem bor_imp {a b a' b' : Bool} (h1 : a = true → a' = true) (h2 : b = true → b' = true) :
    (a || b) = true → (a' || b') = true := by
  cases a <;> cases b <;> simp_all

/-- When every rule outcome and both threshold comparisons of `s` that hold also hold in
`s'`, the three tables of `s` lie entry by entry below those of `s'`. -/
theorem tables_le (s s' : Snapshot)
    (hrules : ∀ r, s.rules.ruleOutcome r = true → s'.rules.ruleOutcome r = true)
    (hhigh : s.rules.highestCellVoltage > s.mysettings.cellmaxmv →
      s'.rules.highestCellVoltage > s'.mysettings.cellmaxmv)
    (hlow : s.rules.lowestCellVoltage < s.mysettings.cellminmv →
      s'.rules.lowestCellVoltage < s'.mysettings.cellminmv) :
    TableLe (errorTable s) (errorTable s') ∧
    TableLe (alarmTable s) (alarmTable s') ∧
    TableLe (protectionTable s) (protectionTable s') := by
  have dhigh : decide (s.rules.highestCellVoltage > s.mysettings.cellmaxmv) = true →
      decide (s'.rules.highestCellVoltage > s'.mysettings.cellmaxmv) = true :=
    fun h => decide_eq_true (hhigh (of_decide_eq_true h))
  have dlow : decide (s.rules.lowestCellVoltage < s.mysettings.cellminmv) = true →
      decide (s'.rules.lowestCellVoltage < s'.mysettings.cellminmv) = true :=
    fun h => decide_eq_true (hlow (of_decide_eq_true h))
  refine ⟨?_, ?_, ?_⟩
  · exact List.Forall₂.cons ⟨rfl, hrules _⟩ (List.Forall₂.cons ⟨rfl, hrules _⟩ List.Forall₂.nil)
  · exact List.Forall₂.cons ⟨rfl, bor_imp (hrules _) (hrules _)⟩
      (List.Forall₂.cons ⟨rfl, bor_imp (hrules _) (hrules _)⟩
      (List.Forall₂.cons ⟨rfl, hrules _⟩
      (List.Forall₂.cons ⟨rfl, hrules _⟩
      (List.Forall₂.cons ⟨rfl, hrules _⟩
      (List.Forall₂.cons ⟨rfl, bor_imp (hrules _) dhigh⟩
      (List.Forall₂.cons ⟨rfl, bor_imp (hrules _) dlow⟩ List.Forall₂.nil))))))
  · exact List.Forall₂.cons ⟨rfl, hrules _⟩
      (List.Forall₂.cons ⟨rfl, hrules _⟩
      (List.Forall₂.cons ⟨rfl, hrules _⟩
      (List.Forall₂.cons ⟨rfl, hrules _⟩
      (List.Forall₂.cons ⟨rfl, bor_imp (hrules _) (hrules _)⟩
      (List.Forall₂.cons ⟨rfl, bor_imp (hrules _) (hrules _)⟩
      (List.Forall₂.cons ⟨rfl, bor_imp (hrules _) dhigh⟩
      (List.Forall₂.cons ⟨rfl, bor_imp (hrules _) dlow⟩ List.Forall₂.nil)))))))

/-- General monotonicity of the three vectors of frame 0x4250: when every rule outcome and
both threshold comparisons that hold in `s` also hold in `s'`, every bit set for `s` is
set for `s'`. -/
theorem vectors_mono (s s' : Snapshot)
    (hrules : ∀ r, s.rules.ruleOutcome r = true → s'.rules.ruleOutcome r = true)
    (hhigh : s.rules.highestCellVoltage > s.mysettings.cellmaxmv →
      s'.rules.highestCellVoltage > s'.mysettings.cellmaxmv)
    (hlow : s.rules.lowestCellVoltage < s.mysettings.cellminmv →
      s'.rules.lowestCellVoltage < s'.mysettings.cellminmv) :
    pylonHV_message_0x4250_error s &&& pylonHV_message_0x4250_error s'
      = pylonHV_message_0x4250_error s ∧
    pylonHV_message_0x4250_alarm s &&& pylonHV_message_0x4250_alarm s'
      = pylonHV_message_0x4250_alarm s ∧
    pylonHV_message_0x4250_protection s &&& pylonHV_message_0x4250_protection s'
      = pylonHV_message_0x4250_protection s := by
  obtain ⟨he, ha, hp⟩ := tables_le s s' hrules hhigh hlow
  simp only [error_eq_table, alarm_eq_table, protection_eq_table]
  exact ⟨orReduce_mono _ _ he, orReduce_mono _ _ ha, orReduce_mono _ _ hp⟩

/-- C25. In frame 0x4250 the error byte, the alarm vector and the protection vector are
OR-reductions of their (condition, mask) tables.  For every snapshot, turning any one rule
outcome to true, or raising the highest cell voltage above its threshold, or lowering the
lowest cell voltage below its threshold, everything else fixed, never clears a bit that
was set in any of the three; and evaluating the conditions of a table in any other order
gives the same value. -/
theorem alarm_bits_are_or (s : Snapshot) :
    (∀ r : Rule,
      pylonHV_message_0x4250_error s &&&
          pylonHV_message_0x4250_error (s.setRuleOutcome r true)
        = pylonHV_message_0x4250_error s ∧
      pylonHV_message_0x4250_alarm s &&&
          pylonHV_message_0x4250_alarm (s.setRuleOutcome r true)
        = pylonHV_message_0x4250_alarm s ∧
      pylonHV_message_0x4250_protection s &&&
          pylonHV_message_0x4250_protection (s.setRuleOutcome r true)
        = pylonHV_message_0x4250_protection s) ∧
    (∀ v : Nat, s.mysettings.cellmaxmv < v →
      pylonHV_message_0x4250_error s &&&
          pylonHV_message_0x4250_error (s.setHighestCellVoltage v)
        = pylonHV_message_0x4250_error s ∧
      pylonHV_message_0x4250_alarm s &&&
          pylonHV_message_0x4250_alarm (s.setHighestCellVoltage v)
        = pylonHV_message_0x4250_alarm s ∧
      pylonHV_message_0x4250_protection s &&&
          pylonHV_message_0x4250_protection (s.setHighestCellVoltage v)
        = pylonHV_message_0x4250_protection s) ∧
    (∀ v : Nat, v < s.mysettings.cellminmv →
      pylonHV_message_0x4250_error s &&&
          pylonHV_message_0x4250_error (s.setLowestCellVoltage v)
        = pylonHV_message_0x4250_error s ∧
      pylonHV_message_0x4250_alarm s &&&
          pylonHV_message_0x4250_alarm (s.setLowestCellVoltage v)
        = pylonHV_message_0x4250_alarm s ∧
      pylonHV_message_0x4250_protection s &&&
          pylonHV_message_0x4250_protection (s.setLowestCellVoltage v)
        = pylonHV_message_0x4250_protection s) ∧
    (∀ l : List (Bool × Nat), l.Perm (errorTable s) →
      orReduce l = pylonHV_message_0x4250_error s) ∧
    (∀ l : List (Bool × Nat), l.Perm (alarmTable s) →
      orReduce l = pylonHV_message_0x4250_alarm s) ∧
    (∀ l : List (Bool × Nat), l.Perm (protectionTable s) →
      orReduce l = pylonHV_message_0x4250_protection s) := by
  refine ⟨?_, ?_, ?_, ?_, ?_, ?_⟩
  · intro r
    apply vectors_mono s (s.setRuleOutcome r true)
    · intro q hq
      show (if q = r then true else s.rules.ruleOutcome q) = true
      split
      · rfl
      · exact hq
    · exact fun h => h
    · exact fun h => h
  · intro v hv
    exact vectors_mono s (s.setHighestCellVoltage v) (fun _ h => h) (fun _ => hv) (fun h => h)
  · intro v hv
    exact vectors_mono s (s.setLowestCellVoltage v) (fun _ h => h) (fun h => h) (fun _ => hv)
  · intro l hl
    rw [error_eq_table]
    exact orReduce_perm l _ hl
  · intro l hl
    rw [alarm_eq_table]
    exact orReduce_perm l _ hl
  · intro l hl
    rw [protection_eq_table]
    exact orReduce_perm l _ hl

/-- C25, witness: on the running sample pack, firing the bank over-voltage rule, a cell at
3700 mV (threshold 3600) and a cell at 2900 mV (threshold 3000) only add bits, and the
alarm table read backwards gives the same vector. -/
theorem alarm_bits_are_or_witness :
    pylonHV_message_0x4250_alarm runningSnapshot &&&
        pylonHV_message_0x4250_alarm (runningSnapshot.setRuleOutcome Rule.BankOverVoltage true)
      = pylonHV_message_0x4250_alarm runningSnapshot ∧
    pylonHV_message_0x4250_alarm runningSnapshot &&&
        pylonHV_message_0x4250_alarm (runningSnapshot.setHighestCellVoltage 3700)
      = pylonHV_message_0x4250_alarm runningSnapshot ∧
    pylonHV_message_0x4250_protection runningSnapshot &&&
        pylonHV_message_0x4250_protection (runningSnapshot.setLowestCellVoltage 2900)
      = pylonHV_message_0x4250_protection runningSnapshot ∧
    orReduce (alarmTable runningSnapshot).reverse
      = pylonHV_message_0x4250_alarm runningSnapshot ∧
    pylonHV_message_0x4250_alarm (runningSnapshot.setRuleOutcome Rule.BankOverVoltage true)
      = 0x0808 ∧
    pylonHV_message_0x4250_alarm (runningSnapshot.setHighestCellVoltage 3700) = 0x0002 ∧
    pylonHV_message_0x4250_protection (runningSnapshot.setLowestCellVoltage 2900)
      = 0x0001 :=
  have h := alarm_bits_are_or runningSnapshot
  ⟨(h.1 Rule.BankOverVoltage).2.1,
   (h.2.1 3700 (by decide)).2.1,
   (h.2.2.1 2900 (by decide)).2.2,
   h.2.2.2.2.1 _ (List.reverse_perm _),
   by decide, by decide, by decide⟩

/-- The alarm and protection vectors as a function of their eight conditions. -/
theorem alarm_protection_relation (muv cuv cov ot ut oc bov buv : Bool) :
    orReduce [(muv, 0x1000), (bov, 0x0808), (buv, 0x0404), (oc, 0x0300), (ot, 0x00A0),
        (ut, 0x0050), (cov, 0x0002), (cuv, 0x0001)]
      = (if muv then
          orReduce [(ot, 0x00A0), (ut, 0x0050), (oc, 0x0300), (bov, 0x0808), (buv, 0x0404),
            (cov, 0x0002), (cuv, 0x0001)] ||| 0x1000
        else
          orReduce [(ot, 0x00A0), (ut, 0x0050), (oc, 0x0300), (bov, 0x0808), (buv, 0x0404),
            (cov, 0x0002), (cuv, 0x0001)]) ∧
    orReduce [(ot, 0x00A0), (ut, 0x0050), (oc, 0x0300), (bov, 0x0808), (buv, 0x0404),
        (cov, 0x0002), (cuv, 0x0001)] < 0x1000 ∧
    orReduce [(muv, 0x1000), (bov, 0x0808), (buv, 0x0404), (oc, 0x0300), (ot, 0x00A0),
        (ut, 0x0050), (cov, 0x0002), (cuv, 0x0001)] < 0x2000 := by
  cases muv <;> cases cuv <;> cases cov <;> cases ot <;> cases ut <;> cases oc <;>
    cases bov <;> cases buv <;> decide

/-- C26. For every snapshot the protection vector of frame 0x4250 equals its alarm vector,
OR-ed with 0x1000 exactly when the ModuleUnderVoltage rule outcome is true; every alarm bit
is also a protection bit; alarm bits 12-15 and protection bits 13-15 are zero; and when
the frame is sent its bytes 4-5 and 6-7 are the two vectors, little-endian. -/
theorem protection_extends_alarm (s : Snapshot) (extend : Bool) :
    pylonHV_message_0x4250_protection s
      = (if s.rules.ruleOutcome Rule.ModuleUnderVoltage
          then pylonHV_message_0x4250_alarm s ||| 0x1000
          else pylonHV_message_0x4250_alarm s) ∧
    pylonHV_message_0x4250_alarm s &&& pylonHV_message_0x4250_protection s
      = pylonHV_message_0x4250_alarm s ∧
    pylonHV_message_0x4250_alarm s &&& 0xF000 = 0 ∧
    pylonHV_message_0x4250_protection s &&& 0xE000 = 0 ∧
    ((pylonHV_message_0x4250 extend s).payloads = [] ∨
      (pylonHV_message_0x4250 extend s).payloads.map (List.drop 4) =
        [[pylonHV_message_0x4250_alarm s % 256, pylonHV_message_0x4250_alarm s / 256,
          pylonHV_message_0x4250_protection s % 256,
          pylonHV_message_0x4250_protection s / 256]]) := by
  obtain ⟨hrel, halarm, hprot⟩ := alarm_protection_relation
    (s.rules.ruleOutcome Rule.ModuleUnderVoltage)
    (s.rules.ruleOutcome Rule.ModuleUnderVoltage ||
      decide (s.rules.lowestCellVoltage < s.mysettings.cellminmv))
    (s.rules.ruleOutcome Rule.ModuleOverVoltage ||
      decide (s.rules.highestCellVoltage > s.mysettings.cellmaxmv))
    (s.rules.ruleOutcome Rule.ModuleOverTemperatureExternal ||
      s.rules.ruleOutcome Rule.ModuleOverTemperatureInternal)
    (s.rules.ruleOutcome Rule.ModuleUnderTemperatureExternal ||
      s.rules.ruleOutcome Rule.ModuleUnderTemperatureInternal)
    (s.rules.ruleOutcome Rule.CurrentMonitorOverCurrentAmps)
    (s.rules.ruleOutcome Rule.BankOverVoltage)
    (s.rules.ruleOutcome Rule.BankUnderVoltage)
  have hrel' : pylonHV_message_0x4250_protection s
      = (if s.rules.ruleOutcome Rule.ModuleUnderVoltage
          then pylonHV_message_0x4250_alarm s ||| 0x1000
          else pylonHV_message_0x4250_alarm s) := hrel
  have halarm' : pylonHV_message_0x4250_alarm s < 0x1000 := halarm
  have hprot' : pylonHV_message_0x4250_protection s < 0x2000 := hprot
  have hincl : pylonHV_message_0x4250_alarm s &&& pylonHV_message_0x4250_protection s
      = pylonHV_message_0x4250_alarm s := by
    rw [hrel']
    split
    · exact land_lor_widen _ _ _ (Nat.and_self _)
    · exact Nat.and_self _
  have hhighA : pylonHV_message_0x4250_alarm s &&& 0xF000 = 0 := by
    apply Nat.eq_of_testBit_eq
    intro i
    rw [Nat.testBit_and, Nat.zero_testBit]
    by_cases hi : i < 12
    · have : Nat.testBit 0xF000 i = false := by
        interval_cases i <;> decide
      rw [this, Bool.and_false]
    · have : (pylonHV_message_0x4250_alarm s).testBit i = false := by
        apply Nat.testBit_lt_two_pow
        calc pylonHV_message_0x4250_alarm s < 2 ^ 12 := halarm'
          _ ≤ 2 ^ i := Nat.pow_le_pow_right (by decide) (by omega)
      rw [this, Bool.false_and]
  have hhighP : pylonHV_message_0x4250_protection s &&& 0xE000 = 0 := by
    apply Nat.eq_of_testBit_eq
    intro i
    rw [Nat.testBit_and, Nat.zero_testBit]
    by_cases hi : i < 13
    · have : Nat.testBit 0xE000 i = false := by
        interval_cases i <;> decide
      rw [this, Bool.and_false]
    · have : (pylonHV_message_0x4250_protection s).testBit i = false := by
        apply Nat.testBit_lt_two_pow
        calc pylonHV_message_0x4250_protection s < 2 ^ 13 := hprot'
          _ ≤ 2 ^ i := Nat.pow_le_pow_right (by decide) (by omega)
      rw [this, Bool.false_and]
  refine ⟨hrel', hincl, hhighA, hhighP, ?_⟩
  by_cases hcap : s.mysettings.currentMonitoring_batterycapacity = 0
  · left
    simp [pylonHV_message_0x4250, hcap, Outcome.crash, Outcome.payloads]
  · right
    rw [hv4250_frame extend s hcap]
    have e1 : loByte ((pylonHV_message_0x4250_alarm s : Nat) : Int)
        = pylonHV_message_0x4250_alarm s % 256 := by
      unfold loByte u8; omega
    have e2 : hiByte ((pylonHV_message_0x4250_alarm s : Nat) : Int)
        = pylonHV_message_0x4250_alarm s / 256 := by
      unfold hiByte u8; omega
    have e3 : loByte ((pylonHV_message_0x4250_protection s : Nat) : Int)
        = pylonHV_message_0x4250_protection s % 256 := by
      unfold loByte u8; omega
    have e4 : hiByte ((pylonHV_message_0x4250_protection s : Nat) : Int)
        = pylonHV_message_0x4250_protection s / 256 := by
      unfold hiByte u8; omega
    simp [Outcome.payloads, e1, e2, e3, e4]

/-- The vectors with every rule fired on the running sample pack: alarm 0x0FFF,
protection 0x1FFF, on the wire FF 0F FF 1F. -/
theorem all_rules_fired_example :
    pylonHV_message_0x4250_alarm { runningSnapshot with
        rules := { runningSnapshot.rules with ruleOutcome := fun _ => true } } = 0x0FFF ∧
    pylonHV_message_0x4250_protection { runningSnapshot with
        rules := { runningSnapshot.rules with ruleOutcome := fun _ => true } } = 0x1FFF ∧
    (pylonHV_message_0x4250 false { runningSnapshot with
        rules := { runningSnapshot.rules with ruleOutcome := fun _ => true } }).payloads
      = [[0x00, 0x02, 0x00, 0x84, 0xFF, 0x0F, 0xFF, 0x1F]] := by
  decide

/-! ## Single-precision arithmetic of the current-monitor branch -/

/-- The exponent found by halving is the binary logarithm of the library. -/
theorem log2Fuel_eq_log2 (fuel n : Nat) (h : n ≤ fuel) : log2Fuel fuel n = Nat.log2 n := by
  induction fuel generalizing n with
  | zero =>
    have hn : n = 0 := by omega
    subst hn
    rw [Nat.log2]
    simp [log2Fuel]
  | succ fuel ih =>
    rw [Nat.log2]
    unfold log2Fuel
    by_cases h2 : n < 2
    · have hlt : ¬ n ≥ 2 := by omega
      simp [h2, hlt]
    · have hge : n ≥ 2 := by omega
      simp only [h2, if_false, hge, if_true]
      rw [ih (n / 2) (by omega)]

/-- The `float` nearest to 1.3 is 10905190 / 2^23; ten times it is 13 - 2^-21, a tie
between two `float`s, which goes to the even one, 13. -/
theorem f32round_tie_example : f32round (10905190 / 8388608 * 10) = 13 := by
  have hn : ((10905190 : ℚ) / 8388608 * 10).num.natAbs = 27262975 := by norm_num
  have hd : ((10905190 : ℚ) / 8388608 * 10).den = 2097152 := by norm_num
  have hc : f32roundPos 27262975 2097152 = (13631488, 20) := by decide
  have h0 : ((10905190 : ℚ) / 8388608 * 10) ≠ 0 := by norm_num
  have hneg : ¬ ((10905190 : ℚ) / 8388608 * 10) < 0 := by norm_num
  have h20 : Int.toNat 20 = 20 := rfl
  simp only [f32round, if_neg h0, hn, hd, hc, if_neg hneg, h20]
  norm_num

/-- In `float`, 30000 + 13 is 30013. -/
theorem f32round_sum_example : f32round (((30000 : Int) : ℚ) + 13) = 30013 := by
  have hn : ((((30000 : Int) : ℚ) + 13)).num.natAbs = 30013 := by norm_num
  have hd : ((((30000 : Int) : ℚ) + 13)).den = 1 := by norm_num
  have hc : f32roundPos 30013 1 = (15366656, 9) := by decide
  have h0 : (((30000 : Int) : ℚ) + 13) ≠ 0 := by norm_num
  have hneg : ¬ (((30000 : Int) : ℚ) + 13) < 0 := by norm_num
  have h9 : Int.toNat 9 = 9 := rfl
  simp only [f32round, if_neg h0, hn, hd, hc, if_neg hneg, h9]
  norm_num

/-- The `float` nearest to -0.00001 is -10995116 / 2^40; ten times it is a `float`. -/
theorem f32round_small_example :
    f32round (-10995116 / 1099511627776 * 10) = -13743895 / 137438953472 := by
  have hn : ((-10995116 : ℚ) / 1099511627776 * 10).num.natAbs = 13743895 := by norm_num
  have hd : ((-10995116 : ℚ) / 1099511627776 * 10).den = 137438953472 := by norm_num
  have hc : f32roundPos 13743895 137438953472 = (13743895, 37) := by decide
  have h0 : ((-10995116 : ℚ) / 1099511627776 * 10) ≠ 0 := by norm_num
  have hneg : ((-10995116 : ℚ) / 1099511627776 * 10) < 0 := by norm_num
  have h37 : Int.toNat 37 = 37 := rfl
  simp only [f32round, if_neg h0, hn, hd, hc, if_pos hneg, h37]
  norm_num

/-- In `float`, 30000 minus that small product is 30000 again. -/
theorem f32round_absorb_example :
    f32round (((30000 : Int) : ℚ) + -13743895 / 137438953472) = 30000 := by
  have hn : ((((30000 : Int) : ℚ) + -13743895 / 137438953472)).num.natAbs
      = 4123168590416105 := by norm_num
  have hd : ((((30000 : Int) : ℚ) + -13743895 / 137438953472)).den = 137438953472 := by
    norm_num
  have hc : f32roundPos 4123168590416105 137438953472 = (15360000, 9) := by decide
  have h0 : (((30000 : Int) : ℚ) + -13743895 / 137438953472) ≠ 0 := by norm_num
  have hneg : ¬ (((30000 : Int) : ℚ) + -13743895 / 137438953472) < 0 := by norm_num
  have h9 : Int.toNat 9 = 9 := rfl
  simp only [f32round, if_neg h0, hn, hd, hc, if_neg hneg, h9]
  norm_num

theorem truncToInt_intCast (k : Int) : truncToInt (k : ℚ) = k := by
  simp [truncToInt]

/-- Frames of the monitored sample pack with a measured current of 1.3 A (as a `float`):
frame 0x356 carries 13, frame 0x4210 carries 30013 (bytes 3D 75). -/
theorem float_current_example :
    (pylon_message_356_data
      (monitoredSnapshot.setMeasuredCurrent (10905190 / 8388608))).current = 13 ∧
    (pylonHV_message_0x4210 false
      (monitoredSnapshot.setMeasuredCurrent (10905190 / 8388608))).payloads.map
        (fun p => (p.drop 2).take 2) = [[0x3D, 0x75]] := by
  constructor
  · show i16 (truncToInt (f32round (10905190 / 8388608 * 10))) = 13
    rw [f32round_tie_example]
    have h : truncToInt 13 = 13 := truncToInt_intCast 13
    rw [h]
    decide
  · show [[loByte (i16 (truncToInt
        (f32round (((30000 : Int) : ℚ) + f32round (10905190 / 8388608 * 10))))),
      hiByte (i16 (truncToInt
        (f32round (((30000 : Int) : ℚ) + f32round (10905190 / 8388608 * 10)))))]]
      = [[0x3D, 0x75]]
    rw [f32round_tie_example, f32round_sum_example]
    have h : truncToInt 30013 = 30013 := truncToInt_intCast 30013
    rw [h]
    decide

/-- Frames of the monitored sample pack with a measured current of -0.00001 A (as a
`float`): frame 0x356 carries 0, frame 0x4210 carries 30000 (bytes 30 75). -/
theorem float_small_current_example :
    (pylon_message_356_data
      (monitoredSnapshot.setMeasuredCurrent (-10995116 / 1099511627776))).current = 0 ∧
    (pylonHV_message_0x4210 false
      (monitoredSnapshot.setMeasuredCurrent (-10995116 / 1099511627776))).payloads.map
        (fun p => (p.drop 2).take 2) = [[0x30, 0x75]] := by
  constructor
  · show i16 (truncToInt (f32round (-10995116 / 1099511627776 * 10))) = 0
    rw [f32round_small_example]
    have h : truncToInt (-13743895 / 137438953472) = 0 := by
      have hn : ((-13743895 : ℚ) / 137438953472).num = -13743895 := by norm_num
      have hd : ((-13743895 : ℚ) / 137438953472).den = 137438953472 := by norm_num
      simp only [truncToInt, hn, hd]
      decide
    rw [h]
    decide
  · show [[loByte (i16 (truncToInt
        (f32round (((30000 : Int) : ℚ) + f32round (-10995116 / 1099511627776 * 10))))),
      hiByte (i16 (truncToInt
        (f32round (((30000 : Int) : ℚ) + f32round (-10995116 / 1099511627776 * 10)))))]]
      = [[0x30, 0x75]]
    rw [f32round_small_example, f32round_absorb_example]
    have h : truncToInt 30000 = 30000 := truncToInt_intCast 30000
    rw [h]
    decide

end PylonCanbus
